import Mathlib

/-! Profanity XMPP engine: IQ and message handlers.

A shallow embedding of `src/xmpp/iq.c` and `src/xmpp/message.c`.

* A stanza (`xmpp_stanza_t`) is a tree of tags and text nodes.
* A C string that may be `NULL` is an `Option String`.
* A handler is a pure function from the stanza (and the parts of the
  program state it reads) to the list of external calls it makes, in order,
  and its return code (`0` removes the handler, `1` keeps it).
* A handler that dereferences a `NULL` pointer, or reads past the end of an
  array, has result `none`.
-/

namespace Profanity

/-! ## Stanzas (libstrophe) -/

/-- The `xmpp_stanza_t` of libstrophe: a tag with attributes and children, or a text node. -/
inductive Stanza where
  | tag (name : String) (attrs : List (String × String)) (children : List Stanza)
  | text (data : String)

/-- Lookup of a key in an attribute table. -/
def hash_get : List (String × String) → String → Option String
  | [], _ => none
  | (k, v) :: rest, key => if k = key then some v else hash_get rest key

/-- Attribute of a stanza: `NULL` for a text node or a missing attribute. -/
def xmpp_stanza_get_attribute : Stanza → String → Option String
  | .tag _ attrs _, name => hash_get attrs name
  | .text _, _ => none

/-- Name of a stanza: `NULL` for a text node. -/
def xmpp_stanza_get_name : Stanza → Option String
  | .tag name _ _ => some name
  | .text _ => none

/-- Children of a stanza, in document order. -/
def xmpp_stanza_get_children : Stanza → List Stanza
  | .tag _ _ children => children
  | .text _ => []

def STANZA_ATTR_ID : String := "id"
def STANZA_ATTR_FROM : String := "from"
def STANZA_ATTR_TO : String := "to"
def STANZA_ATTR_TYPE : String := "type"
def STANZA_ATTR_NODE : String := "node"
def STANZA_ATTR_XMLNS : String := "xmlns"
def STANZA_ATTR_JID : String := "jid"
def STANZA_ATTR_NICK : String := "nick"
def STANZA_ATTR_VAR : String := "var"
def STANZA_ATTR_NAME : String := "name"
def STANZA_ATTR_CATEGORY : String := "category"

def STANZA_NAME_QUERY : String := "query"
def STANZA_NAME_ERROR : String := "error"
def STANZA_NAME_BODY : String := "body"
def STANZA_NAME_SUBJECT : String := "subject"
def STANZA_NAME_MESSAGE : String := "message"
def STANZA_NAME_FEATURE : String := "feature"
def STANZA_NAME_IDENTITY : String := "identity"
def STANZA_NAME_GONE : String := "gone"
def STANZA_NAME_COMPOSING : String := "composing"
def STANZA_NAME_PAUSED : String := "paused"
def STANZA_NAME_INACTIVE : String := "inactive"

def STANZA_TYPE_ERROR : String := "error"
def STANZA_TYPE_RESULT : String := "result"

/-- The `id` attribute. -/
def xmpp_stanza_get_id (s : Stanza) : Option String :=
  xmpp_stanza_get_attribute s STANZA_ATTR_ID

/-- The `type` attribute. -/
def xmpp_stanza_get_type (s : Stanza) : Option String :=
  xmpp_stanza_get_attribute s STANZA_ATTR_TYPE

/-- The `xmlns` attribute. -/
def xmpp_stanza_get_ns (s : Stanza) : Option String :=
  xmpp_stanza_get_attribute s STANZA_ATTR_XMLNS

/-- First element of a child list that is a tag with the given name. -/
def child_by_name : List Stanza → String → Option Stanza
  | [], _ => none
  | c :: rest, name =>
    if xmpp_stanza_get_name c = some name then some c else child_by_name rest name

/-- First element of a child list whose namespace is the given one. -/
def child_by_ns : List Stanza → String → Option Stanza
  | [], _ => none
  | c :: rest, ns =>
    if xmpp_stanza_get_ns c = some ns then some c else child_by_ns rest ns

/-- First child tag with the given name, `NULL` when there is none. -/
def xmpp_stanza_get_child_by_name (s : Stanza) (name : String) : Option Stanza :=
  child_by_name (xmpp_stanza_get_children s) name

/-- First child in the given namespace, `NULL` when there is none. -/
def xmpp_stanza_get_child_by_ns (s : Stanza) (ns : String) : Option Stanza :=
  child_by_ns (xmpp_stanza_get_children s) ns

/-- Concatenation of the data of the text nodes of a child list. -/
def text_of_children : List Stanza → String
  | [] => ""
  | .text d :: rest => d ++ text_of_children rest
  | .tag _ _ _ :: rest => text_of_children rest

/-- Text of a stanza: the data of a text node, or the concatenated text children of a
tag; `NULL` when a tag has no text at all. -/
def xmpp_stanza_get_text : Stanza → Option String
  | .text d => some d
  | .tag _ _ children =>
    let t := text_of_children children
    if t.data = [] then none else some t

/-! ## glib string helpers -/

/-- Three-way comparison of character sequences, as `strcmp` on the UTF-8 bytes. -/
def strcmp_chars : List Char → List Char → Int
  | [], [] => 0
  | [], _ :: _ => -1
  | _ :: _, [] => 1
  | a :: as, b :: bs =>
    if a.toNat < b.toNat then -1
    else if b.toNat < a.toNat then 1
    else strcmp_chars as bs

/-- The `g_strcmp0` of glib: `strcmp` that accepts `NULL`, which sorts before any string. -/
def g_strcmp0 : Option String → Option String → Int
  | none, none => 0
  | none, some _ => -1
  | some _, none => 1
  | some a, some b => strcmp_chars a.data b.data

/-- Tokens of a character sequence around every occurrence of the delimiter. -/
def strsplit_chars (d : Char) : List Char → List (List Char)
  | [] => [[]]
  | c :: cs =>
    if c = d then [] :: strsplit_chars d cs
    else
      match strsplit_chars d cs with
      | [] => [[c]]
      | t :: ts => (c :: t) :: ts

/-- The `g_strsplit (string, delimiter, -1)` of glib for a one-character delimiter: all
tokens; splitting the empty string gives the empty vector. -/
def g_strsplit (string : String) (delimiter : Char) : List String :=
  if string.data = [] then [] else (strsplit_chars delimiter string.data).map String.mk

/-- The `strcmp` of C on two strings that are not `NULL`. -/
def strcmp (a b : String) : Int := strcmp_chars a.data b.data

/-- The `g_slist_insert_sorted (list, data, g_strcmp0)` of glib: `data` goes before the
first element it does not compare greater than. -/
def g_slist_insert_sorted : List String → String → List String
  | [], data => [data]
  | e :: rest, data =>
    if g_strcmp0 (some data) (some e) > 0 then e :: g_slist_insert_sorted rest data
    else data :: e :: rest

/-! ## Data of the program -/

/-- The `Jid` of jid.h. -/
structure Jid where
  str : String
  localpart : Option String
  domainpart : String
  resourcepart : Option String
  barejid : String
  fulljid : Option String
  deriving DecidableEq

/-- The `DiscoIdentity` built by the disco#info response handler. -/
structure DiscoIdentity where
  name : Option String
  type : Option String
  category : Option String
  deriving DecidableEq

/-- Modelled from the spec: the capability record (`Capabilities` of capabilities.h, which is
not among the sources): identities and features. -/
structure Capabilities where
  identities : List DiscoIdentity
  features : List String
  deriving DecidableEq

/-- Modelled from the spec: the room configuration form (`DataForm` of form.h, which is not
among the sources). -/
structure DataForm where
  form_type : Option String
  fields : List (String × List String)
  deriving DecidableEq

/-- The `struct privilege_set_t` of iq.c. -/
structure privilege_set_t where
  item : String
  privilege : String
  deriving DecidableEq

inductive LogLevel where
  | debug | info | warning | error
  deriving DecidableEq

/-- The `preference_t` of config/preferences.h. -/
inductive preference_t where
  | PREF_SPLASH | PREF_BEEP | PREF_VERCHECK | PREF_THEME | PREF_TITLEBAR_SHOW
  | PREF_TITLEBAR_GOODBYE | PREF_FLASH | PREF_INTYPE | PREF_HISTORY | PREF_CARBONS
  | PREF_MOUSE | PREF_OCCUPANTS | PREF_OCCUPANTS_SIZE | PREF_ROSTER | PREF_ROSTER_SIZE
  | PREF_ROSTER_OFFLINE | PREF_ROSTER_RESOURCE | PREF_ROSTER_BY | PREF_MUC_PRIVILEGES
  | PREF_PRESENCE | PREF_WRAP | PREF_TIME | PREF_TIME_STATUSBAR | PREF_STATUSES
  | PREF_STATUSES_CONSOLE | PREF_STATUSES_CHAT | PREF_STATUSES_MUC | PREF_STATES
  | PREF_OUTTYPE | PREF_NOTIFY_TYPING | PREF_NOTIFY_TYPING_CURRENT | PREF_NOTIFY_MESSAGE
  | PREF_NOTIFY_MESSAGE_CURRENT | PREF_NOTIFY_MESSAGE_TEXT | PREF_NOTIFY_ROOM
  | PREF_NOTIFY_ROOM_CURRENT | PREF_NOTIFY_ROOM_TEXT | PREF_NOTIFY_INVITE | PREF_NOTIFY_SUB
  | PREF_CHLOG | PREF_GRLOG | PREF_AUTOAWAY_CHECK | PREF_AUTOAWAY_MODE | PREF_AUTOAWAY_MESSAGE
  | PREF_CONNECT_ACCOUNT | PREF_DEFAULT_ACCOUNT | PREF_LOG_ROTATE | PREF_LOG_SHARED
  | PREF_OTR_LOG | PREF_OTR_WARN | PREF_OTR_POLICY | PREF_RESOURCE_TITLE
  | PREF_RESOURCE_MESSAGE | PREF_INPBLOCK_DYNAMIC
  deriving DecidableEq

/-- The timed handlers of iq.c. -/
inductive TimedHandler where
  | _ping_timed_handler
  deriving DecidableEq

/-- The handlers that iq.c registers under a request id, each with its `userdata`. -/
inductive IdHandler where
  | _enable_carbons_handler
  | _disable_carbons_handler
  | _disco_info_response_handler (room : Option String)
  | _caps_response_handler
  | _caps_response_handler_for_jid (jid : String)
  | _caps_response_handler_legacy (expected_node : String)
  | _destroy_room_result_handler
  | _room_config_handler
  | _room_config_submit_handler
  | _room_affiliation_list_result_handler (affiliation : String)
  | _room_role_list_result_handler (role : String)
  | _room_affiliation_set_result_handler (affiliation_set : privilege_set_t)
  | _room_role_set_result_handler (role_set : privilege_set_t)
  | _room_kick_result_handler (nick : String)
  | _manual_pong_handler (sent : Int)
  | _pong_handler
  deriving DecidableEq

/-- The `resource_presence_t` of resource.h. -/
inductive resource_presence_t where
  | RESOURCE_ONLINE | RESOURCE_CHAT | RESOURCE_AWAY | RESOURCE_XA | RESOURCE_DND
  deriving DecidableEq

/-- The `jabber_invite_t` of xmpp/xmpp.h. -/
inductive jabber_invite_t where
  | INVITE_DIRECT | INVITE_MEDIATED
  deriving DecidableEq

/-- The `DiscoItem` built by the disco#items result handler. -/
structure DiscoItem where
  jid : String
  name : Option String
  deriving DecidableEq

/-- The handlers that iq.c and message.c register by namespace and type. -/
inductive StanzaHandler where
  | _error_handler
  | _disco_info_get_handler
  | _disco_items_get_handler
  | _disco_items_result_handler
  | _version_get_handler
  | _version_result_handler
  | _ping_get_handler
  | _message_error_handler
  | _groupchat_handler
  | _chat_handler
  | _muc_user_handler
  | _conference_handler
  | _captcha_handler
  deriving DecidableEq

/-- An argument of a format string: a string for `%s`, an `int` for `%d`. -/
inductive FormatArg where
  | s (value : Option String)
  | d (value : Int)
  deriving DecidableEq

/-- An external call made by a handler or a send operation: logging, the capability cache,
the server events (`handle_*`) and libstrophe. -/
inductive Call where
  | log (level : LogLevel) (format : String) (args : List (Option String))
  | caps_contains (ver : String)
  | caps_add_by_ver (ver : String) (caps : Capabilities)
  | caps_map_jid_to_ver (jid : String) (ver : String)
  | caps_add_by_jid (jid : String) (caps : Capabilities)
  | xmpp_id_handler_add (handler : IdHandler) (id : Option String)
  | xmpp_timed_handler_add (handler : TimedHandler) (millis : Int)
  | xmpp_timed_handler_delete (handler : TimedHandler)
  | xmpp_send (stanza : Stanza)
  | handle_autoping_cancel
  | handle_enable_carbons_error (error_message : String)
  | handle_disable_carbons_error (error_message : String)
  | handle_ping_error_result (from_ : Option String) (error_message : String)
  | handle_ping_result (from_ : Option String) (millis : Int)
  | handle_room_destroy (room : String)
  | handle_room_configuration_form_error (from_ : Option String) (message : String)
  | handle_room_configure (room : String) (form : DataForm)
  | handle_room_affiliation_set_error (from_ : Option String) (jid affiliation error : String)
  | handle_room_role_set_error (from_ : Option String) (nick role error : String)
  | handle_room_affiliation_list_result_error (from_ : Option String)
      (affiliation error : String)
  | handle_room_affiliation_list (from_ : Option String) (affiliation : String)
      (jids : List String)
  | handle_room_role_list_result_error (from_ : Option String) (role error : String)
  | handle_room_role_list (from_ : Option String) (role : String) (nicks : List String)
  | handle_room_config_submit_result_error (from_ : Option String) (error : String)
  | handle_room_config_submit_result (from_ : Option String)
  | handle_room_kick_result_error (from_ : Option String) (nick error : String)
  | handle_room_info_error (room : String) (error : String)
  | handle_disco_info_error (from_ : Option String) (error : String)
  | handle_room_disco_info (room : String) (identities : List DiscoIdentity)
      (features : List String)
  | handle_disco_info (from_ : Option String) (identities : List DiscoIdentity)
      (features : List String)
  | handle_room_subject (room : String) (nick : Option String) (subject : Option String)
  | handle_room_broadcast (room_jid : Option String) (message : String)
  | handle_room_history (room_jid : String) (nick : Option String) (tv_stamp : Nat)
      (message : String)
  | handle_room_message (room_jid : String) (nick : Option String) (message : String)
  | handle_incoming_message (barejid : String) (resource : Option String) (message : String)
  | handle_carbon (barejid : String) (message : String)
  | handle_delayed_private_message (fulljid : String) (message : String) (tv_stamp : Nat)
  | handle_incoming_private_message (fulljid : String) (message : String)
  | handle_delayed_message (barejid : String) (message : String) (tv_stamp : Nat)
  | handle_gone (barejid : String) (resource : Option String)
  | handle_typing (barejid : String) (resource : Option String)
  | handle_paused (barejid : String) (resource : Option String)
  | handle_inactive (barejid : String) (resource : Option String)
  | handle_activity (barejid : String) (resource : Option String) (send_states : Bool)
  | cons_show (format : String) (args : List (Option String))
  | cons_show_error (format : String) (args : List (Option String))
  | prefs_set_boolean (pref : preference_t) (value : Bool)
  | chat_session_resource_override (barejid : String) (resource : String)
  | chat_session_remove (barejid : String)
  | presence_join_room (room : String) (nick : String) (passwd : Option String)
  | muc_join (room : String) (nick : String) (passwd : Option String) (autojoin : Bool)
  | ui_switch_to_room (room : String)
  | cons_show_args (format : String) (args : List FormatArg)
  | prefs_set_autoping (value : Int)
  | prefs_set_gone (value : Int)
  | accounts_set_priority_all (account_name : Option String) (value : Int)
  | presence_update (last_presence : resource_presence_t) (msg : Option String) (idle : Int)
  | xmpp_handler_add (handler : StanzaHandler) (ns : Option String) (name : String)
      (type : Option String)
  | handle_software_version_result (jid : Option String) (presence : String)
      (name version os : Option String)
  | handle_message_error (jid : Option String) (type : Option String) (err_msg : String)
  | handle_room_invite (invite_type : jabber_invite_t) (invitor : String) (room : String)
      (reason : Option String)
  | handle_room_list (items : List DiscoItem) (from_ : Option String)
  | handle_disco_items (items : List DiscoItem) (from_ : Option String)
  | ui_invalid_command_usage (usage : String)
  | ui_current_print_formatted_line (show_char : Char) (attrs : Int) (message : String)
  | prefs_add_alias (name : String) (value : String)
  | cmd_autocomplete_add (value : String)
  | cmd_alias_add (value : String)
  | prefs_remove_alias (name : String)
  | cmd_autocomplete_remove (value : String)
  | cmd_alias_remove (value : String)
  | cons_show_aliases (aliases : List (String × String))
  | cons_alert

/-- The functions, constants and program state that iq.c and message.c use and that are
defined in files which are not among the sources (stanza.c, stanza.h, jid.c, muc.c,
capabilities.c, form.c, connection.c): they are parameters of the embedding. -/
structure Env where
  STANZA_NS_CARBONS : String
  STANZA_NS_FORWARD : String
  STANZA_NS_CONFERENCE : String
  STANZA_NS_MUC_USER : String
  STANZA_NS_MUC_ADMIN : String
  STANZA_NS_CAPTCHA : String
  STANZA_NS_DATA : String
  /-- Never returns `NULL` ("stanza_get_error never returns NULL", message.c). -/
  stanza_get_error_message : Stanza → String
  /-- The time of a delayed-delivery child, when there is one. -/
  stanza_get_delay : Stanza → Option Nat
  stanza_contains_chat_state : Stanza → Bool
  /-- The verification string computed from a disco#info query. -/
  caps_create_sha1_str : Stanza → String
  caps_create : Stanza → Capabilities
  form_create : Stanza → DataForm
  /-- The Jid parsed from a string that is not `NULL`; `NULL` when the string is no Jid. -/
  jid_parse : String → Option Jid
  jid_is_valid_room_form : Jid → Bool
  muc_active : String → Bool
  jabber_get_fulljid : Option String
  stanza_create_disco_info_iq : String → String → Option String → Stanza
  stanza_create_instant_room_destroy_iq : String → Stanza
  stanza_create_room_kick_iq : String → String → Option String → Stanza
  stanza_create_room_affiliation_set_iq : String → String → String → Option String → Stanza
  stanza_create_room_role_set_iq : String → String → String → Option String → Stanza

/-- Modelled from the spec: `jid_create` of jid.c, which is not among the sources. No Jid
can be built from an absent string; a string is parsed, and rejected when it is invalid. -/
def jid_create (env : Env) : Option String → Option Jid
  | none => none
  | some str => env.jid_parse str

/-! ## iq.c: the handlers registered under a request id -/

/-- The debug line every handler starts with: with the id when there is one. -/
def log_fired (with_id without_id : String) (id : Option String) : List Call :=
  match id with
  | some i => [Call.log .debug with_id [some i]]
  | none => [Call.log .debug without_id []]

/-- The `_pong_handler` of iq.c (autoping). -/
def _pong_handler (env : Env) (stanza : Stanza) : List Call × Int :=
  let id := xmpp_stanza_get_id stanza
  let type := xmpp_stanza_get_type stanza
  let fired := log_fired "IQ pong handler fired, id: %s." "IQ pong handler fired." id
  let rest : List Call :=
    match id, type with
    | some i, some t =>
      -- show warning if error
      if strcmp t STANZA_TYPE_ERROR = 0 then
        let error_msg := env.stanza_get_error_message stanza
        let warn := [Call.log .warning "Server ping (id=%s) responded with error: %s"
          [some i, some error_msg]]
        -- turn off autoping if error type is 'cancel'
        match xmpp_stanza_get_child_by_name stanza STANZA_NAME_ERROR with
        | some error =>
          match xmpp_stanza_get_type error with
          | some errtype =>
            if strcmp errtype "cancel" = 0 then
              warn ++ [Call.log .warning
                  "Server ping (id=%s) error type 'cancel', disabling autoping." [some i],
                Call.handle_autoping_cancel,
                Call.xmpp_timed_handler_delete TimedHandler._ping_timed_handler]
            else warn
          | none => warn
        | none => warn
      else []
    | _, _ => []
  -- remove this handler
  (fired ++ rest, 0)

/-- The log lines shared by the three capabilities handlers. -/
def log_caps_fired (id : Option String) : List Call :=
  match id with
  | some i => [Call.log .info "Capabilities response handler fired for id %s" [some i]]
  | none => [Call.log .info "Capabilities response handler fired" []]

/-- The `_caps_response_handler` of iq.c. The capability cache is read through
`caps_contains`. The result is `none` when `split[1]` lies past the end of the vector that
`g_strsplit` returns, which happens for an empty node attribute. -/
def _caps_response_handler (env : Env) (caps_contains : String → Bool) (stanza : Stanza) :
    Option (List Call × Int) :=
  let id := xmpp_stanza_get_attribute stanza STANZA_ATTR_ID
  let query := xmpp_stanza_get_child_by_name stanza STANZA_NAME_QUERY
  let type := xmpp_stanza_get_type stanza
  -- ignore non result
  if g_strcmp0 type (some "get") = 0 ∨ g_strcmp0 type (some "set") = 0 then some ([], 1)
  else
    let fired := log_caps_fired id
    match xmpp_stanza_get_attribute stanza STANZA_ATTR_FROM with
    | none => some (fired ++ [Call.log .info "No from attribute" []], 0)
    | some from_ =>
      -- handle error responses
      if g_strcmp0 type (some STANZA_TYPE_ERROR) = 0 then
        let error_message := env.stanza_get_error_message stanza
        some (fired ++ [Call.log .warning
          "Error received for capabilities response from %s: " [some from_, some error_message]], 0)
      else
        match query with
        | none => some (fired ++ [Call.log .warning "No query element found." []], 0)
        | some query =>
          match xmpp_stanza_get_attribute query STANZA_ATTR_NODE with
          | none => some (fired ++ [Call.log .warning "No node attribute found" []], 0)
          | some node =>
            -- validate sha1
            match g_strsplit node '#' with
            | [] => none
            | _ :: split_tail =>
              let given_sha1 : Option String := split_tail.head?
              let generated_sha1 := env.caps_create_sha1_str query
              if g_strcmp0 given_sha1 (some generated_sha1) ≠ 0 then
                some (fired ++ [
                  Call.log .warning "Generated sha-1 does not match given:" [],
                  Call.log .warning "Generated : %s" [some generated_sha1],
                  Call.log .warning "Given     : %s" [given_sha1]], 0)
              else
                match given_sha1 with
                | none => none -- not reached: generated_sha1 is not NULL
                | some given =>
                  let valid := [Call.log .info "Valid SHA-1 hash found: %s" [some given]]
                  let store :=
                    if caps_contains given then
                      [Call.caps_contains given,
                       Call.log .info "Capabilties already cached: %s" [some given]]
                    else
                      [Call.caps_contains given,
                       Call.log .info "Capabilities not cached: %s, storing" [some given],
                       Call.caps_add_by_ver given (env.caps_create query)]
                  some (fired ++ valid ++ store ++ [Call.caps_map_jid_to_ver from_ given], 0)

/-- The `_caps_response_handler_for_jid` of iq.c; `jid` is the userdata. -/
def _caps_response_handler_for_jid (env : Env) (jid : String) (stanza : Stanza) :
    List Call × Int :=
  let id := xmpp_stanza_get_attribute stanza STANZA_ATTR_ID
  let query := xmpp_stanza_get_child_by_name stanza STANZA_NAME_QUERY
  let type := xmpp_stanza_get_type stanza
  -- ignore non result
  if g_strcmp0 type (some "get") = 0 ∨ g_strcmp0 type (some "set") = 0 then ([], 1)
  else
    let fired := log_caps_fired id
    match xmpp_stanza_get_attribute stanza STANZA_ATTR_FROM with
    | none => (fired ++ [Call.log .info "No from attribute" []], 0)
    | some from_ =>
      -- handle error responses
      if g_strcmp0 type (some STANZA_TYPE_ERROR) = 0 then
        let error_message := env.stanza_get_error_message stanza
        (fired ++ [Call.log .warning
          "Error received for capabilities response from %s: " [some from_, some error_message]], 0)
      else
        match query with
        | none => (fired ++ [Call.log .warning "No query element found." []], 0)
        | some query =>
          match xmpp_stanza_get_attribute query STANZA_ATTR_NODE with
          | none => (fired ++ [Call.log .warning "No node attribute found" []], 0)
          | some _ =>
            (fired ++ [Call.log .info "Associating capabilities with: %s" [some jid],
              Call.caps_add_by_jid jid (env.caps_create query)], 0)

/-- The `_caps_response_handler_legacy` of iq.c; `expected_node` is the userdata. -/
def _caps_response_handler_legacy (env : Env) (caps_contains : String → Bool)
    (expected_node : String) (stanza : Stanza) : List Call × Int :=
  let id := xmpp_stanza_get_attribute stanza STANZA_ATTR_ID
  let query := xmpp_stanza_get_child_by_name stanza STANZA_NAME_QUERY
  let type := xmpp_stanza_get_type stanza
  -- ignore non result
  if g_strcmp0 type (some "get") = 0 ∨ g_strcmp0 type (some "set") = 0 then ([], 1)
  else
    let fired := log_caps_fired id
    match xmpp_stanza_get_attribute stanza STANZA_ATTR_FROM with
    | none => (fired ++ [Call.log .info "No from attribute" []], 0)
    | some from_ =>
      -- handle error responses
      if g_strcmp0 type (some STANZA_TYPE_ERROR) = 0 then
        let error_message := env.stanza_get_error_message stanza
        (fired ++ [Call.log .warning
          "Error received for capabilities response from %s: " [some from_, some error_message]], 0)
      else
        match query with
        | none => (fired ++ [Call.log .warning "No query element found." []], 0)
        | some query =>
          match xmpp_stanza_get_attribute query STANZA_ATTR_NODE with
          | none => (fired ++ [Call.log .warning "No node attribute found" []], 0)
          | some node =>
            -- nodes match
            if g_strcmp0 (some expected_node) (some node) = 0 then
              let matched := [Call.log .info "Legacy capabilities, nodes match %s" [some node]]
              let store :=
                if caps_contains node then
                  [Call.caps_contains node,
                   Call.log .info "Capabilties already cached: %s" [some node]]
                else
                  [Call.caps_contains node,
                   Call.log .info "Capabilities not cached: %s, storing" [some node],
                   Call.caps_add_by_ver node (env.caps_create query)]
              (fired ++ matched ++ store ++ [Call.caps_map_jid_to_ver from_ node], 0)
            -- node match fail
            else
              (fired ++ [Call.log .info
                "Legacy Capabilities nodes do not match, expeceted %s, given %s."
                [some expected_node, some node]], 0)

/-- The `_enable_carbons_handler` of iq.c. -/
def _enable_carbons_handler (env : Env) (stanza : Stanza) : List Call × Int :=
  let type := xmpp_stanza_get_type stanza
  if g_strcmp0 type (some "error") = 0 then
    let error_message := env.stanza_get_error_message stanza
    ([Call.handle_enable_carbons_error error_message,
      Call.log .debug "Error enabling carbons: %s" [some error_message]], 0)
  else
    ([Call.log .debug "Message carbons enabled." []], 0)

/-- The `_disable_carbons_handler` of iq.c. -/
def _disable_carbons_handler (env : Env) (stanza : Stanza) : List Call × Int :=
  let type := xmpp_stanza_get_type stanza
  if g_strcmp0 type (some "error") = 0 then
    let error_message := env.stanza_get_error_message stanza
    ([Call.handle_disable_carbons_error error_message,
      Call.log .debug "Error disabling carbons: %s" [some error_message]], 0)
  else
    ([Call.log .debug "Message carbons disabled." []], 0)

/-- Conversion of a 64-bit value to the 32-bit `int` of C. -/
def to_int32 (x : Int) : Int := (x + 2147483648) % 4294967296 - 2147483648

/-- The `_manual_pong_handler` of iq.c; `sent` is the userdata and `now` the time of
arrival, both in microseconds. -/
def _manual_pong_handler (env : Env) (sent now : Int) (stanza : Stanza) : List Call × Int :=
  let from_ := xmpp_stanza_get_attribute stanza STANZA_ATTR_FROM
  let type := xmpp_stanza_get_type stanza
  -- handle error responses
  if g_strcmp0 type (some STANZA_TYPE_ERROR) = 0 then
    let error_message := env.stanza_get_error_message stanza
    ([Call.handle_ping_error_result from_ error_message], 0)
  else
    let elapsed := now - sent
    let elapsed_millis := to_int32 (Int.tdiv elapsed 1000)
    ([Call.handle_ping_result from_ elapsed_millis], 0)

/-- The `_destroy_room_result_handler` of iq.c. -/
def _destroy_room_result_handler (stanza : Stanza) : List Call × Int :=
  let id := xmpp_stanza_get_attribute stanza STANZA_ATTR_ID
  let fired := log_fired "IQ destroy room result handler fired, id: %s."
    "IQ destroy room result handler fired." id
  match xmpp_stanza_get_attribute stanza STANZA_ATTR_FROM with
  | none => (fired ++ [Call.log .error "No from attribute for IQ destroy room result" []], 0)
  | some from_ => (fired ++ [Call.handle_room_destroy from_], 0)

/-- The `_room_config_handler` of iq.c. -/
def _room_config_handler (env : Env) (stanza : Stanza) : List Call × Int :=
  let id := xmpp_stanza_get_attribute stanza STANZA_ATTR_ID
  let type := xmpp_stanza_get_type stanza
  let from_ := xmpp_stanza_get_attribute stanza STANZA_ATTR_FROM
  let fired := log_fired "IQ room config handler fired, id: %s." "IQ room config handler fired." id
  -- handle error responses
  if g_strcmp0 type (some STANZA_TYPE_ERROR) = 0 then
    let error_message := env.stanza_get_error_message stanza
    (fired ++ [Call.handle_room_configuration_form_error from_ error_message], 0)
  else
    match from_ with
    | none =>
      (fired ++ [Call.log .warning "No from attribute for IQ config request result" [],
        Call.handle_room_configuration_form_error none
          "No from attribute for room cofig response."], 0)
    | some room =>
      match xmpp_stanza_get_child_by_name stanza STANZA_NAME_QUERY with
      | none =>
        (fired ++ [Call.log .warning "No query element found parsing room config response" [],
          Call.handle_room_configuration_form_error (some room)
            "No query element found parsing room config response"], 0)
      | some query =>
        match xmpp_stanza_get_child_by_ns query env.STANZA_NS_DATA with
        | none =>
          (fired ++ [Call.log .warning
              "No x element found with %s namespace parsing room config response"
              [some env.STANZA_NS_DATA],
            Call.handle_room_configuration_form_error (some room)
              "No form configuration options available"], 0)
        | some x =>
          let form_type := xmpp_stanza_get_attribute x STANZA_ATTR_TYPE
          if g_strcmp0 form_type (some "form") ≠ 0 then
            (fired ++ [Call.log .warning
                "x element not of type 'form' parsing room config response" [],
              Call.handle_room_configuration_form_error (some room)
                "Form not of type 'form' parsing room config response."], 0)
          else
            (fired ++ [Call.handle_room_configure room (env.form_create x)], 0)

/-- The `_room_affiliation_set_result_handler` of iq.c; `affiliation_set` is the userdata. -/
def _room_affiliation_set_result_handler (env : Env) (affiliation_set : privilege_set_t)
    (stanza : Stanza) : List Call × Int :=
  let id := xmpp_stanza_get_attribute stanza STANZA_ATTR_ID
  let type := xmpp_stanza_get_type stanza
  let from_ := xmpp_stanza_get_attribute stanza STANZA_ATTR_FROM
  let fired := log_fired "IQ affiliation set handler fired, id: %s."
    "IQ affiliation set handler fired." id
  -- handle error responses
  if g_strcmp0 type (some STANZA_TYPE_ERROR) = 0 then
    let error_message := env.stanza_get_error_message stanza
    (fired ++ [Call.handle_room_affiliation_set_error from_ affiliation_set.item
      affiliation_set.privilege error_message], 0)
  else (fired, 0)

/-- The `_room_role_set_result_handler` of iq.c; `role_set` is the userdata. -/
def _room_role_set_result_handler (env : Env) (role_set : privilege_set_t)
    (stanza : Stanza) : List Call × Int :=
  let id := xmpp_stanza_get_attribute stanza STANZA_ATTR_ID
  let type := xmpp_stanza_get_type stanza
  let from_ := xmpp_stanza_get_attribute stanza STANZA_ATTR_FROM
  let fired := log_fired "IQ role set handler fired, id: %s." "IQ role set handler fired." id
  -- handle error responses
  if g_strcmp0 type (some STANZA_TYPE_ERROR) = 0 then
    let error_message := env.stanza_get_error_message stanza
    (fired ++ [Call.handle_room_role_set_error from_ role_set.item role_set.privilege
      error_message], 0)
  else (fired, 0)

/-- The loop of the list handlers over the children of the muc#admin query: the given
attribute of every `item` child, inserted in order into the sorted list. -/
def collect_items (attr : String) : List Stanza → List String → List String
  | [], acc => acc
  | child :: rest, acc =>
    let name := xmpp_stanza_get_name child
    if g_strcmp0 name (some "item") = 0 then
      match xmpp_stanza_get_attribute child attr with
      | some v => collect_items attr rest (g_slist_insert_sorted acc v)
      | none => collect_items attr rest acc
    else collect_items attr rest acc

/-- The `_room_affiliation_list_result_handler` of iq.c; `affiliation` is the userdata. -/
def _room_affiliation_list_result_handler (env : Env) (affiliation : String)
    (stanza : Stanza) : List Call × Int :=
  let id := xmpp_stanza_get_attribute stanza STANZA_ATTR_ID
  let type := xmpp_stanza_get_type stanza
  let from_ := xmpp_stanza_get_attribute stanza STANZA_ATTR_FROM
  let fired := log_fired "IQ affiliation list result handler fired, id: %s."
    "IQ affiliation list result handler fired." id
  -- handle error responses
  if g_strcmp0 type (some STANZA_TYPE_ERROR) = 0 then
    let error_message := env.stanza_get_error_message stanza
    (fired ++ [Call.handle_room_affiliation_list_result_error from_ affiliation error_message], 0)
  else
    let jids :=
      match xmpp_stanza_get_child_by_ns stanza env.STANZA_NS_MUC_ADMIN with
      | some query => collect_items STANZA_ATTR_JID (xmpp_stanza_get_children query) []
      | none => []
    (fired ++ [Call.handle_room_affiliation_list from_ affiliation jids], 0)

/-- The `_room_role_list_result_handler` of iq.c; `role` is the userdata. -/
def _room_role_list_result_handler (env : Env) (role : String) (stanza : Stanza) :
    List Call × Int :=
  let id := xmpp_stanza_get_attribute stanza STANZA_ATTR_ID
  let type := xmpp_stanza_get_type stanza
  let from_ := xmpp_stanza_get_attribute stanza STANZA_ATTR_FROM
  let fired := log_fired "IQ role list result handler fired, id: %s."
    "IQ role list result handler fired." id
  -- handle error responses
  if g_strcmp0 type (some STANZA_TYPE_ERROR) = 0 then
    let error_message := env.stanza_get_error_message stanza
    (fired ++ [Call.handle_room_role_list_result_error from_ role error_message], 0)
  else
    let nicks :=
      match xmpp_stanza_get_child_by_ns stanza env.STANZA_NS_MUC_ADMIN with
      | some query => collect_items STANZA_ATTR_NICK (xmpp_stanza_get_children query) []
      | none => []
    (fired ++ [Call.handle_room_role_list from_ role nicks], 0)

/-- The `_room_config_submit_handler` of iq.c. -/
def _room_config_submit_handler (env : Env) (stanza : Stanza) : List Call × Int :=
  let id := xmpp_stanza_get_attribute stanza STANZA_ATTR_ID
  let type := xmpp_stanza_get_type stanza
  let from_ := xmpp_stanza_get_attribute stanza STANZA_ATTR_FROM
  let fired := log_fired "IQ room config submit handler fired, id: %s."
    "IQ room config submit handler fired." id
  -- handle error responses
  if g_strcmp0 type (some STANZA_TYPE_ERROR) = 0 then
    let error_message := env.stanza_get_error_message stanza
    (fired ++ [Call.handle_room_config_submit_result_error from_ error_message], 0)
  else
    (fired ++ [Call.handle_room_config_submit_result from_], 0)

/-- The `_room_kick_result_handler` of iq.c; `nick` is the userdata. -/
def _room_kick_result_handler (env : Env) (nick : String) (stanza : Stanza) :
    List Call × Int :=
  let id := xmpp_stanza_get_attribute stanza STANZA_ATTR_ID
  let type := xmpp_stanza_get_type stanza
  let from_ := xmpp_stanza_get_attribute stanza STANZA_ATTR_FROM
  let fired := log_fired "IQ kick result handler fired, id: %s." "IQ kick result handler fired." id
  -- handle error responses
  if g_strcmp0 type (some STANZA_TYPE_ERROR) = 0 then
    let error_message := env.stanza_get_error_message stanza
    (fired ++ [Call.handle_room_kick_result_error from_ nick error_message], 0)
  else (fired, 0)

/-- The loop of `_disco_info_response_handler` over the children of the query: the
identities and the features, each in document order. -/
def collect_disco_info : List Stanza → List DiscoIdentity × List String
  | [] => ([], [])
  | child :: rest =>
    let (identities, features) := collect_disco_info rest
    let stanza_name := xmpp_stanza_get_name child
    if g_strcmp0 stanza_name (some STANZA_NAME_FEATURE) = 0 then
      match xmpp_stanza_get_attribute child STANZA_ATTR_VAR with
      | some var => (identities, var :: features)
      | none => (identities, features)
    else if g_strcmp0 stanza_name (some STANZA_NAME_IDENTITY) = 0 then
      let name := xmpp_stanza_get_attribute child STANZA_ATTR_NAME
      let type := xmpp_stanza_get_attribute child STANZA_ATTR_TYPE
      let category := xmpp_stanza_get_attribute child STANZA_ATTR_CATEGORY
      if name ≠ none ∨ category ≠ none ∨ type ≠ none then
        (DiscoIdentity.mk name type category :: identities, features)
      else (identities, features)
    else (identities, features)

/-- The `_disco_info_response_handler` of iq.c; `room` is the userdata, `NULL` for a request
made by `iq_disco_info_request`. -/
def _disco_info_response_handler (env : Env) (room : Option String) (stanza : Stanza) :
    List Call × Int :=
  let from_ := xmpp_stanza_get_attribute stanza STANZA_ATTR_FROM
  let type := xmpp_stanza_get_type stanza
  let received : List Call :=
    match room with
    | some r => [Call.log .info "Received diso#info response for room: %s" [some r]]
    | none =>
      match from_ with
      | some f => [Call.log .info "Received diso#info response from: %s" [some f]]
      | none => [Call.log .info "Received diso#info response" []]
  -- handle error responses
  if g_strcmp0 type (some STANZA_TYPE_ERROR) = 0 then
    let error_message := env.stanza_get_error_message stanza
    match room with
    | some r => (received ++ [Call.handle_room_info_error r error_message], 0)
    | none => (received ++ [Call.handle_disco_info_error from_ error_message], 0)
  else
    match xmpp_stanza_get_child_by_name stanza STANZA_NAME_QUERY with
    | some query =>
      let (identities, features) := collect_disco_info (xmpp_stanza_get_children query)
      match room with
      | some r => (received ++ [Call.handle_room_disco_info r identities features], 1)
      | none => (received ++ [Call.handle_disco_info from_ identities features], 1)
    | none => (received, 1)

/-- What libstrophe does with a stanza whose id has a registered handler: it calls the
handler with its userdata. `now` is the clock read by the handler, `caps_contains` the
state of the capability cache. -/
def run_id_handler (env : Env) (caps_contains : String → Bool) (now : Int) :
    IdHandler → Stanza → Option (List Call × Int)
  | ._enable_carbons_handler, st => some (_enable_carbons_handler env st)
  | ._disable_carbons_handler, st => some (_disable_carbons_handler env st)
  | ._disco_info_response_handler room, st => some (_disco_info_response_handler env room st)
  | ._caps_response_handler, st => _caps_response_handler env caps_contains st
  | ._caps_response_handler_for_jid jid, st => some (_caps_response_handler_for_jid env jid st)
  | ._caps_response_handler_legacy expected_node, st =>
    some (_caps_response_handler_legacy env caps_contains expected_node st)
  | ._destroy_room_result_handler, st => some (_destroy_room_result_handler st)
  | ._room_config_handler, st => some (_room_config_handler env st)
  | ._room_config_submit_handler, st => some (_room_config_submit_handler env st)
  | ._room_affiliation_list_result_handler affiliation, st =>
    some (_room_affiliation_list_result_handler env affiliation st)
  | ._room_role_list_result_handler role, st => some (_room_role_list_result_handler env role st)
  | ._room_affiliation_set_result_handler affiliation_set, st =>
    some (_room_affiliation_set_result_handler env affiliation_set st)
  | ._room_role_set_result_handler role_set, st =>
    some (_room_role_set_result_handler env role_set st)
  | ._room_kick_result_handler nick, st => some (_room_kick_result_handler env nick st)
  | ._manual_pong_handler sent, st => some (_manual_pong_handler env sent now st)
  | ._pong_handler, st => some (_pong_handler env st)

/-! ## iq.c: send operations -/

/-- The `iq_send_caps_request_legacy` of iq.c: the calls made, in order. -/
def iq_send_caps_request_legacy (env : Env) (to_ id : String) (node ver : Option String) :
    List Call :=
  match node with
  | none => [Call.log .error "Could not create caps request, no node" []]
  | some node =>
    match ver with
    | none => [Call.log .error "Could not create caps request, no ver" []]
    | some ver =>
      let node_str := node ++ "#" ++ ver
      let iq := env.stanza_create_disco_info_iq id to_ (some node_str)
      [Call.xmpp_id_handler_add (IdHandler._caps_response_handler_legacy node_str) (some id),
       Call.xmpp_send iq]

/-- The `iq_destroy_room` of iq.c. -/
def iq_destroy_room (env : Env) (room_jid : String) : List Call :=
  let iq := env.stanza_create_instant_room_destroy_iq room_jid
  let id := xmpp_stanza_get_id iq
  [Call.xmpp_id_handler_add IdHandler._destroy_room_result_handler id, Call.xmpp_send iq]

/-- The `iq_room_kick_occupant` of iq.c. -/
def iq_room_kick_occupant (env : Env) (room nick : String) (reason : Option String) :
    List Call :=
  let iq := env.stanza_create_room_kick_iq room nick reason
  let id := xmpp_stanza_get_id iq
  [Call.xmpp_id_handler_add (IdHandler._room_kick_result_handler nick) id, Call.xmpp_send iq]

/-- The `iq_room_affiliation_set` of iq.c. -/
def iq_room_affiliation_set (env : Env) (room jid affiliation : String)
    (reason : Option String) : List Call :=
  let iq := env.stanza_create_room_affiliation_set_iq room jid affiliation reason
  let id := xmpp_stanza_get_id iq
  let affiliation_set : privilege_set_t := ⟨jid, affiliation⟩
  [Call.xmpp_id_handler_add (IdHandler._room_affiliation_set_result_handler affiliation_set) id,
   Call.xmpp_send iq]

/-- The `iq_room_role_set` of iq.c. -/
def iq_room_role_set (env : Env) (room nick role : String) (reason : Option String) :
    List Call :=
  let iq := env.stanza_create_room_role_set_iq room nick role reason
  let id := xmpp_stanza_get_id iq
  let role_set : privilege_set_t := ⟨nick, role⟩
  [Call.xmpp_id_handler_add (IdHandler._room_role_set_result_handler role_set) id,
   Call.xmpp_send iq]

/-- The id handlers registered by a list of calls. -/
def registered_handlers : List Call → List IdHandler
  | [] => []
  | Call.xmpp_id_handler_add handler _ :: rest => handler :: registered_handlers rest
  | _ :: rest => registered_handlers rest

/-! ## message.c -/

/-- The `_groupchat_handler` of message.c. The result is `none` where the handler reads a
field of a `Jid` that is `NULL`. -/
def _groupchat_handler (env : Env) (stanza : Stanza) : Option (List Call × Int) :=
  let room_jid := xmpp_stanza_get_attribute stanza STANZA_ATTR_FROM
  let jid := jid_create env room_jid
  -- handle room subject
  match xmpp_stanza_get_child_by_name stanza STANZA_NAME_SUBJECT with
  | some subject =>
    let message := xmpp_stanza_get_text subject
    match jid with
    | none => none
    | some jid => some ([Call.handle_room_subject jid.barejid jid.resourcepart message], 1)
  | none =>
    match jid with
    | none => none
    | some jid =>
      -- handle room broadcasts
      if jid.resourcepart = none then
        match xmpp_stanza_get_child_by_name stanza STANZA_NAME_BODY with
        | some body =>
          match xmpp_stanza_get_text body with
          | some message => some ([Call.handle_room_broadcast room_jid message], 1)
          | none => some ([], 1)
        | none => some ([], 1)
      else if ¬ env.jid_is_valid_room_form jid then
        some ([Call.log .error "Invalid room JID: %s" [some jid.str]], 1)
      -- room not active in profanity
      else if ¬ env.muc_active jid.barejid then
        some ([Call.log .error "Message received for inactive chat room: %s" [some jid.str]], 1)
      else
        -- determine if the notifications happened whilst offline
        let delayed := env.stanza_get_delay stanza
        -- check for and deal with message
        match xmpp_stanza_get_child_by_name stanza STANZA_NAME_BODY with
        | some body =>
          match xmpp_stanza_get_text body with
          | some message =>
            match delayed with
            | some tv_stamp =>
              some ([Call.handle_room_history jid.barejid jid.resourcepart tv_stamp message], 1)
            | none => some ([Call.handle_room_message jid.barejid jid.resourcepart message], 1)
          | none => some ([], 1)
        | none => some ([], 1)

/-- The carbons branch of `_chat_handler`: `received` is the child in the carbons
namespace. The result is `none` where libstrophe is given a `NULL` stanza or the handler
reads a field of a `Jid` that is `NULL`. -/
def _chat_handler_carbon (env : Env) (received : Stanza) : Option (List Call × Int) :=
  match xmpp_stanza_get_child_by_ns received env.STANZA_NS_FORWARD with
  | none => none
  | some forwarded =>
    match xmpp_stanza_get_child_by_name forwarded STANZA_NAME_MESSAGE with
    | none => none
    | some message =>
      let to0 := xmpp_stanza_get_attribute message STANZA_ATTR_TO
      let from_ := xmpp_stanza_get_attribute message STANZA_ATTR_FROM
      -- happens when receive a carbon of a self sent message
      let to_ := if to0 = none then from_ else to0
      let jid_from := jid_create env from_
      let jid_to := jid_create env to_
      let my_jid := jid_create env env.jabber_get_fulljid
      -- check for and deal with message
      match xmpp_stanza_get_child_by_name message STANZA_NAME_BODY with
      | some body =>
        match xmpp_stanza_get_text body with
        | some message =>
          match my_jid, jid_to with
          | some my_jid, some jid_to =>
            -- if we are the recipient, treat as standard incoming message
            if g_strcmp0 (some my_jid.barejid) (some jid_to.barejid) = 0 then
              match jid_from with
              | some jid_from =>
                some ([Call.handle_incoming_message jid_from.barejid jid_from.resourcepart
                  message], 1)
              | none => none
            -- else treat as a sent message
            else some ([Call.handle_carbon jid_to.barejid message], 1)
          | _, _ => none
        | none => some ([], 1)
      | none => some ([], 1)

/-- The chat-state part of `_chat_handler` for a standard chat message. -/
def _chat_handler_states (env : Env) (stanza : Stanza) (jid : Jid) : List Call :=
  let gone := (xmpp_stanza_get_child_by_name stanza STANZA_NAME_GONE).isSome
  let typing := (xmpp_stanza_get_child_by_name stanza STANZA_NAME_COMPOSING).isSome
  let paused := (xmpp_stanza_get_child_by_name stanza STANZA_NAME_PAUSED).isSome
  let inactive := (xmpp_stanza_get_child_by_name stanza STANZA_NAME_INACTIVE).isSome
  if gone then [Call.handle_gone jid.barejid jid.resourcepart]
  else if typing then [Call.handle_typing jid.barejid jid.resourcepart]
  else if paused then [Call.handle_paused jid.barejid jid.resourcepart]
  else if inactive then [Call.handle_inactive jid.barejid jid.resourcepart]
  else if env.stanza_contains_chat_state stanza then
    [Call.handle_activity jid.barejid jid.resourcepart true]
  else [Call.handle_activity jid.barejid jid.resourcepart false]

/-- The `_chat_handler` of message.c. The result is `none` where the handler reads a field
of a `Jid` that is `NULL` or gives libstrophe a `NULL` stanza. -/
def _chat_handler (env : Env) (stanza : Stanza) : Option (List Call × Int) :=
  -- ignore if type not chat or absent
  let type := xmpp_stanza_get_type stanza
  if ¬ (g_strcmp0 type (some "chat") = 0 ∨ type = none) then some ([], 1)
  else
    -- check if carbon message
    match xmpp_stanza_get_child_by_ns stanza env.STANZA_NS_CARBONS with
    | some received => _chat_handler_carbon env received
    | none =>
      -- ignore handled namespaces
      let conf := xmpp_stanza_get_child_by_ns stanza env.STANZA_NS_CONFERENCE
      let mucuser := xmpp_stanza_get_child_by_ns stanza env.STANZA_NS_MUC_USER
      let captcha := xmpp_stanza_get_child_by_ns stanza env.STANZA_NS_CAPTCHA
      if conf.isSome ∨ mucuser.isSome ∨ captcha.isSome then some ([], 1)
      else
        let from_ := xmpp_stanza_get_attribute stanza STANZA_ATTR_FROM
        match jid_create env from_ with
        | none => none
        | some jid =>
          -- private message from chat room use full jid (room/nick)
          if env.muc_active jid.barejid then
            -- determine if the notifications happened whilst offline
            let delayed := env.stanza_get_delay stanza
            -- check for and deal with message
            match xmpp_stanza_get_child_by_name stanza STANZA_NAME_BODY with
            | some body =>
              match xmpp_stanza_get_text body with
              | some message =>
                match delayed with
                | some tv_stamp =>
                  some ([Call.handle_delayed_private_message jid.str message tv_stamp], 1)
                | none => some ([Call.handle_incoming_private_message jid.str message], 1)
              | none => some ([], 1)
            | none => some ([], 1)
          -- standard chat message, use jid without resource
          else
            -- determine if the notifications happened whilst offline
            let delayed := env.stanza_get_delay stanza
            -- check for and deal with message
            let incoming : List Call :=
              match xmpp_stanza_get_child_by_name stanza STANZA_NAME_BODY with
              | some body =>
                match xmpp_stanza_get_text body with
                | some message =>
                  match delayed with
                  | some tv_stamp => [Call.handle_delayed_message jid.barejid message tv_stamp]
                  | none => [Call.handle_incoming_message jid.barejid jid.resourcepart message]
                | none => []
              | none => []
            -- handle chat sessions and states
            let states : List Call :=
              if delayed = none ∧ jid.resourcepart ≠ none then _chat_handler_states env stanza jid
              else []
            some (incoming ++ states, 1)

/-! ## iq.c: the handlers of unsolicited requests -/

def STANZA_NAME_IQ : String := "iq"
def STANZA_NAME_ACTIVE : String := "active"
def STANZA_TYPE_CHAT : String := "chat"

/-- The `XMPP_NS_DISCO_ITEMS` of libstrophe. -/
def XMPP_NS_DISCO_ITEMS : String := "http://jabber.org/protocol/disco#items"

/-- Insertion into an attribute table: the value of a key that is present is replaced. -/
def hash_add : List (String × String) → String → String → List (String × String)
  | [], key, val => [(key, val)]
  | (k, v) :: rest, key, val =>
    if k = key then (k, val) :: rest else (k, v) :: hash_add rest key val

/-- Sets an attribute of a tag to a value that is not `NULL`; a text node is left as it is. -/
def xmpp_stanza_set_attribute : Stanza → String → String → Stanza
  | .tag name attrs children, key, value => .tag name (hash_add attrs key value) children
  | .text data, _, _ => .text data

/-- Sets the `id` attribute. -/
def xmpp_stanza_set_id (s : Stanza) (id : String) : Stanza :=
  xmpp_stanza_set_attribute s STANZA_ATTR_ID id

/-- Sets the `type` attribute. -/
def xmpp_stanza_set_type (s : Stanza) (type : String) : Stanza :=
  xmpp_stanza_set_attribute s STANZA_ATTR_TYPE type

/-- Sets the `xmlns` attribute. -/
def xmpp_stanza_set_ns (s : Stanza) (ns : String) : Stanza :=
  xmpp_stanza_set_attribute s STANZA_ATTR_XMLNS ns

/-- Adds a child after the children a tag has. -/
def xmpp_stanza_add_child : Stanza → Stanza → Stanza
  | .tag name attrs children, child => .tag name attrs (children ++ [child])
  | .text data, _ => .text data

/-- A stanza made by `xmpp_stanza_new` and named by `xmpp_stanza_set_name`. -/
def xmpp_stanza_new_tag (name : String) : Stanza := .tag name [] []

/-- A stanza made by `xmpp_stanza_new` and filled by `xmpp_stanza_set_text`. -/
def xmpp_stanza_new_text (text : String) : Stanza := .text text

/-- The `jabber_conn_status_t` of xmpp/xmpp.h. -/
inductive jabber_conn_status_t where
  | JABBER_UNDEFINED | JABBER_STARTED | JABBER_CONNECTING | JABBER_CONNECTED
  | JABBER_DISCONNECTING | JABBER_DISCONNECTED
  deriving DecidableEq

/-- The `ChatSession` of chat_session.h, as far as message.c reads it. -/
structure ChatSession where
  barejid : String
  resource : String
  send_states : Bool
  deriving DecidableEq

/-- More of what iq.c and message.c use from files that are not among the sources (config.h,
gitversion.h, stanza.c, capabilities.c, connection.c, preferences.c, chat_session.c,
jid.c). -/
structure XmppEnv where
  STANZA_NS_VERSION : String
  PACKAGE_VERSION : String
  PACKAGE_STATUS : String
  /-- The values of `PROF_GIT_BRANCH` and `PROF_GIT_REVISION` when `HAVE_GIT_VERSION` is
  defined. -/
  HAVE_GIT_VERSION : Option (String × String)
  caps_create_query_response_stanza : Stanza
  jabber_get_connection_status : jabber_conn_status_t
  stanza_create_ping_iq : Option String → Stanza
  /-- Arguments: recipient, type, message, state, encrypted. -/
  stanza_create_message : Option String → String → String → Option String → Bool → Stanza
  prefs_get_boolean : preference_t → Bool
  chat_session_get : String → Option ChatSession
  jid_create_from_bare_and_resource : String → String → Option Jid

/-- The `_ping_get_handler` of iq.c. -/
def _ping_get_handler (stanza : Stanza) : List Call × Int :=
  let id := xmpp_stanza_get_attribute stanza STANZA_ATTR_ID
  let to_ := xmpp_stanza_get_attribute stanza STANZA_ATTR_TO
  let from_ := xmpp_stanza_get_attribute stanza STANZA_ATTR_FROM
  let fired := log_fired "IQ ping get handler fired, id: %s." "IQ ping get handler fired." id
  match from_, to_ with
  | some from_, some to_ =>
    let pong := xmpp_stanza_new_tag STANZA_NAME_IQ
    let pong := xmpp_stanza_set_attribute pong STANZA_ATTR_TO from_
    let pong := xmpp_stanza_set_attribute pong STANZA_ATTR_FROM to_
    let pong := xmpp_stanza_set_attribute pong STANZA_ATTR_TYPE STANZA_TYPE_RESULT
    let pong :=
      match id with
      | some id => xmpp_stanza_set_attribute pong STANZA_ATTR_ID id
      | none => pong
    (fired ++ [Call.xmpp_send pong], 1)
  | _, _ => (fired, 1)

/-- The version text of `_version_get_handler`. -/
def version_str (xenv : XmppEnv) : String :=
  if strcmp xenv.PACKAGE_STATUS "development" = 0 then
    match xenv.HAVE_GIT_VERSION with
    | some (branch, revision) => xenv.PACKAGE_VERSION ++ "dev." ++ branch ++ "." ++ revision
    | none => xenv.PACKAGE_VERSION ++ "dev"
  else xenv.PACKAGE_VERSION

/-- The `_version_get_handler` of iq.c. -/
def _version_get_handler (xenv : XmppEnv) (stanza : Stanza) : List Call × Int :=
  let id := xmpp_stanza_get_attribute stanza STANZA_ATTR_ID
  let from_ := xmpp_stanza_get_attribute stanza STANZA_ATTR_FROM
  let fired := log_fired "IQ version get handler fired, id: %s." "IQ version get handler fired."
    id
  match from_ with
  | some from_ =>
    let response := xmpp_stanza_new_tag STANZA_NAME_IQ
    let response :=
      match id with
      | some id => xmpp_stanza_set_id response id
      | none => response
    let response := xmpp_stanza_set_attribute response STANZA_ATTR_TO from_
    let response := xmpp_stanza_set_type response STANZA_TYPE_RESULT
    let query := xmpp_stanza_new_tag STANZA_NAME_QUERY
    let query := xmpp_stanza_set_ns query xenv.STANZA_NS_VERSION
    let name := xmpp_stanza_new_tag "name"
    let name_txt := xmpp_stanza_new_text "Profanity"
    let name := xmpp_stanza_add_child name name_txt
    let version := xmpp_stanza_new_tag "version"
    let version_txt := xmpp_stanza_new_text (version_str xenv)
    let version := xmpp_stanza_add_child version version_txt
    let query := xmpp_stanza_add_child query name
    let query := xmpp_stanza_add_child query version
    let response := xmpp_stanza_add_child response query
    (fired ++ [Call.xmpp_send response], 1)
  | none => (fired, 1)

/-- The `_disco_items_get_handler` of iq.c. The result is `none` where `xmpp_stanza_set_id`
is given the `NULL` id of a request without id, which libstrophe copies with `strlen`. -/
def _disco_items_get_handler (stanza : Stanza) : Option (List Call × Int) :=
  let id := xmpp_stanza_get_attribute stanza STANZA_ATTR_ID
  let from_ := xmpp_stanza_get_attribute stanza STANZA_ATTR_FROM
  let fired := log_fired "IQ disco items get handler fired, id: %s."
    "IQ disco items get handler fired." id
  match from_ with
  | some from_ =>
    let response := xmpp_stanza_new_tag STANZA_NAME_IQ
    match xmpp_stanza_get_id stanza with
    | none => none
    | some id =>
      let response := xmpp_stanza_set_id response id
      let response := xmpp_stanza_set_attribute response STANZA_ATTR_TO from_
      let response := xmpp_stanza_set_type response STANZA_TYPE_RESULT
      let query := xmpp_stanza_new_tag STANZA_NAME_QUERY
      let query := xmpp_stanza_set_ns query XMPP_NS_DISCO_ITEMS
      let response := xmpp_stanza_add_child response query
      some (fired ++ [Call.xmpp_send response], 1)
  | none => some (fired, 1)

/-- The `_disco_info_get_handler` of iq.c. The result is `none` where the node attribute is
read from the `NULL` query of a request without query child, and where `xmpp_stanza_set_id`
is given the `NULL` id of a request without id. -/
def _disco_info_get_handler (xenv : XmppEnv) (stanza : Stanza) : Option (List Call × Int) :=
  let from_ := xmpp_stanza_get_attribute stanza STANZA_ATTR_FROM
  match xmpp_stanza_get_child_by_name stanza STANZA_NAME_QUERY with
  | none => none
  | some incoming_query =>
    let node_str := xmpp_stanza_get_attribute incoming_query STANZA_ATTR_NODE
    let id := xmpp_stanza_get_attribute stanza STANZA_ATTR_ID
    let fired := log_fired "IQ disco info get handler fired, id: %s."
      "IQ disco info get handler fired." id
    match from_ with
    | some from_ =>
      let response := xmpp_stanza_new_tag STANZA_NAME_IQ
      match xmpp_stanza_get_id stanza with
      | none => none
      | some id =>
        let response := xmpp_stanza_set_id response id
        let response := xmpp_stanza_set_attribute response STANZA_ATTR_TO from_
        let response := xmpp_stanza_set_type response STANZA_TYPE_RESULT
        let query := xenv.caps_create_query_response_stanza
        let query :=
          match node_str with
          | some node_str => xmpp_stanza_set_attribute query STANZA_ATTR_NODE node_str
          | none => query
        let response := xmpp_stanza_add_child response query
        some (fired ++ [Call.xmpp_send response], 1)
    | none => some (fired, 1)

/-! ## iq.c: more send operations and the timed handler -/

/-- The `iq_send_caps_request_for_jid` of iq.c. -/
def iq_send_caps_request_for_jid (env : Env) (to_ id : String) (node ver : Option String) :
    List Call :=
  match node with
  | none => [Call.log .error "Could not create caps request, no node" []]
  | some node =>
    match ver with
    | none => [Call.log .error "Could not create caps request, no ver" []]
    | some ver =>
      let node_str := node ++ "#" ++ ver
      let iq := env.stanza_create_disco_info_iq id to_ (some node_str)
      [Call.xmpp_id_handler_add (IdHandler._caps_response_handler_for_jid to_) (some id),
       Call.xmpp_send iq]

/-- The `iq_send_caps_request` of iq.c. -/
def iq_send_caps_request (env : Env) (to_ id : String) (node ver : Option String) :
    List Call :=
  match node with
  | none => [Call.log .error "Could not create caps request, no node" []]
  | some node =>
    match ver with
    | none => [Call.log .error "Could not create caps request, no ver" []]
    | some ver =>
      let node_str := node ++ "#" ++ ver
      let iq := env.stanza_create_disco_info_iq id to_ (some node_str)
      [Call.xmpp_id_handler_add IdHandler._caps_response_handler (some id),
       Call.xmpp_send iq]

/-- The `iq_send_ping` of iq.c; `now` is the local time read when the ping is sent, in
microseconds. -/
def iq_send_ping (xenv : XmppEnv) (now : Int) (target : Option String) : List Call :=
  let iq := xenv.stanza_create_ping_iq target
  let id := xmpp_stanza_get_id iq
  [Call.xmpp_id_handler_add (IdHandler._manual_pong_handler now) id, Call.xmpp_send iq]

/-- The `_ping_timed_handler` of iq.c. -/
def _ping_timed_handler (xenv : XmppEnv) : List Call × Int :=
  if xenv.jabber_get_connection_status = jabber_conn_status_t.JABBER_CONNECTED then
    let iq := xenv.stanza_create_ping_iq none
    let id := xmpp_stanza_get_id iq
    -- add pong handler
    ([Call.xmpp_id_handler_add IdHandler._pong_handler id, Call.xmpp_send iq], 1)
  else ([], 1)

/-! ## message.c: sending chat messages -/

/-- The `message_send_chat` of message.c. The result is `none` where the full JID is read
from a `Jid` that is `NULL`. -/
def message_send_chat (xenv : XmppEnv) (barejid msg : String) : Option (List Call) :=
  match xenv.chat_session_get barejid with
  | some session =>
    let state : Option String :=
      if xenv.prefs_get_boolean preference_t.PREF_STATES ∧ session.send_states then
        some STANZA_NAME_ACTIVE
      else none
    match xenv.jid_create_from_bare_and_resource session.barejid session.resource with
    | none => none
    | some jidp =>
      let message := xenv.stanza_create_message jidp.fulljid STANZA_TYPE_CHAT msg state false
      some [Call.xmpp_send message]
  | none =>
    let state : Option String :=
      if xenv.prefs_get_boolean preference_t.PREF_STATES then some STANZA_NAME_ACTIVE
      else none
    let message := xenv.stanza_create_message (some barejid) STANZA_TYPE_CHAT msg state false
    some [Call.xmpp_send message]

/-- The `message_send_chat_encrypted` of message.c. -/
def message_send_chat_encrypted (xenv : XmppEnv) (barejid msg : String) :
    Option (List Call) :=
  match xenv.chat_session_get barejid with
  | some session =>
    let state : Option String :=
      if xenv.prefs_get_boolean preference_t.PREF_STATES ∧ session.send_states then
        some STANZA_NAME_ACTIVE
      else none
    match xenv.jid_create_from_bare_and_resource session.barejid session.resource with
    | none => none
    | some jidp =>
      let message := xenv.stanza_create_message jidp.fulljid STANZA_TYPE_CHAT msg state true
      some [Call.xmpp_send message]
  | none =>
    let state : Option String :=
      if xenv.prefs_get_boolean preference_t.PREF_STATES then some STANZA_NAME_ACTIVE
      else none
    let message := xenv.stanza_create_message (some barejid) STANZA_TYPE_CHAT msg state true
    some [Call.xmpp_send message]

/-! ## command/commands.c -/

/-- The `struct cmd_help_t` of command/commands.h. -/
structure cmd_help_t where
  usage : String
  short_help : String
  long_help : List String
  deriving DecidableEq

/-- Modelled from the spec: the kinds of chat state (chat_state.h, which is not among the
sources). -/
inductive ChatStateKind where
  | active | composing | paused | inactive | gone
  deriving DecidableEq

/-- Modelled from the spec: the chat-state tracker of a chat window (`ChatState` of
chat_state.h, which is not among the sources): the last state sent. -/
structure ChatState where
  last_state_sent : Option ChatStateKind
  deriving DecidableEq

/-- Modelled from the spec: `chat_state_new` of chat_state.c, which is not among the
sources: a fresh tracker. -/
def chat_state_new : ChatState := { last_state_sent := none }

/-- The `ProfChatWin` of ui/window.h, as far as `cmd_resource` uses it. -/
structure ProfChatWin where
  barejid : String
  resource_override : Option String
  state : ChatState
  deriving DecidableEq

/-- The `ProfWin` of ui/window.h: a window of one of the window types; a chat window
carries its `ProfChatWin`. -/
inductive ProfWin where
  | WIN_CHAT (chatwin : ProfChatWin)
  | WIN_CONSOLE | WIN_MUC | WIN_MUC_CONFIG | WIN_PRIVATE | WIN_XML
  deriving DecidableEq

/-- The `ProfAccount` of config/account.h, as far as `cmd_join` reads it. -/
structure ProfAccount where
  muc_service : String
  muc_nick : String
  deriving DecidableEq

/-- The roster contact handle `PContact` of contact.h. -/
structure PContact where
  barejid : String
  resources : List String
  deriving DecidableEq

/-- What commands.c uses from files that are not among the sources (ui, roster_list.c,
contact.c, otr.c, tools/parser.c, muc.c, config/accounts.c, connection.c). -/
structure CmdEnv where
  jabber_get_connection_status : jabber_conn_status_t
  /-- The account of the connection: `accounts_get_account (jabber_get_account_name ())`. -/
  account : Option ProfAccount
  roster_get_contact : String → Option PContact
  /-- Whether `p_contact_get_resource` finds the resource. -/
  p_contact_get_resource : PContact → String → Bool
  /-- The `otr_is_secure` of otr.c when `HAVE_LIBOTR` is defined. -/
  otr_is_secure : Option (String → Bool)
  /-- Arguments: the option arguments and the option keys; `none` when `parsed` is set to
  `FALSE`, else the table of options. -/
  parse_options : List String → List String → Option (List (String × String))
  muc_roster_complete : String → Bool

/-- The `_cmd_set_boolean_preference` of commands.c. -/
def _cmd_set_boolean_preference (arg : Option String) (help : cmd_help_t) (display : String)
    (pref : preference_t) : List Call × Bool :=
  let enabled := display ++ " enabled."
  let disabled := display ++ " disabled."
  match arg with
  | none => ([Call.cons_show ("Usage: " ++ help.usage) []], true)
  | some arg =>
    if strcmp arg "on" = 0 then
      ([Call.cons_show enabled [], Call.prefs_set_boolean pref true], true)
    else if strcmp arg "off" = 0 then
      ([Call.cons_show disabled [], Call.prefs_set_boolean pref false], true)
    else ([Call.cons_show ("Usage: " ++ help.usage) []], true)

/-- The `cmd_resource` of commands.c: the current window afterwards, the calls made, and
the return value. `current` is the window returned by `wins_get_current`. -/
def cmd_resource (cenv : CmdEnv) (args : List String) (help : cmd_help_t) (current : ProfWin) :
    ProfWin × List Call × Bool :=
  let cmd := args[0]?
  if g_strcmp0 cmd (some "message") = 0 then
    match args[1]? with
    | none => (current, [Call.cons_show "Usage: %s" [some help.usage]], true)
    | some setting =>
      let r := _cmd_set_boolean_preference (some setting) help "Message resource"
        preference_t.PREF_RESOURCE_MESSAGE
      (current, r.1, r.2)
  else if g_strcmp0 cmd (some "title") = 0 then
    match args[1]? with
    | none => (current, [Call.cons_show "Usage: %s" [some help.usage]], true)
    | some setting =>
      let r := _cmd_set_boolean_preference (some setting) help "Title resource"
        preference_t.PREF_RESOURCE_TITLE
      (current, r.1, r.2)
  else
    match current with
    | ProfWin.WIN_CHAT chatwin =>
      if g_strcmp0 cmd (some "set") = 0 then
        match args[1]? with
        | none => (current, [Call.cons_show "Usage: %s" [some help.usage]], true)
        | some resource =>
          let otr_secure :=
            match cenv.otr_is_secure with
            | some otr_is_secure => otr_is_secure chatwin.barejid
            | none => false
          if otr_secure then
            (current, [Call.cons_show "Cannot choose resource during an OTR session." []], true)
          else
            match cenv.roster_get_contact chatwin.barejid with
            | none =>
              (current,
                [Call.cons_show "Cannot choose resource for contact not in roster." []], true)
            | some contact =>
              if ¬ cenv.p_contact_get_resource contact resource then
                (current, [Call.cons_show "No such resource %s." [some resource]], true)
              else
                (ProfWin.WIN_CHAT { chatwin with
                    resource_override := some resource, state := chat_state_new },
                  [Call.chat_session_resource_override chatwin.barejid resource], true)
      else if g_strcmp0 cmd (some "off") = 0 then
        (ProfWin.WIN_CHAT { chatwin with resource_override := none, state := chat_state_new },
          [Call.chat_session_remove chatwin.barejid], true)
      else (current, [Call.cons_show "Usage: %s" [some help.usage]], true)
    | _ => (current, [Call.cons_show "Resource can only be changed in chat windows." []], true)

/-- The `cmd_join` of commands.c: the calls made and the return value. The result is `none`
where a field of an account that is `NULL` is read. -/
def cmd_join (cenv : CmdEnv) (env : Env) (args : List String) (help : cmd_help_t) :
    Option (List Call × Bool) :=
  if cenv.jabber_get_connection_status ≠ jabber_conn_status_t.JABBER_CONNECTED then
    some ([Call.cons_show "You are not currently connected." []], true)
  else
    match args[0]? with
    | none => some ([Call.cons_show "Usage: %s" [some help.usage], Call.cons_show "" []], true)
    | some arg0 =>
      match jid_create env (some arg0) with
      | none =>
        some ([Call.cons_show_error "Specified room has incorrect format." [],
          Call.cons_show "" []], true)
      | some room_arg =>
        let account := cenv.account
        let room : Option String :=
          -- full room jid supplied (room@server)
          if room_arg.localpart ≠ none then some arg0
          -- server not supplied (room), use account preference
          else account.map (fun a => arg0 ++ "@" ++ a.muc_service)
        match room with
        | none => none
        | some room =>
          -- Additional args supplied
          let opt_keys := ["nick", "password"]
          match cenv.parse_options (args.drop 1) opt_keys with
          | none =>
            some ([Call.cons_show "Usage: %s" [some help.usage], Call.cons_show "" []], true)
          | some options =>
            let passwd := hash_get options "password"
            -- In the case that a nick wasn't provided by the optional args...
            let nick : Option String :=
              match hash_get options "nick" with
              | some nick => some nick
              | none => account.map (fun a => a.muc_nick)
            match nick with
            | none => none
            | some nick =>
              if ¬ env.muc_active room then
                some ([Call.presence_join_room room nick passwd,
                  Call.muc_join room nick passwd false], true)
              else if cenv.muc_roster_complete room then
                some ([Call.ui_switch_to_room room], true)
              else some ([], true)

/-! ## libc: strtol and atoi -/

/-- The `isspace` of C in the "C" locale. -/
def isspace (c : Char) : Bool :=
  c = ' ' ∨ c = '\t' ∨ c = '\n' ∨ c = '\x0b' ∨ c = '\x0c' ∨ c = '\r'

/-- The value of a character as a digit: `0`..`9`, then the letters from 10. -/
def digit_value (c : Char) : Option Nat :=
  if 48 ≤ c.toNat ∧ c.toNat ≤ 57 then some (c.toNat - 48)
  else if 97 ≤ c.toNat ∧ c.toNat ≤ 122 then some (c.toNat - 87)
  else if 65 ≤ c.toNat ∧ c.toNat ≤ 90 then some (c.toNat - 55)
  else none

/-- Whether a character is a digit of the base. -/
def is_digit (base : Nat) (c : Char) : Bool :=
  match digit_value c with
  | some v => v < base
  | none => false

/-- The longest run of digits of the base at the start of a string: the number read so far,
the number of digits read, and the characters after the run. -/
def parse_digits (base : Nat) : List Char → Nat → Nat → Nat × Nat × List Char
  | [], acc, count => (acc, count, [])
  | c :: cs, acc, count =>
    match digit_value c with
    | some v =>
      if v < base then parse_digits base cs (acc * base + v) (count + 1)
      else (acc, count, c :: cs)
    | none => (acc, count, c :: cs)

def LONG_MAX : Int := 9223372036854775807
def LONG_MIN : Int := -9223372036854775808
def INT_MAX : Int := 2147483647

/-- The result of `strtol`: the value, the characters at `*endptr`, and whether `errno` is
set to `ERANGE`. -/
structure strtol_result where
  value : Int
  endptr : List Char
  erange : Bool
  deriving DecidableEq

/-- The `strtol (str, &endptr, base)` of C for base 0 or 10, with a 64-bit `long`: white
space, an optional sign, with base 0 an optional `0x` prefix (base 16) or a leading `0`
(base 8), and the longest run of digits. Without a digit nothing is converted and `endptr`
is `str`; a value outside `long` is clamped and reported with `ERANGE`. -/
def strtol (str : List Char) (base : Nat) : strtol_result :=
  let s1 := str.dropWhile isspace
  let negative := s1.head? = some '-'
  let s2 := if s1.head? = some '-' ∨ s1.head? = some '+' then s1.tail else s1
  let hex_prefix : Bool :=
    match s2 with
    | c0 :: x :: h :: _ => c0 = '0' ∧ (x = 'x' ∨ x = 'X') ∧ is_digit 16 h
    | _ => false
  let base' : Nat :=
    if base = 0 then
      if hex_prefix then 16 else if s2.head? = some '0' then 8 else 10
    else base
  let s3 := if base = 0 ∧ hex_prefix then s2.drop 2 else s2
  let parsed := parse_digits base' s3 0 0
  if parsed.2.1 = 0 then { value := 0, endptr := str, erange := false }
  else
    let v : Int := if negative then - (parsed.1 : Int) else (parsed.1 : Int)
    if v > LONG_MAX then { value := LONG_MAX, endptr := parsed.2.2, erange := true }
    else if v < LONG_MIN then { value := LONG_MIN, endptr := parsed.2.2, erange := true }
    else { value := v, endptr := parsed.2.2, erange := false }

/-- The `atoi` of C: `(int) strtol (str, NULL, 10)`. -/
def atoi (str : String) : Int := to_int32 (strtol str.data 10).value

/-! ## commands.c: numbers and settings -/

/-- The `_strtoi` of commands.c: the calls made, and the value stored through `saveptr`
when the return value is 0, or none when the return value is -1. -/
def _strtoi (str : String) (min max : Int) : List Call × Option Int :=
  let r := strtol str.data 0
  let val := to_int32 r.value
  if r.erange ∨ str.data = [] ∨ r.endptr ≠ [] then
    ([Call.cons_show_args "Could not convert \"%s\" to a number." [FormatArg.s (some str)]],
      none)
  else if val < min ∨ val > max then
    ([Call.cons_show_args "Value %s out of range. Must be in %d..%d."
      [FormatArg.s (some str), FormatArg.d min, FormatArg.d max]], none)
  else ([], some val)

/-- The `iq_set_autoping` of iq.c; the product is a 32-bit `int`. -/
def iq_set_autoping (status : jabber_conn_status_t) (seconds : Int) : List Call :=
  if status = jabber_conn_status_t.JABBER_CONNECTED then
    Call.xmpp_timed_handler_delete TimedHandler._ping_timed_handler ::
      (if seconds ≠ 0 then
        let millis := to_int32 (seconds * 1000)
        [Call.xmpp_timed_handler_add TimedHandler._ping_timed_handler millis]
      else [])
  else []

def STANZA_TYPE_GET : String := "get"
def STANZA_TYPE_GROUPCHAT : String := "groupchat"

/-- The `XMPP_NS_DISCO_INFO` of libstrophe. -/
def XMPP_NS_DISCO_INFO : String := "http://jabber.org/protocol/disco#info"

/-- The `iq_add_handlers` of iq.c; `STANZA_NS_PING` is the constant of stanza.h and
`prefs_get_autoping` the stored autoping preference. -/
def iq_add_handlers (xenv : XmppEnv) (STANZA_NS_PING : String) (prefs_get_autoping : Int) :
    List Call :=
  [Call.xmpp_handler_add StanzaHandler._error_handler none STANZA_NAME_IQ
      (some STANZA_TYPE_ERROR),
   Call.xmpp_handler_add StanzaHandler._disco_info_get_handler (some XMPP_NS_DISCO_INFO)
      STANZA_NAME_IQ (some STANZA_TYPE_GET),
   Call.xmpp_handler_add StanzaHandler._disco_items_get_handler (some XMPP_NS_DISCO_ITEMS)
      STANZA_NAME_IQ (some STANZA_TYPE_GET),
   Call.xmpp_handler_add StanzaHandler._disco_items_result_handler (some XMPP_NS_DISCO_ITEMS)
      STANZA_NAME_IQ (some STANZA_TYPE_RESULT),
   Call.xmpp_handler_add StanzaHandler._version_get_handler (some xenv.STANZA_NS_VERSION)
      STANZA_NAME_IQ (some STANZA_TYPE_GET),
   Call.xmpp_handler_add StanzaHandler._version_result_handler (some xenv.STANZA_NS_VERSION)
      STANZA_NAME_IQ (some STANZA_TYPE_RESULT),
   Call.xmpp_handler_add StanzaHandler._ping_get_handler (some STANZA_NS_PING)
      STANZA_NAME_IQ (some STANZA_TYPE_GET)] ++
  (if prefs_get_autoping ≠ 0 then
    let millis := to_int32 (prefs_get_autoping * 1000)
    [Call.xmpp_timed_handler_add TimedHandler._ping_timed_handler millis]
  else [])

/-- The `message_add_handlers` of message.c. -/
def message_add_handlers (env : Env) : List Call :=
  [Call.xmpp_handler_add StanzaHandler._message_error_handler none STANZA_NAME_MESSAGE
      (some STANZA_TYPE_ERROR),
   Call.xmpp_handler_add StanzaHandler._groupchat_handler none STANZA_NAME_MESSAGE
      (some STANZA_TYPE_GROUPCHAT),
   Call.xmpp_handler_add StanzaHandler._chat_handler none STANZA_NAME_MESSAGE none,
   Call.xmpp_handler_add StanzaHandler._muc_user_handler (some env.STANZA_NS_MUC_USER)
      STANZA_NAME_MESSAGE none,
   Call.xmpp_handler_add StanzaHandler._conference_handler (some env.STANZA_NS_CONFERENCE)
      STANZA_NAME_MESSAGE none,
   Call.xmpp_handler_add StanzaHandler._captcha_handler (some env.STANZA_NS_CAPTCHA)
      STANZA_NAME_MESSAGE none]

/-- The `cmd_autoping` of commands.c. The result is `none` when there is no argument, which
`strtol` would read through a `NULL` pointer. -/
def cmd_autoping (status : jabber_conn_status_t) (args : List String) (help : cmd_help_t) :
    Option (List Call × Bool) :=
  match args[0]? with
  | none => none
  | some value =>
    match _strtoi value 0 INT_MAX with
    | (calls, some intval) =>
      some (calls ++ [Call.prefs_set_autoping intval] ++ iq_set_autoping status intval ++
        [if intval = 0 then Call.cons_show_args "Autoping disabled." [FormatArg.d intval]
         else Call.cons_show_args "Autoping interval set to %d seconds."
          [FormatArg.d intval]], true)
    | (calls, none) => some (calls ++ [Call.cons_show "Usage: %s" [some help.usage]], true)

/-- What `cmd_priority` reads from the connection and the accounts (connection.c,
config/accounts.c, which are not among the sources). -/
structure SessionEnv where
  jabber_get_connection_status : jabber_conn_status_t
  jabber_get_account_name : Option String
  accounts_get_last_presence : Option String → resource_presence_t
  jabber_get_presence_message : Option String

/-- The `cmd_priority` of commands.c. The result is `none` when there is no argument. -/
def cmd_priority (senv : SessionEnv) (args : List String) (_help : cmd_help_t) :
    Option (List Call × Bool) :=
  if senv.jabber_get_connection_status ≠ jabber_conn_status_t.JABBER_CONNECTED then
    some ([Call.cons_show "You are not currently connected." []], true)
  else
    match args[0]? with
    | none => none
    | some value =>
      match _strtoi value (-128) 127 with
      | (calls, some intval) =>
        let last_presence := senv.accounts_get_last_presence senv.jabber_get_account_name
        some (calls ++
          [Call.accounts_set_priority_all senv.jabber_get_account_name intval,
           Call.presence_update last_presence senv.jabber_get_presence_message 0,
           Call.cons_show_args "Priority set to %d." [FormatArg.d intval]], true)
      | (calls, none) => some (calls, true)

/-- The `cmd_states` of commands.c. The result is `none` when there is no argument, which
`strcmp` would read through a `NULL` pointer. -/
def cmd_states (args : List String) (help : cmd_help_t) : Option (List Call × Bool) :=
  let result := _cmd_set_boolean_preference args[0]? help "Sending chat states"
    preference_t.PREF_STATES
  match args[0]? with
  | none => none
  | some arg =>
    -- if disabled, disable outtype and gone
    if result.2 = true ∧ strcmp arg "off" = 0 then
      some (result.1 ++ [Call.prefs_set_boolean preference_t.PREF_OUTTYPE false,
        Call.prefs_set_gone 0], result.2)
    else some (result.1, result.2)

/-- The `cmd_outtype` of commands.c. The result is `none` when there is no argument. -/
def cmd_outtype (args : List String) (help : cmd_help_t) : Option (List Call × Bool) :=
  let result := _cmd_set_boolean_preference args[0]? help "Sending typing notifications"
    preference_t.PREF_OUTTYPE
  match args[0]? with
  | none => none
  | some arg =>
    -- if enabled, enable states
    if result.2 = true ∧ strcmp arg "on" = 0 then
      some (result.1 ++ [Call.prefs_set_boolean preference_t.PREF_STATES true], result.2)
    else some (result.1, result.2)

/-- The `cmd_gone` of commands.c. The result is `none` when there is no argument, which
`atoi` would read through a `NULL` pointer. -/
def cmd_gone (args : List String) (_help : cmd_help_t) : Option (List Call × Bool) :=
  match args[0]? with
  | none => none
  | some value =>
    let period := atoi value
    let shown :=
      if period = 0 then
        Call.cons_show "Automatic leaving conversations after period disabled." []
      else if period = 1 then
        Call.cons_show "Leaving conversations after 1 minute of inactivity." []
      else
        Call.cons_show_args "Leaving conversations after %d minutes of inactivity."
          [FormatArg.d period]
    -- if enabled, enable states
    some ([Call.prefs_set_gone period, shown] ++
      (if period > 0 then [Call.prefs_set_boolean preference_t.PREF_STATES true] else []),
      true)

/-- Modelled from the spec: the stored preferences that the chat-state commands write
(config/preferences.c, which is not among the sources): the boolean settings, the gone
period and the autoping interval. -/
structure PrefState where
  booleans : preference_t → Bool
  gone : Int
  autoping : Int

/-- Modelled from the spec: the effect of one call on the stored preferences
(`prefs_set_boolean`, `prefs_set_gone` and `prefs_set_autoping` of config/preferences.c): the
setting takes the value given. -/
def prefs_apply (s : PrefState) : Call → PrefState
  | Call.prefs_set_boolean pref value =>
    { s with booleans := fun p => if p = pref then value else s.booleans p }
  | Call.prefs_set_gone value => { s with gone := value }
  | Call.prefs_set_autoping value => { s with autoping := value }
  | _ => s

/-- The stored preferences after a list of calls. -/
def prefs_run (s : PrefState) (calls : List Call) : PrefState :=
  calls.foldl prefs_apply s

/-- The chat-state settings are consistent: typing notifications on implies chat states
on, and a gone period above 0 implies chat states on. -/
def chat_states_consistent (s : PrefState) : Prop :=
  (s.booleans preference_t.PREF_OUTTYPE = true → s.booleans preference_t.PREF_STATES = true) ∧
  (s.gone > 0 → s.booleans preference_t.PREF_STATES = true)

/-! ## iq.c and message.c: the other handlers registered by namespace and type -/

def STANZA_NAME_ITEM : String := "item"
def STANZA_NAME_INVITE : String := "invite"
def STANZA_NAME_REASON : String := "reason"
def STANZA_ATTR_REASON : String := "reason"

/-- The `_error_handler` of iq.c. -/
def _error_handler (env : Env) (stanza : Stanza) : List Call × Int :=
  let id := xmpp_stanza_get_attribute stanza STANZA_ATTR_ID
  let error_msg := env.stanza_get_error_message stanza
  match id with
  | some id =>
    ([Call.log .debug "IQ error handler fired, id: %s, error: %s" [some id, some error_msg],
      Call.log .error "IQ error received, id: %s, error: %s" [some id, some error_msg]], 1)
  | none =>
    ([Call.log .debug "IQ error handler fired, error: %s" [some error_msg],
      Call.log .error "IQ error received, error: %s" [some error_msg]], 1)

/-- What `_version_result_handler` reads from the rooms and the roster (muc.c,
roster_list.c, contact.c, resource.c, which are not among the sources). -/
structure RosterEnv where
  /-- The presence of the occupant returned by `muc_roster_item`, when there is one. -/
  muc_roster_item : String → Option String → Option resource_presence_t
  /-- The presence of the resource that `p_contact_get_resource` finds for the contact
  returned by `roster_get_contact`, when both exist. -/
  roster_resource : String → Option String → Option resource_presence_t
  string_from_resource_presence : resource_presence_t → String

/-- The text of a child with the given name, `NULL` without such a child. -/
def child_text (query : Stanza) (name : String) : Option String :=
  match xmpp_stanza_get_child_by_name query name with
  | some child => xmpp_stanza_get_text child
  | none => none

/-- The `_version_result_handler` of iq.c. The result is `none` where a field of a `Jid`,
an occupant or a resource that is `NULL` is read. -/
def _version_result_handler (env : Env) (xenv : XmppEnv) (renv : RosterEnv)
    (stanza : Stanza) : Option (List Call × Int) :=
  let id := xmpp_stanza_get_id stanza
  let fired := log_fired "IQ version result handler fired, id: %s."
    "IQ version result handler fired." id
  let jid := xmpp_stanza_get_attribute stanza "from"
  match xmpp_stanza_get_child_by_name stanza STANZA_NAME_QUERY with
  | none => some (fired, 1)
  | some query =>
    let ns := xmpp_stanza_get_ns query
    if g_strcmp0 ns (some xenv.STANZA_NS_VERSION) ≠ 0 then some (fired, 1)
    else
      let name_str := child_text query "name"
      let version_str := child_text query "version"
      let os_str := child_text query "os"
      match jid_create env jid with
      | none => none
      | some jidp =>
        let presence : Option resource_presence_t :=
          if env.muc_active jidp.barejid then
            renv.muc_roster_item jidp.barejid jidp.resourcepart
          else renv.roster_resource jidp.barejid jidp.resourcepart
        match presence with
        | none => none
        | some presence =>
          some (fired ++ [Call.handle_software_version_result jid
            (renv.string_from_resource_presence presence) name_str version_str os_str], 1)

/-- The loop of `_disco_items_result_handler` over the children of the query: an item for
every `item` child that has a jid, in document order. -/
def collect_disco_items : List Stanza → List DiscoItem
  | [] => []
  | child :: rest =>
    let stanza_name := xmpp_stanza_get_name child
    if stanza_name ≠ none ∧ g_strcmp0 stanza_name (some STANZA_NAME_ITEM) = 0 then
      match xmpp_stanza_get_attribute child STANZA_ATTR_JID with
      | some item_jid =>
        { jid := item_jid, name := xmpp_stanza_get_attribute child STANZA_ATTR_NAME } ::
          collect_disco_items rest
      | none => collect_disco_items rest
    else collect_disco_items rest

/-- The `_disco_items_result_handler` of iq.c. -/
def _disco_items_result_handler (stanza : Stanza) : List Call × Int :=
  let received := [Call.log .debug "Received diso#items response" []]
  let id := xmpp_stanza_get_attribute stanza STANZA_ATTR_ID
  let from_ := xmpp_stanza_get_attribute stanza STANZA_ATTR_FROM
  let known := g_strcmp0 id (some "confreq") = 0 ∨ g_strcmp0 id (some "discoitemsreq") = 0
  let response := if known then [Call.log .debug "Response to query: %s" [id]] else []
  let items : List DiscoItem :=
    if known then
      match xmpp_stanza_get_child_by_name stanza STANZA_NAME_QUERY with
      | some query => collect_disco_items (xmpp_stanza_get_children query)
      | none => []
    else []
  let handled :=
    if g_strcmp0 id (some "confreq") = 0 then [Call.handle_room_list items from_]
    else if g_strcmp0 id (some "discoitemsreq") = 0 then [Call.handle_disco_items items from_]
    else []
  (received ++ response ++ handled, 1)

/-- The `_message_error_handler` of message.c. -/
def _message_error_handler (env : Env) (stanza : Stanza) : List Call × Int :=
  let id := xmpp_stanza_get_id stanza
  let jid := xmpp_stanza_get_attribute stanza STANZA_ATTR_FROM
  let type : Option String :=
    match xmpp_stanza_get_child_by_name stanza STANZA_NAME_ERROR with
    | some error_stanza => xmpp_stanza_get_attribute error_stanza STANZA_ATTR_TYPE
    | none => none
  -- stanza_get_error never returns NULL
  let err_msg := env.stanza_get_error_message stanza
  let log_msg := "message stanza error received"
  let log_msg :=
    match id with
    | some id => log_msg ++ " id=" ++ id
    | none => log_msg
  let log_msg :=
    match jid with
    | some jid => log_msg ++ " from=" ++ jid
    | none => log_msg
  let log_msg :=
    match type with
    | some type => log_msg ++ " type=" ++ type
    | none => log_msg
  let log_msg := log_msg ++ " error=" ++ err_msg
  ([Call.log .info log_msg [], Call.handle_message_error jid type err_msg], 1)

/-- The `_muc_user_handler` of message.c. The result is `none` where libstrophe is given
the `NULL` stanza of a message without a child in the muc#user namespace. -/
def _muc_user_handler (env : Env) (stanza : Stanza) : Option (List Call × Int) :=
  let xns_muc_user := xmpp_stanza_get_child_by_ns stanza env.STANZA_NS_MUC_USER
  match xmpp_stanza_get_attribute stanza STANZA_ATTR_FROM with
  | none =>
    some ([Call.log .warning "Message received with no from attribute, ignoring" []], 1)
  | some room =>
    -- XEP-0045
    match xns_muc_user with
    | none => none
    | some xns_muc_user =>
      match xmpp_stanza_get_child_by_name xns_muc_user STANZA_NAME_INVITE with
      | some invite =>
        match xmpp_stanza_get_attribute invite STANZA_ATTR_FROM with
        | none =>
          some ([Call.log .warning "Chat room invite received with no from attribute" []], 1)
        | some invitor_jid =>
          match jid_create env (some invitor_jid) with
          | none => some ([], 1)
          | some jidp =>
            let invitor := jidp.barejid
            let reason := child_text invite STANZA_NAME_REASON
            some ([Call.handle_room_invite jabber_invite_t.INVITE_MEDIATED invitor room
              reason], 1)
      | none => some ([], 1)

/-- The `_conference_handler` of message.c. The result is `none` where libstrophe is given
the `NULL` stanza of a message without a child in the conference namespace. -/
def _conference_handler (env : Env) (stanza : Stanza) : Option (List Call × Int) :=
  let xns_conference := xmpp_stanza_get_child_by_ns stanza env.STANZA_NS_CONFERENCE
  match xmpp_stanza_get_attribute stanza STANZA_ATTR_FROM with
  | none =>
    some ([Call.log .warning "Message received with no from attribute, ignoring" []], 1)
  | some from_ =>
    -- XEP-0429
    match xns_conference with
    | none => none
    | some xns_conference =>
      match xmpp_stanza_get_attribute xns_conference STANZA_ATTR_JID with
      | none => some ([], 1)
      | some room =>
        match jid_create env (some from_) with
        | none => some ([], 1)
        | some jidp =>
          let invitor := jidp.barejid
          let reason := xmpp_stanza_get_attribute xns_conference STANZA_ATTR_REASON
          some ([Call.handle_room_invite jabber_invite_t.INVITE_DIRECT invitor room reason], 1)

/-- The `_captcha_handler` of message.c. -/
def _captcha_handler (stanza : Stanza) : List Call × Int :=
  match xmpp_stanza_get_attribute stanza STANZA_ATTR_FROM with
  | none => ([Call.log .warning "Message received with no from attribute, ignoring" []], 1)
  | some from_ =>
    -- XEP-0158
    match xmpp_stanza_get_child_by_name stanza STANZA_NAME_BODY with
    | some body =>
      match xmpp_stanza_get_text body with
      | some message => ([Call.handle_room_broadcast (some from_) message], 1)
      | none => ([], 1)
    | none => ([], 1)

/-- What libstrophe does with a stanza that matches a handler registered by namespace and
type: it calls the handler. -/
def run_stanza_handler (env : Env) (xenv : XmppEnv) (renv : RosterEnv) :
    StanzaHandler → Stanza → Option (List Call × Int)
  | ._error_handler, st => some (_error_handler env st)
  | ._disco_info_get_handler, st => _disco_info_get_handler xenv st
  | ._disco_items_get_handler, st => _disco_items_get_handler st
  | ._disco_items_result_handler, st => some (_disco_items_result_handler st)
  | ._version_get_handler, st => some (_version_get_handler xenv st)
  | ._version_result_handler, st => _version_result_handler env xenv renv st
  | ._ping_get_handler, st => some (_ping_get_handler st)
  | ._message_error_handler, st => some (_message_error_handler env st)
  | ._groupchat_handler, st => _groupchat_handler env st
  | ._chat_handler, st => _chat_handler env st
  | ._muc_user_handler, st => _muc_user_handler env st
  | ._conference_handler, st => _conference_handler env st
  | ._captcha_handler, st => some (_captcha_handler st)

/-- The handlers registered by namespace and type by a list of calls. -/
def registered_stanza_handlers : List Call → List StanzaHandler
  | [] => []
  | Call.xmpp_handler_add handler _ _ _ :: rest => handler :: registered_stanza_handlers rest
  | _ :: rest => registered_stanza_handlers rest

/-! ## command.c: processing a line of input -/

/-- The `g_strstrip` of glib: the string without its leading and trailing white space. -/
def g_strstrip (string : String) : String :=
  String.mk ((string.data.dropWhile isspace).reverse.dropWhile isspace).reverse

/-- The first token that `strtok (str, " ")` returns: the characters after the leading
spaces up to the next space; `NULL` when nothing but spaces is left. -/
def strtok_first (str : String) : Option String :=
  let s := str.data.dropWhile (fun c => c = ' ')
  if s = [] then none else some (String.mk (s.takeWhile (fun c => c ≠ ' ')))

/-- The `g_str_has_prefix` of glib. -/
def g_str_has_prefix (str pfx : String) : Bool :=
  pfx.data.isPrefixOf str.data

/-- The string that starts one character after the start of `str` (`str + 1` in C). -/
def str_plus_one (str : String) : String :=
  String.mk (str.data.drop 1)

/-- The window types that `ui_current_win_type` returns (ui/window.h, which is not among
the sources). -/
inductive win_type_t where
  | WIN_CONSOLE | WIN_CHAT | WIN_MUC | WIN_MUC_CONFIG | WIN_PRIVATE | WIN_XML
  deriving DecidableEq

/-- The `Command` of command.c as `_cmd_execute` uses it. The parser gives `none` when it
sets its result to FALSE, and the arguments otherwise; the function gives `none` when it
does not return. -/
structure Command where
  func : List String → cmd_help_t → Option (List Call × Bool)
  parser : String → Int → Int → Option (List String)
  min_args : Int
  max_args : Int
  help : cmd_help_t

/-- What the processing of a line of input reads from the rest of the program: the type of
the current window, the argument parser for `/field`, `cmd_form_field`, the table
`commands` under `g_hash_table_lookup`, the stored aliases under `prefs_get_alias`, and
the part of `_cmd_execute_default` that sends the input from the current window, which
calls no function of command.c. -/
structure InputEnv where
  ui_current_win_type : win_type_t
  parse_args_with_freetext : String → Int → Int → Option (List String)
  cmd_form_field : String → List String → Option (List Call × Bool)
  commands : String → Option Command
  prefs_get_alias : String → Option String
  send_from_current_window : String → Option (List Call × Bool)

/-- The calls and the result of a command function as a step of input processing: no
result when the function does not return. -/
def command_result (r : Option (List Call × Bool)) : List Call × Option Bool :=
  match r with
  | some (calls, result) => (calls, some result)
  | none => ([], none)

/-- The `_cmd_execute_default` of command.c, up to the switch over the window type, which
is the field `send_from_current_window`. -/
def _cmd_execute_default (ienv : InputEnv) (inp : String) : List Call × Option Bool :=
  -- handle escaped commands - treat as normal message
  if g_str_has_prefix inp "//" then
    command_result (ienv.send_from_current_window (str_plus_one inp))
  -- handle unknown commands
  else if inp.data.head? = some '/' ∧ ¬ g_str_has_prefix inp "/me " then
    ([Call.cons_show "Unknown command: %s" [some inp], Call.cons_alert], some true)
  else command_result (ienv.send_from_current_window inp)

/-- The `_cmd_execute_alias` of command.c; `process` is the call of `cmd_process_input`.
The second component is the value left in `*ran`, which the caller sets to FALSE before
the call. -/
def _cmd_execute_alias (ienv : InputEnv) (process : String → List Call × Option Bool)
    (inp : String) : (List Call × Option Bool) × Bool :=
  if inp.data.head? ≠ some '/' then (([], some true), false)
  else
    let alias_ := str_plus_one inp
    match ienv.prefs_get_alias alias_ with
    | some value => (process value, true)
    | none => (([], some true), false)

/-- The `_cmd_execute` of command.c; `process` is the call of `cmd_process_input` made by
`_cmd_execute_alias`. -/
def _cmd_execute (ienv : InputEnv) (process : String → List Call × Option Bool)
    (command inp : String) : List Call × Option Bool :=
  if g_str_has_prefix command "/field" ∧
      ienv.ui_current_win_type = win_type_t.WIN_MUC_CONFIG then
    match ienv.parse_args_with_freetext inp 1 2 with
    | none =>
      ([Call.ui_current_print_formatted_line '!' 0 "Invalid command, see /form help"],
        some true)
    | some args =>
      -- the first of the two tokens of g_strsplit (inp, " ", 2)
      match (g_strsplit inp ' ')[0]? with
      | none => ([], none)
      | some token =>
        let field := str_plus_one token
        command_result (ienv.cmd_form_field field args)
  else
    match ienv.commands command with
    | some cmd =>
      match cmd.parser inp cmd.min_args cmd.max_args with
      | none => ([Call.ui_invalid_command_usage cmd.help.usage], some true)
      | some args => command_result (cmd.func args cmd.help)
    | none =>
      let alias_run := _cmd_execute_alias ienv process inp
      let ran_alias := alias_run.2
      let alias_result := alias_run.1
      if ¬ ran_alias then _cmd_execute_default ienv inp
      else alias_result

/-- The `cmd_process_input` of command.c, with the calls it makes and its result. The
first argument bounds the depth of the calls of `cmd_process_input` within one another:
the result is `none` when the call has not returned within that depth, or when the
command function does not return. -/
def cmd_process_input : Nat → InputEnv → String → List Call × Option Bool
  | 0, _, _ => ([], none)
  | depth + 1, ienv, inp =>
    let received := Call.log .debug "Input received: %s" [some inp]
    let inp := g_strstrip inp
    -- just carry on if no input
    if inp.length = 0 then ([received], some true)
    -- handle command if input starts with a '/'
    else if inp.data.head? = some '/' then
      match strtok_first inp with
      | none => ([received], none)
      | some command =>
        let r := _cmd_execute ienv (fun value => cmd_process_input depth ienv value) command inp
        (received :: r.1, r.2)
    -- call a default handler if input didn't start with '/'
    else
      let r := _cmd_execute_default ienv inp
      (received :: r.1, r.2)

/-- What `cmd_alias` reads from the rest of the program: `cmd_exists` of command.c
(membership in the autocompleter of commands and aliases), and, from preferences.c, the
result of `prefs_remove_alias` and the stored aliases. -/
structure AliasEnv where
  cmd_exists : String → Bool
  prefs_remove_alias : String → Bool
  prefs_get_aliases : List (String × String)

/-- The `cmd_alias` of commands.c. The result is `none` when there is no first argument,
which `strcmp` would read through a `NULL` pointer. -/
def cmd_alias (aenv : AliasEnv) (args : List String) (help : cmd_help_t) :
    Option (List Call × Bool) :=
  match args[0]? with
  | none => none
  | some subcmd =>
    if strcmp subcmd "add" = 0 then
      match args[1]? with
      | none => some ([Call.cons_show "Usage: %s" [some help.usage]], true)
      | some alias_ =>
        let starts_with_slash : Bool := alias_.data.head? = some '/'
        let ac_value := if starts_with_slash then alias_ else "/" ++ alias_
        let alias_p := if starts_with_slash then str_plus_one alias_ else alias_
        match args[2]? with
        | none => some ([Call.cons_show "Usage: %s" [some help.usage]], true)
        | some value =>
          if aenv.cmd_exists ac_value then
            some ([Call.cons_show "Command or alias '%s' already exists." [some ac_value]],
              true)
          else
            some ([Call.prefs_add_alias alias_p value, Call.cmd_autocomplete_add ac_value,
              Call.cmd_alias_add alias_p,
              Call.cons_show "Command alias added %s -> %s" [some ac_value, some value]], true)
    else if strcmp subcmd "remove" = 0 then
      match args[1]? with
      | none => some ([Call.cons_show "Usage: %s" [some help.usage]], true)
      | some alias_ =>
        let alias_ := if alias_.data.head? = some '/' then str_plus_one alias_ else alias_
        let removed := aenv.prefs_remove_alias alias_
        if ¬ removed then
          some ([Call.prefs_remove_alias alias_,
            Call.cons_show "No such command alias /%s" [some alias_]], true)
        else
          let ac_value := "/" ++ alias_
          some ([Call.prefs_remove_alias alias_, Call.cmd_autocomplete_remove ac_value,
            Call.cmd_alias_remove alias_,
            Call.cons_show "Command alias removed -> /%s" [some alias_]], true)
    else if strcmp subcmd "list" = 0 then
      some ([Call.cons_show_aliases aenv.prefs_get_aliases], true)
    else some ([Call.cons_show "Usage: %s" [some help.usage]], true)

/-! ## The capability cache -/

/-- Modelled from the spec: the state of the capability cache (capabilities.c, which is not
among the sources): capability records keyed by verification hash or legacy node string, and
the binding of an entity to a hash. -/
structure CapsState where
  cache : List (String × Capabilities)
  jid_to_ver : List (String × String)
  deriving DecidableEq

/-- Modelled from the spec: `caps_contains` of capabilities.c, which is not among the
sources: whether a record is cached under the key. -/
def caps_contains (s : CapsState) (ver : String) : Bool :=
  s.cache.any (fun e => e.1 = ver)

/-- Modelled from the spec: `caps_add_by_ver` of capabilities.c, which is not among the
sources: stores the record under the key. -/
def caps_add_by_ver (s : CapsState) (ver : String) (caps : Capabilities) : CapsState :=
  { s with cache := (ver, caps) :: s.cache.filter (fun e => e.1 ≠ ver) }

/-- Modelled from the spec: `caps_map_jid_to_ver` of capabilities.c, which is not among the
sources: binds the entity to the hash, overwriting an earlier binding. -/
def caps_map_jid_to_ver (s : CapsState) (jid ver : String) : CapsState :=
  { s with jid_to_ver := (jid, ver) :: s.jid_to_ver.filter (fun e => e.1 ≠ jid) }

/-- The effect of one call on the capability cache and the bindings. -/
def caps_apply (s : CapsState) : Call → CapsState
  | Call.caps_add_by_ver ver caps => caps_add_by_ver s ver caps
  | Call.caps_map_jid_to_ver jid ver => caps_map_jid_to_ver s jid ver
  | _ => s

/-- The effect of a list of calls, in order. -/
def caps_run (s : CapsState) (calls : List Call) : CapsState :=
  calls.foldl caps_apply s

/-- The records passed to `caps_add_by_ver` by a list of calls. -/
def caps_added : List Call → List (String × Capabilities)
  | [] => []
  | Call.caps_add_by_ver ver caps :: rest => (ver, caps) :: caps_added rest
  | _ :: rest => caps_added rest

/-- The bindings passed to `caps_map_jid_to_ver` by a list of calls. -/
def caps_mapped : List Call → List (String × String)
  | [] => []
  | Call.caps_map_jid_to_ver jid ver :: rest => (jid, ver) :: caps_mapped rest
  | _ :: rest => caps_mapped rest

/-- The keys passed to `caps_contains` by a list of calls. -/
def caps_checked : List Call → List String
  | [] => []
  | Call.caps_contains ver :: rest => ver :: caps_checked rest
  | _ :: rest => caps_checked rest

/-- The hash given in a node attribute: `split[1]` of the handler, for a node attribute
that is not empty. -/
def given_sha1 (node : String) : Option String :=
  (g_strsplit node '#').tail.head?

/-- The calls of a handler result; none for a handler that does not return. -/
def calls_of (r : Option (List Call × Int)) : List Call :=
  match r with
  | some (calls, _) => calls
  | none => []

/-! ## A concrete environment -/

/-- The characters before the first occurrence of the delimiter, and those after it when it
occurs. -/
def break_at (d : Char) : List Char → List Char × Option (List Char)
  | [] => ([], none)
  | c :: cs =>
    if c = d then ([], some cs)
    else ((break_at d cs).1.cons c, (break_at d cs).2)

/-- Modelled from the spec: parsing of a Jid `[localpart@]domainpart[/resourcepart]` (jid.c,
which is not among the sources), with `barejid = localpart@domainpart` and
`fulljid = barejid[/resourcepart]`; a string without a domainpart is rejected. -/
def jid_parse (str : String) : Option Jid :=
  let (bare, resource) := break_at '/' str.data
  let (first, second) := break_at '@' bare
  let domain := match second with
    | some dom => dom
    | none => first
  let localpart := match second with
    | some _ => some (String.mk first)
    | none => none
  if domain = [] then none
  else some {
    str := str
    localpart := localpart
    domainpart := String.mk domain
    resourcepart := resource.map String.mk
    barejid := String.mk bare
    fulljid := some str }

/-- An environment for concrete runs: the usual namespaces, `jid_parse`, one active room,
and a disco#info query whose verification string is the given one. -/
def example_env (generated_sha1 : String) : Env where
  STANZA_NS_CARBONS := "urn:xmpp:carbons:2"
  STANZA_NS_FORWARD := "urn:xmpp:forward:0"
  STANZA_NS_CONFERENCE := "jabber:x:conference"
  STANZA_NS_MUC_USER := "http://jabber.org/protocol/muc#user"
  STANZA_NS_MUC_ADMIN := "http://jabber.org/protocol/muc#admin"
  STANZA_NS_CAPTCHA := "urn:xmpp:captcha"
  STANZA_NS_DATA := "jabber:x:data"
  stanza_get_error_message := fun _ => "unknown"
  stanza_get_delay := fun _ => none
  stanza_contains_chat_state := fun _ => false
  caps_create_sha1_str := fun _ => generated_sha1
  caps_create := fun query => ⟨(collect_disco_info (xmpp_stanza_get_children query)).1,
    (collect_disco_info (xmpp_stanza_get_children query)).2⟩
  form_create := fun x => ⟨xmpp_stanza_get_attribute x STANZA_ATTR_TYPE, []⟩
  jid_parse := jid_parse
  jid_is_valid_room_form := fun jid => jid.resourcepart.isSome
  muc_active := fun room => room = "chat@conf.example.org"
  jabber_get_fulljid := some "alice@example.org/laptop"
  stanza_create_disco_info_iq := fun id to_ node =>
    Stanza.tag "iq" [("type", "get"), ("to", to_), ("id", id)]
      [Stanza.tag "query" (("xmlns", "http://jabber.org/protocol/disco#info") ::
        (match node with
         | some n => [("node", n)]
         | none => [])) []]
  stanza_create_instant_room_destroy_iq := fun room_jid =>
    Stanza.tag "iq" [("type", "set"), ("to", room_jid), ("id", "destroy1")]
      [Stanza.tag "query" [("xmlns", "http://jabber.org/protocol/muc#owner")]
        [Stanza.tag "destroy" [] []]]
  stanza_create_room_kick_iq := fun room nick _ =>
    Stanza.tag "iq" [("type", "set"), ("to", room), ("id", "kick1")]
      [Stanza.tag "query" [("xmlns", "http://jabber.org/protocol/muc#admin")]
        [Stanza.tag "item" [("nick", nick), ("role", "none")] []]]
  stanza_create_room_affiliation_set_iq := fun room jid affiliation _ =>
    Stanza.tag "iq" [("type", "set"), ("to", room), ("id", "affil1")]
      [Stanza.tag "query" [("xmlns", "http://jabber.org/protocol/muc#admin")]
        [Stanza.tag "item" [("jid", jid), ("affiliation", affiliation)] []]]
  stanza_create_room_role_set_iq := fun room nick role _ =>
    Stanza.tag "iq" [("type", "set"), ("to", room), ("id", "role1")]
      [Stanza.tag "query" [("xmlns", "http://jabber.org/protocol/muc#admin")]
        [Stanza.tag "item" [("nick", nick), ("role", role)] []]]

/-- A disco#info result from `bob@example.org/phone` for the node `profanity#ABC123`. -/
def caps_result_stanza : Stanza :=
  Stanza.tag "iq" [("type", "result"), ("from", "bob@example.org/phone"), ("id", "caps1")]
    [Stanza.tag "query"
      [("xmlns", "http://jabber.org/protocol/disco#info"), ("node", "profanity#ABC123")]
      [Stanza.tag "identity" [("category", "client"), ("type", "console")] [],
       Stanza.tag "feature" [("var", "urn:xmpp:ping")] []]]

/-- The query child of `caps_result_stanza`. -/
def caps_result_query : Stanza :=
  Stanza.tag "query"
    [("xmlns", "http://jabber.org/protocol/disco#info"), ("node", "profanity#ABC123")]
    [Stanza.tag "identity" [("category", "client"), ("type", "console")] [],
     Stanza.tag "feature" [("var", "urn:xmpp:ping")] []]

/-- A cache that already holds a record under `ABC123`. -/
def caps_state_cached : CapsState :=
  { cache := [("ABC123", ⟨[], ["urn:xmpp:ping"]⟩)], jid_to_ver := [] }

/-- An empty cache. -/
def caps_state_empty : CapsState := { cache := [], jid_to_ver := [] }

/-- A disco#info result from a server. -/
def disco_info_result_stanza : Stanza :=
  Stanza.tag "iq" [("type", "result"), ("from", "example.org"), ("id", "disco_info1")]
    [Stanza.tag "query" [("xmlns", "http://jabber.org/protocol/disco#info")]
      [Stanza.tag "identity" [("category", "server"), ("type", "im")] [],
       Stanza.tag "feature" [("var", "urn:xmpp:ping")] []]]

/-- An error response to an autoping ping whose error child has type cancel. -/
def pong_cancel_stanza : Stanza :=
  Stanza.tag "iq" [("type", "error"), ("from", "example.org"), ("id", "ping1")]
    [Stanza.tag "ping" [("xmlns", "urn:xmpp:ping")] [],
     Stanza.tag "error" [("type", "cancel")]
      [Stanza.tag "service-unavailable" [("xmlns", "urn:ietf:params:xml:ns:xmpp-stanzas")] []]]

/-- A chat message from the occupant `bob` of the active room `chat@conf.example.org`. -/
def room_private_stanza : Stanza :=
  Stanza.tag "message" [("type", "chat"), ("from", "chat@conf.example.org/bob")]
    [Stanza.tag "body" [] [Stanza.text "hello"]]

/-- The message forwarded inside `carbon_stanza`. -/
def carbon_inner_message : Stanza :=
  Stanza.tag "message"
    [("type", "chat"), ("from", "bob@example.org/phone"), ("to", "alice@example.org/desktop")]
    [Stanza.tag "body" [] [Stanza.text "hi"]]

/-- The forwarded child of the carbons child of `carbon_stanza`. -/
def carbon_forwarded : Stanza :=
  Stanza.tag "forwarded" [("xmlns", "urn:xmpp:forward:0")] [carbon_inner_message]

/-- The carbons child of `carbon_stanza`. -/
def carbon_received : Stanza :=
  Stanza.tag "received" [("xmlns", "urn:xmpp:carbons:2")] [carbon_forwarded]

/-- A carbon copy of a message received by another client of `alice@example.org`. -/
def carbon_stanza : Stanza :=
  Stanza.tag "message" [("type", "chat"), ("from", "alice@example.org")] [carbon_received]

/-- A groupchat message without a from attribute. -/
def groupchat_without_from : Stanza :=
  Stanza.tag "message" [("type", "groupchat")] [Stanza.tag "body" [] [Stanza.text "hi"]]

/-- A chat message without a from attribute. -/
def chat_without_from : Stanza :=
  Stanza.tag "message" [("type", "chat")] [Stanza.tag "body" [] [Stanza.text "hi"]]

/-- An error response to a destroy-room request: the requester is not an owner. -/
def destroy_error_stanza : Stanza :=
  Stanza.tag "iq" [("type", "error"), ("from", "chat@conf.example.org"), ("id", "destroy1")]
    [Stanza.tag "error" [("type", "auth")]
      [Stanza.tag "forbidden" [("xmlns", "urn:ietf:params:xml:ns:xmpp-stanzas")] []]]

/-- The body text of a message: the text of its first body child. -/
def body_text (message : Stanza) : Option String :=
  match xmpp_stanza_get_child_by_name message STANZA_NAME_BODY with
  | some body => xmpp_stanza_get_text body
  | none => none

/-! ## Reading a list of calls -/

/-- Whether a call is a log line. -/
def is_log : Call → Bool
  | Call.log _ _ _ => true
  | _ => false

/-- The calls other than log lines. -/
def events (calls : List Call) : List Call :=
  calls.filter (fun c => ! is_log c)

/-- How often a list of calls reports `handle_autoping_cancel`. -/
def autoping_cancels : List Call → Nat
  | [] => 0
  | Call.handle_autoping_cancel :: rest => autoping_cancels rest + 1
  | _ :: rest => autoping_cancels rest

/-- The timed handlers deleted by a list of calls. -/
def timed_deleted : List Call → List TimedHandler
  | [] => []
  | Call.xmpp_timed_handler_delete handler :: rest => handler :: timed_deleted rest
  | _ :: rest => timed_deleted rest

/-- The rooms reported destroyed by a list of calls. -/
def rooms_destroyed : List Call → List String
  | [] => []
  | Call.handle_room_destroy room :: rest => room :: rooms_destroyed rest
  | _ :: rest => rooms_destroyed rest

/-- The effect of one call on the timed handlers of the connection (libstrophe), each with
its period: a handler is added unless it is registered already, and deleting a handler
removes every registration of it. -/
def timed_apply (handlers : List (TimedHandler × Int)) : Call → List (TimedHandler × Int)
  | Call.xmpp_timed_handler_add handler millis =>
    if handlers.any (fun h => h.1 = handler) then handlers else handlers ++ [(handler, millis)]
  | Call.xmpp_timed_handler_delete handler => handlers.filter (fun h => h.1 ≠ handler)
  | _ => handlers

/-- The timed handlers after a list of calls. -/
def timed_run (handlers : List (TimedHandler × Int)) (calls : List Call) :
    List (TimedHandler × Int) :=
  calls.foldl timed_apply handlers

/-- The stanzas sent by a list of calls. -/
def sent : List Call → List Stanza
  | [] => []
  | Call.xmpp_send stanza :: rest => stanza :: sent rest
  | _ :: rest => sent rest

/-- The latencies reported by a list of calls with `handle_ping_result`. -/
def ping_results : List Call → List (Option String × Int)
  | [] => []
  | Call.handle_ping_result from_ millis :: rest => (from_, millis) :: ping_results rest
  | _ :: rest => ping_results rest

/-- The join presences sent by a list of calls: room, nick and password. -/
def join_presences : List Call → List (String × String × Option String)
  | [] => []
  | Call.presence_join_room room nick passwd :: rest =>
    (room, nick, passwd) :: join_presences rest
  | _ :: rest => join_presences rest

/-- The rooms recorded with `muc_join` by a list of calls. -/
def muc_joins : List Call → List (String × String × Option String)
  | [] => []
  | Call.muc_join room nick passwd _ :: rest => (room, nick, passwd) :: muc_joins rest
  | _ :: rest => muc_joins rest

/-- An iq of type result addressed to the requester, with the given id attribute. -/
def is_result_for (response : Stanza) (requester : String) (id : Option String) : Prop :=
  xmpp_stanza_get_name response = some STANZA_NAME_IQ ∧
  xmpp_stanza_get_type response = some STANZA_TYPE_RESULT ∧
  xmpp_stanza_get_attribute response STANZA_ATTR_TO = some requester ∧
  xmpp_stanza_get_id response = id

/-! ## More of the concrete environment -/

/-- Modelled from the spec: `jid_create_from_bare_and_resource` of jid.c, which is not among
the sources: the Jid whose full JID is `barejid/resource`. -/
def jid_create_from_bare_and_resource (barejid resource : String) : Option Jid :=
  jid_parse (barejid ++ "/" ++ resource)

/-- A message stanza with a body and at most one chat state element. -/
def example_create_message (recipient : Option String) (type msg : String)
    (state : Option String) (_encrypted : Bool) : Stanza :=
  Stanza.tag "message"
    (("type", type) ::
      (match recipient with
       | some r => [("to", r)]
       | none => []))
    (Stanza.tag "body" [] [Stanza.text msg] ::
      (match state with
       | some st => [Stanza.tag st [("xmlns", "http://jabber.org/protocol/chatstates")] []]
       | none => []))

/-- An environment for concrete runs of the send operations: the connection status, the
chat-states preference and the chat session of every contact are given. -/
def example_xenv (status : jabber_conn_status_t) (states : Bool)
    (session : Option ChatSession) : XmppEnv where
  STANZA_NS_VERSION := "jabber:iq:version"
  PACKAGE_VERSION := "0.4.6"
  PACKAGE_STATUS := "release"
  HAVE_GIT_VERSION := none
  caps_create_query_response_stanza :=
    Stanza.tag "query" [("xmlns", "http://jabber.org/protocol/disco#info")]
      [Stanza.tag "identity" [("category", "client"), ("type", "console")] [],
       Stanza.tag "feature" [("var", "urn:xmpp:ping")] []]
  jabber_get_connection_status := status
  stanza_create_ping_iq := fun target =>
    Stanza.tag "iq"
      (("type", "get") :: ("id", "ping1") ::
        (match target with
         | some t => [("to", t)]
         | none => []))
      [Stanza.tag "ping" [("xmlns", "urn:xmpp:ping")] []]
  stanza_create_message := example_create_message
  prefs_get_boolean := fun pref => pref = preference_t.PREF_STATES ∧ states
  chat_session_get := fun _ => session
  jid_create_from_bare_and_resource := jid_create_from_bare_and_resource

/-- Option arguments as pairs of a key and a value: the keys must be option keys. -/
def example_parse_options : List String → List String → Option (List (String × String))
  | [], _ => some []
  | [_], _ => none
  | key :: value :: rest, opt_keys =>
    if key ∈ opt_keys then
      match example_parse_options rest opt_keys with
      | some options => some ((key, value) :: options)
      | none => none
    else none

/-- An environment for concrete runs of the commands: the account `alice@example.org`, and
the contact `bob@example.org` with the resource `phone`. -/
def example_cenv (status : jabber_conn_status_t) : CmdEnv where
  jabber_get_connection_status := status
  account := some { muc_service := "conference.example.org", muc_nick := "alice" }
  roster_get_contact := fun barejid =>
    if barejid = "bob@example.org" then some { barejid := barejid, resources := ["phone"] }
    else none
  p_contact_get_resource := fun contact resource => resource ∈ contact.resources
  otr_is_secure := some (fun _ => false)
  parse_options := example_parse_options
  muc_roster_complete := fun _ => true

/-- The help of a command, with the given usage line. -/
def example_help (usage : String) : cmd_help_t :=
  { usage := usage, short_help := "", long_help := [] }

/-- A ping request that carries a from attribute and an id but no to attribute. -/
def ping_get_without_to : Stanza :=
  Stanza.tag "iq" [("type", "get"), ("from", "example.org"), ("id", "s2c1")]
    [Stanza.tag "ping" [("xmlns", "urn:xmpp:ping")] []]

/-- A disco#info request from a server. -/
def disco_info_get_stanza : Stanza :=
  Stanza.tag "iq"
    [("type", "get"), ("from", "example.org"), ("to", "alice@example.org/laptop"),
      ("id", "info1")]
    [Stanza.tag "query" [("xmlns", "http://jabber.org/protocol/disco#info")] []]

/-- The result of a room configuration request with a form. -/
def room_config_stanza : Stanza :=
  Stanza.tag "iq" [("type", "result"), ("from", "chat@conf.example.org"), ("id", "config1")]
    [Stanza.tag "query" [("xmlns", "http://jabber.org/protocol/muc#owner")]
      [Stanza.tag "x" [("xmlns", "jabber:x:data"), ("type", "form")] []]]

/-- The form element of `room_config_stanza`. -/
def room_config_x : Stanza :=
  Stanza.tag "x" [("xmlns", "jabber:x:data"), ("type", "form")] []

/-- The query child of `room_config_stanza`. -/
def room_config_query : Stanza :=
  Stanza.tag "query" [("xmlns", "http://jabber.org/protocol/muc#owner")] [room_config_x]

/-- A result response to a ping. -/
def pong_result_stanza : Stanza :=
  Stanza.tag "iq" [("type", "result"), ("from", "example.org"), ("id", "ping1")] []

/-- A chat window for `bob@example.org` with an override and a chat state in progress. -/
def example_chatwin : ProfChatWin :=
  { barejid := "bob@example.org", resource_override := some "laptop",
    state := { last_state_sent := some ChatStateKind.composing } }

/-- The room JID that "/join" resolves its first argument to: the argument itself when it
has a localpart, and argument + "@" + the account's muc.service otherwise. -/
def join_room (arg0 : String) (room_arg : Jid) (account : ProfAccount) : String :=
  if room_arg.localpart.isSome then arg0 else arg0 ++ "@" ++ account.muc_service

/-- The nick that "/join" uses: the "nick" option when given, the account's muc.nick
otherwise. -/
def join_nick (options : List (String × String)) (account : ProfAccount) : String :=
  match hash_get options "nick" with
  | some nick => nick
  | none => account.muc_nick

/-- A copy of `carbon_stanza` whose outer from attribute names another sender. -/
def carbon_stanza_other_sender : Stanza :=
  Stanza.tag "message" [("type", "chat"), ("from", "mallory@example.net")] [carbon_received]

/-- The attribute of every `item` child of a child list that has it, in document order. -/
def item_attrs (attr : String) : List Stanza → List String
  | [] => []
  | child :: rest =>
    if xmpp_stanza_get_name child = some "item" then
      match xmpp_stanza_get_attribute child attr with
      | some v => v :: item_attrs attr rest
      | none => item_attrs attr rest
    else item_attrs attr rest

/-- The children of the first child of a stanza in the muc#admin namespace; none when
there is no such child. -/
def muc_admin_items (env : Env) (stanza : Stanza) : List Stanza :=
  match xmpp_stanza_get_child_by_ns stanza env.STANZA_NS_MUC_ADMIN with
  | some query => xmpp_stanza_get_children query
  | none => []

/-- Ascending order: `g_strcmp0` of two strings is not positive. -/
def g_strcmp0_le (a b : String) : Prop := g_strcmp0 (some a) (some b) ≤ 0

/-- A result of an affiliation list request with three members, one without jid. -/
def affiliation_list_stanza : Stanza :=
  Stanza.tag "iq" [("type", "result"), ("from", "chat@conf.example.org"), ("id", "affil2")]
    [Stanza.tag "query" [("xmlns", "http://jabber.org/protocol/muc#admin")]
      [Stanza.tag "item" [("affiliation", "member"), ("jid", "carol@example.org")] [],
       Stanza.tag "item" [("affiliation", "member")] [],
       Stanza.tag "item" [("affiliation", "member"), ("jid", "bob@example.org")] []]]

/-- A disco#info result that echoes the node string of a request for the node
`http://example.org/client#beta` and the ver `ABC123`. -/
def caps_result_stanza_hash_node : Stanza :=
  Stanza.tag "iq" [("type", "result"), ("from", "bob@example.org/phone"), ("id", "caps1")]
    [Stanza.tag "query"
      [("xmlns", "http://jabber.org/protocol/disco#info"),
        ("node", "http://example.org/client#beta#ABC123")]
      [Stanza.tag "identity" [("category", "client"), ("type", "console")] [],
       Stanza.tag "feature" [("var", "urn:xmpp:ping")] []]]

/-- The timed handlers added by a list of calls, with their periods. -/
def timed_added : List Call → List (TimedHandler × Int)
  | [] => []
  | Call.xmpp_timed_handler_add handler millis :: rest => (handler, millis) :: timed_added rest
  | _ :: rest => timed_added rest

/-- The priorities set by a list of calls with `accounts_set_priority_all`. -/
def priorities_set : List Call → List Int
  | [] => []
  | Call.accounts_set_priority_all _ value :: rest => value :: priorities_set rest
  | _ :: rest => priorities_set rest

/-- The calls of a command; none for a command that does not return. -/
def cmd_calls (r : Option (List Call × Bool)) : List Call :=
  match r with
  | some (calls, _) => calls
  | none => []

/-- A connected session of the account `alice@example.org`. -/
def example_senv : SessionEnv where
  jabber_get_connection_status := jabber_conn_status_t.JABBER_CONNECTED
  jabber_get_account_name := some "alice@example.org"
  accounts_get_last_presence := fun _ => resource_presence_t.RESOURCE_ONLINE
  jabber_get_presence_message := none

/-- Stored preferences with chat states and typing notifications on and a gone period of
ten minutes. -/
def example_prefs : PrefState where
  booleans := fun pref => pref = preference_t.PREF_STATES ∨ pref = preference_t.PREF_OUTTYPE
  gone := 10
  autoping := 60

/-- A roster with the contact `bob@example.org` and its resource `phone`, and no room
occupants. -/
def example_renv : RosterEnv where
  muc_roster_item := fun _ _ => none
  roster_resource := fun barejid resource =>
    if barejid = "bob@example.org" ∧ resource = some "phone" then
      some resource_presence_t.RESOURCE_ONLINE
    else none
  string_from_resource_presence := fun _ => "online"

/-- A software version result from a sender that is not in the roster. -/
def version_result_unknown_sender : Stanza :=
  Stanza.tag "iq" [("type", "result"), ("from", "carol@example.org/tablet"), ("id", "v1")]
    [Stanza.tag "query" [("xmlns", "jabber:iq:version")]
      [Stanza.tag "name" [] [Stanza.text "Profanity"]]]

/-- A software version result without a from attribute. -/
def version_result_without_from : Stanza :=
  Stanza.tag "iq" [("type", "result"), ("id", "version1")]
    [Stanza.tag "query" [("xmlns", "jabber:iq:version")]
      [Stanza.tag "name" [] [Stanza.text "Profanity"]]]

/-- The aliases that a list of calls stores with `prefs_add_alias`: name and value. -/
def aliases_added : List Call → List (String × String)
  | [] => []
  | Call.prefs_add_alias name value :: rest => (name, value) :: aliases_added rest
  | _ :: rest => aliases_added rest

/-- The lines that `cmd_process_input` logs as received input, in order. -/
def inputs_received : List Call → List (Option String)
  | [] => []
  | Call.log _ "Input received: %s" [inp] :: rest => inp :: inputs_received rest
  | _ :: rest => inputs_received rest

/-- An argument parser for concrete runs: the words after the command, none when their
number is outside the bounds. -/
def example_parse_args (inp : String) (min max : Int) : Option (List String) :=
  let args := ((g_strsplit inp ' ').drop 1).filter (fun a => a ≠ "")
  if min ≤ args.length ∧ (args.length : Int) ≤ max then some args else none

/-- The alias side of a program whose only command is `/alias`, with the given stored
aliases. -/
def example_aenv (aliases : List (String × String)) : AliasEnv where
  cmd_exists := fun cmd => cmd = "/alias" ∨ cmd ∈ aliases.map (fun a => "/" ++ a.1)
  prefs_remove_alias := fun name => name ∈ aliases.map (fun a => a.1)
  prefs_get_aliases := aliases

/-- A program whose only command is `/alias`, with the given stored aliases, and the
console as current window. -/
def example_ienv (aliases : List (String × String)) : InputEnv where
  ui_current_win_type := win_type_t.WIN_CONSOLE
  parse_args_with_freetext := example_parse_args
  cmd_form_field := fun _ _ => some ([], true)
  commands := fun command =>
    if command = "/alias" then
      some { func := cmd_alias (example_aenv aliases), parser := example_parse_args,
             min_args := 1, max_args := 3,
             help := example_help "/alias add|remove|list [name value]" }
    else none
  prefs_get_alias := fun name => aliases.lookup name
  send_from_current_window := fun inp =>
    some ([Call.cons_show "Unknown command: %s" [some inp]], true)

/-! ## Lemmas on the string helpers -/

theorem strcmp_chars_eq_zero_iff (a b : List Char) : strcmp_chars a b = 0 ↔ a = b := by
  induction a generalizing b with
  | nil => cases b <;> simp [strcmp_chars]
  | cons x xs ih =>
    cases b with
    | nil => simp [strcmp_chars]
    | cons y ys =>
      simp only [strcmp_chars]
      by_cases h1 : x.toNat < y.toNat
      · have hne : x ≠ y := fun h => by subst h; omega
        simp [h1, hne]
      · by_cases h2 : y.toNat < x.toNat
        · have hne : x ≠ y := fun h => by subst h; omega
          simp [h1, h2, hne]
        · have hxy : x = y := by
            have h : x.toNat = y.toNat := by omega
            rw [← Char.ofNat_toNat x, h, Char.ofNat_toNat]
          simp [h1, h2, hxy, ih]

theorem strcmp_eq_zero_iff (a b : String) : strcmp a b = 0 ↔ a = b := by
  unfold strcmp
  rw [strcmp_chars_eq_zero_iff]
  constructor
  · intro h
    cases a; cases b; simp_all
  · intro h; rw [h]

theorem g_strcmp0_eq_zero_iff (a b : Option String) : g_strcmp0 a b = 0 ↔ a = b := by
  cases a <;> cases b <;> simp [g_strcmp0]
  rename_i x y
  exact strcmp_eq_zero_iff x y

theorem strsplit_chars_ne_nil (d : Char) (cs : List Char) : strsplit_chars d cs ≠ [] := by
  cases cs with
  | nil => simp [strsplit_chars]
  | cons c cs =>
    simp only [strsplit_chars]
    split
    · simp
    · split <;> simp

theorem strsplit_chars_no_delim (d : Char) (cs : List Char) :
    ∀ t ∈ strsplit_chars d cs, d ∉ t := by
  induction cs with
  | nil => simp [strsplit_chars]
  | cons c cs ih =>
    intro t ht
    simp only [strsplit_chars] at ht
    split at ht
    · rcases List.mem_cons.mp ht with h | h
      · subst h; simp
      · exact ih t h
    · rename_i hcd
      split at ht
      · rename_i heq
        exact absurd heq (strsplit_chars_ne_nil d cs)
      · rename_i t0 ts heq
        rcases List.mem_cons.mp ht with h | h
        · subst h
          have h0 : d ∉ t0 := ih t0 (by rw [heq]; simp)
          intro hmem
          rcases List.mem_cons.mp hmem with h1 | h1
          · exact hcd h1.symm
          · exact h0 h1
        · exact ih t (by rw [heq]; exact List.mem_cons_of_mem _ h)

theorem g_strsplit_no_delim (s : String) (d : Char) : ∀ t ∈ g_strsplit s d, d ∉ t.data := by
  intro t ht
  unfold g_strsplit at ht
  split at ht
  · simp at ht
  · rcases List.mem_map.mp ht with ⟨cs, hcs, rfl⟩
    exact strsplit_chars_no_delim d s.data cs hcs

theorem given_sha1_no_hash (node k : String) (h : given_sha1 node = some k) : '#' ∉ k.data := by
  unfold given_sha1 at h
  apply g_strsplit_no_delim node '#' k
  cases hs : g_strsplit node '#' with
  | nil => rw [hs] at h; simp at h
  | cons a t =>
    rw [hs] at h
    cases t with
    | nil => simp at h
    | cons b t' =>
      simp at h
      subst h
      simp

theorem g_strsplit_cons (s : String) (d : Char) (h : s ≠ "") :
    ∃ a t, g_strsplit s d = a :: t := by
  have hd : s.data ≠ [] := by
    intro hd
    apply h
    cases s
    simp_all
  unfold g_strsplit
  rw [if_neg hd]
  cases hs : strsplit_chars d s.data with
  | nil => exact absurd hs (strsplit_chars_ne_nil d s.data)
  | cons a t => exact ⟨String.mk a, t.map String.mk, by simp⟩

theorem caps_run_append (s : CapsState) (a b : List Call) :
    caps_run s (a ++ b) = caps_run (caps_run s a) b := by
  simp [caps_run, List.foldl_append]

theorem caps_added_append (a b : List Call) :
    caps_added (a ++ b) = caps_added a ++ caps_added b := by
  induction a with
  | nil => rfl
  | cons c cs ih => cases c <;> simp [caps_added, ih]

theorem caps_mapped_append (a b : List Call) :
    caps_mapped (a ++ b) = caps_mapped a ++ caps_mapped b := by
  induction a with
  | nil => rfl
  | cons c cs ih => cases c <;> simp [caps_mapped, ih]

theorem caps_checked_append (a b : List Call) :
    caps_checked (a ++ b) = caps_checked a ++ caps_checked b := by
  induction a with
  | nil => rfl
  | cons c cs ih => cases c <;> simp [caps_checked, ih]

theorem log_caps_fired_quiet (id : Option String) (s : CapsState) :
    caps_added (log_caps_fired id) = [] ∧ caps_mapped (log_caps_fired id) = [] ∧
    caps_checked (log_caps_fired id) = [] ∧ caps_run s (log_caps_fired id) = s := by
  cases id <;> simp [log_caps_fired, caps_added, caps_mapped, caps_checked, caps_run, caps_apply]

/-- C1 (amended): for a response with a from attribute, of a type other than get, set and
error, with a query child whose node attribute is not empty, the handler returns 0 and
binds the sender to the hash (`caps_map_jid_to_ver`) exactly when the recomputed SHA-1
equals the hash given in the node attribute; it adds a record (`caps_add_by_ver`) exactly
when the two are equal and the hash is not cached yet; when they differ the cache and the
bindings are left as they were. -/
theorem caps_response_handler_verified (env : Env) (s : CapsState) (stanza query : Stanza)
    (from_ node : String)
    (hfrom : xmpp_stanza_get_attribute stanza STANZA_ATTR_FROM = some from_)
    (hget : xmpp_stanza_get_type stanza ≠ some "get")
    (hset : xmpp_stanza_get_type stanza ≠ some "set")
    (herr : xmpp_stanza_get_type stanza ≠ some "error")
    (hquery : xmpp_stanza_get_child_by_name stanza STANZA_NAME_QUERY = some query)
    (hnode : xmpp_stanza_get_attribute query STANZA_ATTR_NODE = some node)
    (hne : node ≠ "") :
    ∃ calls, _caps_response_handler env (caps_contains s) stanza = some (calls, 0) ∧
      caps_mapped calls =
        (if given_sha1 node = some (env.caps_create_sha1_str query)
         then [(from_, env.caps_create_sha1_str query)] else []) ∧
      caps_added calls =
        (if given_sha1 node = some (env.caps_create_sha1_str query) ∧
            caps_contains s (env.caps_create_sha1_str query) = false
         then [(env.caps_create_sha1_str query, env.caps_create query)] else []) ∧
      (given_sha1 node ≠ some (env.caps_create_sha1_str query) →
        caps_run s calls = s ∧
        ∀ ver, caps_contains (caps_run s calls) ver = caps_contains s ver) := by
  obtain ⟨a, t, hsplit⟩ := g_strsplit_cons node '#' hne
  have hgiven : given_sha1 node = t.head? := by simp [given_sha1, hsplit]
  obtain ⟨q1, q2, q3, q4⟩ := log_caps_fired_quiet (xmpp_stanza_get_attribute stanza STANZA_ATTR_ID) s
  unfold _caps_response_handler
  simp only [g_strcmp0_eq_zero_iff, hget, hset, herr, STANZA_TYPE_ERROR, or_self, if_false,
    hfrom, hquery, hnode, hsplit, ne_eq]
  rw [hgiven]
  by_cases hm : t.head? = some (env.caps_create_sha1_str query)
  · simp only [hm, not_true_eq_false, if_false, if_true, true_and]
    by_cases hc : caps_contains s (env.caps_create_sha1_str query) = true
    · refine ⟨_, rfl, ?_, ?_, ?_⟩
      · simp [caps_mapped_append, q2, hc, caps_mapped]
      · simp [caps_added_append, q1, hc, caps_added]
      · intro h; exact h.elim
    · refine ⟨_, rfl, ?_, ?_, ?_⟩
      · simp [caps_mapped_append, q2, hc, caps_mapped]
      · simp [caps_added_append, q1, hc, caps_added]
      · intro h; exact h.elim
  · simp only [hm, not_false_eq_true, if_true, if_false, false_and]
    refine ⟨_, rfl, ?_, ?_, ?_⟩
    · simp [caps_mapped_append, q2, caps_mapped]
    · simp [caps_added_append, q1, caps_added]
    · intro _
      have : caps_run s (log_caps_fired (xmpp_stanza_get_attribute stanza STANZA_ATTR_ID) ++
          [Call.log LogLevel.warning "Generated sha-1 does not match given:" [],
           Call.log LogLevel.warning "Generated : %s" [some (env.caps_create_sha1_str query)],
           Call.log LogLevel.warning "Given     : %s" [t.head?]]) = s := by
        rw [caps_run_append, q4]; simp [caps_run, caps_apply]
      rw [this]
      exact ⟨rfl, fun _ => rfl⟩

/-- C1 witness: the response for `ABC123` whose recomputed hash is `XYZ999`. -/
theorem caps_response_handler_verified_witness :
    ∃ calls, _caps_response_handler (example_env "XYZ999") (caps_contains caps_state_empty)
        caps_result_stanza = some (calls, 0) ∧
      caps_mapped calls = [] ∧ caps_added calls = [] ∧
      caps_run caps_state_empty calls = caps_state_empty ∧
      caps_contains (caps_run caps_state_empty calls) "ABC123" = false := by
  obtain ⟨calls, h1, h2, h3, h4⟩ :=
    caps_response_handler_verified (example_env "XYZ999") caps_state_empty caps_result_stanza
      caps_result_query "bob@example.org/phone" "profanity#ABC123"
      (by decide) (by decide) (by decide) (by decide) (by rfl) (by decide) (by decide)
  have hg : given_sha1 "profanity#ABC123" ≠
      some ((example_env "XYZ999").caps_create_sha1_str caps_result_query) := by decide
  refine ⟨calls, h1, ?_, ?_, (h4 hg).1, ?_⟩
  · rw [h2, if_neg hg]
  · rw [h3, if_neg (fun h => hg h.1)]
  · rw [(h4 hg).1]; decide

/-- C1 as stated fails: the recomputed hash equals the given one, yet no record is added,
because a record is already cached under that hash. -/
theorem caps_response_handler_already_cached :
    ¬ ((caps_added (calls_of (_caps_response_handler (example_env "ABC123")
            (caps_contains caps_state_cached) caps_result_stanza)) ≠ [] ∧
        caps_mapped (calls_of (_caps_response_handler (example_env "ABC123")
            (caps_contains caps_state_cached) caps_result_stanza)) ≠ []) ↔
       given_sha1 "profanity#ABC123" =
         some ((example_env "ABC123").caps_create_sha1_str caps_result_query)) := by
  decide

theorem legacy_calls (env : Env) (cc : String → Bool) (expected_node : String)
    (stanza : Stanza) :
    (∀ e ∈ caps_added (_caps_response_handler_legacy env cc expected_node stanza).1,
      e.1 = expected_node) ∧
    (∀ e ∈ caps_mapped (_caps_response_handler_legacy env cc expected_node stanza).1,
      e.2 = expected_node) ∧
    (∀ k ∈ caps_checked (_caps_response_handler_legacy env cc expected_node stanza).1,
      k = expected_node) := by
  obtain ⟨q1, q2, q3, _⟩ :=
    log_caps_fired_quiet (xmpp_stanza_get_attribute stanza STANZA_ATTR_ID) ⟨[], []⟩
  unfold _caps_response_handler_legacy
  simp only [g_strcmp0_eq_zero_iff]
  split
  · simp [caps_added, caps_mapped, caps_checked]
  · split
    · simp [caps_added_append, caps_mapped_append, caps_checked_append, q1, q2, q3, caps_added,
        caps_mapped, caps_checked]
    · split
      · simp [caps_added_append, caps_mapped_append, caps_checked_append, q1, q2, q3,
          caps_added, caps_mapped, caps_checked]
      · split
        · simp [caps_added_append, caps_mapped_append, caps_checked_append, q1, q2, q3,
            caps_added, caps_mapped, caps_checked]
        · split
          · simp [caps_added_append, caps_mapped_append, caps_checked_append, q1, q2, q3,
              caps_added, caps_mapped, caps_checked]
          · split
            · rename_i heq
              simp only [Option.some.injEq] at heq
              split <;>
                simp [caps_added_append, caps_mapped_append, caps_checked_append, q1, q2, q3,
                  caps_added, caps_mapped, caps_checked, heq]
            · simp [caps_added_append, caps_mapped_append, caps_checked_append, q1, q2, q3,
                caps_added, caps_mapped, caps_checked]

theorem hash_calls (env : Env) (cc : String → Bool) (stanza : Stanza) :
    (∀ e ∈ caps_added (calls_of (_caps_response_handler env cc stanza)),
      ∃ node, given_sha1 node = some e.1) ∧
    (∀ e ∈ caps_mapped (calls_of (_caps_response_handler env cc stanza)),
      ∃ node, given_sha1 node = some e.2) ∧
    (∀ k ∈ caps_checked (calls_of (_caps_response_handler env cc stanza)),
      ∃ node, given_sha1 node = some k) := by
  obtain ⟨q1, q2, q3, _⟩ :=
    log_caps_fired_quiet (xmpp_stanza_get_attribute stanza STANZA_ATTR_ID) ⟨[], []⟩
  unfold _caps_response_handler
  simp only [g_strcmp0_eq_zero_iff]
  split
  · simp [calls_of, caps_added, caps_mapped, caps_checked]
  · split
    · simp [calls_of, caps_added_append, caps_mapped_append, caps_checked_append, q1, q2, q3,
        caps_added, caps_mapped, caps_checked]
    · split
      · simp [calls_of, caps_added_append, caps_mapped_append, caps_checked_append, q1, q2, q3,
          caps_added, caps_mapped, caps_checked]
      · split
        · simp [calls_of, caps_added_append, caps_mapped_append, caps_checked_append, q1, q2,
            q3, caps_added, caps_mapped, caps_checked]
        · split
          · simp [calls_of, caps_added_append, caps_mapped_append, caps_checked_append, q1, q2,
              q3, caps_added, caps_mapped, caps_checked]
          · rename_i node hnode
            split
            · simp [calls_of, caps_added, caps_mapped, caps_checked]
            · rename_i a t hsplit
              have hg : given_sha1 node = t.head? := by simp [given_sha1, hsplit]
              split
              · simp [calls_of, caps_added_append, caps_mapped_append, caps_checked_append, q1,
                  q2, q3, caps_added, caps_mapped, caps_checked]
              · split
                · simp [calls_of, caps_added, caps_mapped, caps_checked]
                · rename_i given hgiven
                  have hex : ∃ node, given_sha1 node = some given := ⟨node, by rw [hg, hgiven]⟩
                  split <;>
                    simp [calls_of, caps_added_append, caps_mapped_append, caps_checked_append,
                      q1, q2, q3, caps_added, caps_mapped, caps_checked, hex]

/-- C2: a key under which the handler registered by `iq_send_caps_request_legacy` stores a
record is the requested node string `node#ver`, and it differs from every key that
`_caps_response_handler` checks with `caps_contains` or stores with `caps_add_by_ver`. -/
theorem legacy_key_never_hash_key (env env' : Env) (cc cc' : String → Bool) (now : Int)
    (to_ id : String) (node ver : Option String) (handler : IdHandler)
    (hreg : handler ∈ registered_handlers (iq_send_caps_request_legacy env to_ id node ver))
    (response response' : Stanza) (k k' : String)
    (hk : k ∈ (caps_added (calls_of (run_id_handler env cc now handler response))).map
      Prod.fst)
    (hk' : k' ∈ caps_checked (calls_of (_caps_response_handler env' cc' response')) ∨
      k' ∈ (caps_added (calls_of (_caps_response_handler env' cc' response'))).map Prod.fst) :
    (∃ n v, node = some n ∧ ver = some v ∧ k = n ++ "#" ++ v) ∧ k ≠ k' := by
  cases node with
  | none => simp [iq_send_caps_request_legacy, registered_handlers] at hreg
  | some n =>
    cases ver with
    | none => simp [iq_send_caps_request_legacy, registered_handlers] at hreg
    | some v =>
      simp only [iq_send_caps_request_legacy, registered_handlers, List.mem_singleton] at hreg
      subst hreg
      obtain ⟨e, he, rfl⟩ := List.mem_map.mp hk
      simp only [run_id_handler, calls_of] at he
      have hkey : e.1 = n ++ "#" ++ v := (legacy_calls env cc _ response).1 e he
      refine ⟨⟨n, v, rfl, rfl, hkey⟩, ?_⟩
      have hex : ∃ node', given_sha1 node' = some k' := by
        rcases hk' with h | h
        · exact (hash_calls env' cc' response').2.2 k' h
        · obtain ⟨e', he', rfl⟩ := List.mem_map.mp h
          exact (hash_calls env' cc' response').1 e' he'
      obtain ⟨node', hnode'⟩ := hex
      have hno : '#' ∉ k'.data := given_sha1_no_hash node' k' hnode'
      intro heq
      apply hno
      rw [← heq, hkey]
      simp

/-- C2 witness: the legacy request for `profanity#ABC123` and a verified response for the
hash `ABC123`. -/
theorem legacy_key_never_hash_key_witness :
    (∃ n v, some "profanity" = some n ∧ some "ABC123" = some v ∧
      "profanity#ABC123" = n ++ "#" ++ v) ∧ "profanity#ABC123" ≠ "ABC123" :=
  legacy_key_never_hash_key (example_env "XYZ999") (example_env "ABC123")
    (caps_contains caps_state_empty) (caps_contains caps_state_empty) 0
    "bob@example.org/phone" "caps1" (some "profanity") (some "ABC123")
    (IdHandler._caps_response_handler_legacy "profanity#ABC123") (by decide)
    caps_result_stanza caps_result_stanza "profanity#ABC123" "ABC123" (by decide)
    (Or.inl (by decide))

/-- C3: for a response with a from attribute, of a type other than get, set and error,
with a query child that has a node attribute, the legacy handler returns 0, binds the
sender to the node string exactly when the node attribute equals the requested node
string, stores the record under the node string exactly when moreover nothing is cached
under it yet, leaves cache and bindings as they were when the nodes differ, and does not
depend on the SHA-1 of the query. -/
theorem caps_response_handler_legacy_node_equality (env : Env) (s : CapsState)
    (expected_node : String) (stanza query : Stanza) (from_ node : String)
    (hfrom : xmpp_stanza_get_attribute stanza STANZA_ATTR_FROM = some from_)
    (hget : xmpp_stanza_get_type stanza ≠ some "get")
    (hset : xmpp_stanza_get_type stanza ≠ some "set")
    (herr : xmpp_stanza_get_type stanza ≠ some "error")
    (hquery : xmpp_stanza_get_child_by_name stanza STANZA_NAME_QUERY = some query)
    (hnode : xmpp_stanza_get_attribute query STANZA_ATTR_NODE = some node) :
    (_caps_response_handler_legacy env (caps_contains s) expected_node stanza).2 = 0 ∧
    caps_mapped (_caps_response_handler_legacy env (caps_contains s) expected_node stanza).1 =
      (if node = expected_node then [(from_, node)] else []) ∧
    caps_added (_caps_response_handler_legacy env (caps_contains s) expected_node stanza).1 =
      (if node = expected_node ∧ caps_contains s node = false
       then [(node, env.caps_create query)] else []) ∧
    (node ≠ expected_node →
      caps_run s (_caps_response_handler_legacy env (caps_contains s) expected_node stanza).1
        = s) ∧
    (∀ sha1 : Stanza → String,
      _caps_response_handler_legacy { env with caps_create_sha1_str := sha1 }
          (caps_contains s) expected_node stanza =
        _caps_response_handler_legacy env (caps_contains s) expected_node stanza) := by
  obtain ⟨q1, q2, q3, q4⟩ :=
    log_caps_fired_quiet (xmpp_stanza_get_attribute stanza STANZA_ATTR_ID) s
  refine ⟨?_, ?_, ?_, ?_, fun _ => rfl⟩
  all_goals
    unfold _caps_response_handler_legacy
    simp only [g_strcmp0_eq_zero_iff, hget, hset, herr, STANZA_TYPE_ERROR, or_self, if_false,
      hfrom, hquery, hnode, Option.some.injEq]
  · split <;> rfl
  · by_cases hm : expected_node = node
    · subst hm
      by_cases hc : caps_contains s expected_node = true <;>
        simp [hc, caps_mapped_append, q2, caps_mapped]
    · have hm' : ¬ node = expected_node := fun h => hm h.symm
      simp [hm, hm', caps_mapped_append, q2, caps_mapped]
  · by_cases hm : expected_node = node
    · subst hm
      by_cases hc : caps_contains s expected_node = true <;>
        simp [hc, caps_added_append, q1, caps_added]
    · have hm' : ¬ node = expected_node := fun h => hm h.symm
      simp [hm, hm', caps_added_append, q1, caps_added]
  · intro hm'
    have hm : ¬ expected_node = node := fun h => hm' h.symm
    simp only [hm, if_false]
    rw [caps_run_append, q4]
    simp [caps_run, caps_apply]

/-- C3 witness: the response echoes the requested node string `profanity#ABC123`. -/
theorem caps_response_handler_legacy_node_equality_witness :
    caps_mapped (_caps_response_handler_legacy (example_env "XYZ999")
        (caps_contains caps_state_empty) "profanity#ABC123" caps_result_stanza).1 =
      [("bob@example.org/phone", "profanity#ABC123")] := by
  have h := (caps_response_handler_legacy_node_equality (example_env "XYZ999") caps_state_empty
    "profanity#ABC123" caps_result_stanza caps_result_query "bob@example.org/phone"
    "profanity#ABC123" (by decide) (by decide) (by decide) (by decide) (by rfl)
    (by decide)).2.1
  rw [h, if_pos rfl]

/-- C4: the handler that `iq_disco_info_request` registers under the request id returns 1
for a stanza of type result, so it stays registered. -/
theorem disco_info_response_handler_result_kept :
    (run_id_handler (example_env "") (caps_contains caps_state_empty) 0
      (IdHandler._disco_info_response_handler none) disco_info_result_stanza).map Prod.snd
      = some 1 := by
  decide

theorem log_fired_quiet (a b : String) (id : Option String) :
    autoping_cancels (log_fired a b id) = 0 ∧ timed_deleted (log_fired a b id) = [] ∧
    events (log_fired a b id) = [] ∧ rooms_destroyed (log_fired a b id) = [] ∧
    ∀ hs, timed_run hs (log_fired a b id) = hs := by
  cases id <;>
    simp [log_fired, autoping_cancels, timed_deleted, events, is_log, rooms_destroyed,
      timed_run, timed_apply]

/-- C5: for a response that carries an id and a type, `_pong_handler` reports
`handle_autoping_cancel` and deletes the timed ping handler exactly when the type is error
and the error child has type "cancel"; in that case no timed ping handler remains, and in
every other case the timed handlers are left as they were. The handler returns 0. -/
theorem pong_handler_cancel (env : Env) (stanza : Stanza) (id type : String)
    (hid : xmpp_stanza_get_id stanza = some id)
    (htype : xmpp_stanza_get_type stanza = some type) :
    (_pong_handler env stanza).2 = 0 ∧
    ((autoping_cancels (_pong_handler env stanza).1 = 1 ∧
        timed_deleted (_pong_handler env stanza).1 = [TimedHandler._ping_timed_handler]) ↔
      (type = "error" ∧ ∃ error,
        xmpp_stanza_get_child_by_name stanza STANZA_NAME_ERROR = some error ∧
        xmpp_stanza_get_type error = some "cancel")) ∧
    ((type = "error" ∧ ∃ error,
        xmpp_stanza_get_child_by_name stanza STANZA_NAME_ERROR = some error ∧
        xmpp_stanza_get_type error = some "cancel") →
      ∀ handlers millis, (TimedHandler._ping_timed_handler, millis) ∉
        timed_run handlers (_pong_handler env stanza).1) ∧
    (¬ (type = "error" ∧ ∃ error,
        xmpp_stanza_get_child_by_name stanza STANZA_NAME_ERROR = some error ∧
        xmpp_stanza_get_type error = some "cancel") →
      autoping_cancels (_pong_handler env stanza).1 = 0 ∧
      timed_deleted (_pong_handler env stanza).1 = [] ∧
      ∀ handlers, timed_run handlers (_pong_handler env stanza).1 = handlers) := by
  unfold _pong_handler
  simp only [hid, htype, log_fired, strcmp_eq_zero_iff, STANZA_TYPE_ERROR]
  by_cases ht : type = "error"
  · simp only [ht, if_true, true_and]
    cases herr : xmpp_stanza_get_child_by_name stanza STANZA_NAME_ERROR with
    | none =>
      simp [autoping_cancels, timed_deleted, timed_run, timed_apply]
    | some error =>
      cases het : xmpp_stanza_get_type error with
      | none => simp [het, autoping_cancels, timed_deleted, timed_run, timed_apply]
      | some errtype =>
        by_cases hc : errtype = "cancel"
        · subst hc
          simp [het, autoping_cancels, timed_deleted, timed_run, timed_apply]
        · simp [het, hc, autoping_cancels, timed_deleted, timed_run, timed_apply]
  · simp [ht, autoping_cancels, timed_deleted, timed_run, timed_apply]

/-- C5 witness: an error response whose error child has type cancel. -/
theorem pong_handler_cancel_witness :
    autoping_cancels (_pong_handler (example_env "") pong_cancel_stanza).1 = 1 ∧
    timed_deleted (_pong_handler (example_env "") pong_cancel_stanza).1 =
      [TimedHandler._ping_timed_handler] :=
  (pong_handler_cancel (example_env "") pong_cancel_stanza "ping1" "error" (by decide)
    (by decide)).2.1.mpr ⟨rfl, _, rfl, by decide⟩

/-- C6: a chat message (type chat or no type) without a carbons child and without a child
in the conference, muc#user or captcha namespaces, whose sender's bare JID is an active
room, is reported as a room private message addressed by the whole sender JID, delayed
when a delay is present, and as nothing else; without body text nothing is reported. -/
theorem chat_handler_room_private (env : Env) (stanza : Stanza) (from_ : String) (jid : Jid)
    (htype : xmpp_stanza_get_type stanza = some "chat" ∨ xmpp_stanza_get_type stanza = none)
    (hcarbon : xmpp_stanza_get_child_by_ns stanza env.STANZA_NS_CARBONS = none)
    (hconf : xmpp_stanza_get_child_by_ns stanza env.STANZA_NS_CONFERENCE = none)
    (hmuc : xmpp_stanza_get_child_by_ns stanza env.STANZA_NS_MUC_USER = none)
    (hcaptcha : xmpp_stanza_get_child_by_ns stanza env.STANZA_NS_CAPTCHA = none)
    (hfrom : xmpp_stanza_get_attribute stanza STANZA_ATTR_FROM = some from_)
    (hjid : jid_create env (some from_) = some jid)
    (hroom : env.muc_active jid.barejid = true) :
    _chat_handler env stanza = some
      (match body_text stanza, env.stanza_get_delay stanza with
       | some message, some tv_stamp =>
         [Call.handle_delayed_private_message jid.str message tv_stamp]
       | some message, none => [Call.handle_incoming_private_message jid.str message]
       | none, _ => [], 1) := by
  have ht : (g_strcmp0 (xmpp_stanza_get_type stanza) (some "chat") = 0 ∨
      xmpp_stanza_get_type stanza = none) := by
    rw [g_strcmp0_eq_zero_iff]; exact htype
  unfold _chat_handler body_text
  simp only [ht, not_true_eq_false, if_false, hcarbon, hconf, hmuc, hcaptcha, Option.isSome_none,
    Bool.false_eq_true, or_self, hfrom, hjid, hroom, if_true]
  cases xmpp_stanza_get_child_by_name stanza STANZA_NAME_BODY with
  | none => rfl
  | some body =>
    simp only
    cases xmpp_stanza_get_text body with
    | none => rfl
    | some message => cases env.stanza_get_delay stanza <;> rfl

/-- C6 witness: a private message from `chat@conf.example.org/bob`. -/
theorem chat_handler_room_private_witness :
    _chat_handler (example_env "") room_private_stanza =
      some ([Call.handle_incoming_private_message "chat@conf.example.org/bob" "hello"], 1) :=
  chat_handler_room_private (example_env "") room_private_stanza "chat@conf.example.org/bob"
    ⟨"chat@conf.example.org/bob", some "chat", "conf.example.org", some "bob",
      "chat@conf.example.org", some "chat@conf.example.org/bob"⟩
    (Or.inl (by decide)) (by rfl) (by rfl) (by rfl) (by rfl) (by decide) (by decide)
    (by decide)

/-- C8: on a message without a from attribute both `_groupchat_handler` and `_chat_handler`
read a field of the Jid that could not be built, and do not return. -/
theorem message_handlers_absent_from :
    _groupchat_handler (example_env "") groupchat_without_from = none ∧
    _chat_handler (example_env "") chat_without_from = none := by
  constructor <;> rfl

/-- C9: on an error response that carries a from attribute,
`_destroy_room_result_handler` reports the room as destroyed. -/
theorem destroy_room_result_handler_on_error :
    xmpp_stanza_get_type destroy_error_stanza = some STANZA_TYPE_ERROR ∧
    IdHandler._destroy_room_result_handler ∈
      registered_handlers (iq_destroy_room (example_env "") "chat@conf.example.org") ∧
    rooms_destroyed (_destroy_room_result_handler destroy_error_stanza).1 =
      ["chat@conf.example.org"] := by
  decide

/-- C10: `iq_room_kick_occupant`, `iq_room_affiliation_set` and `iq_room_role_set` each
register one handler, which carries the nick, the jid and affiliation, or the nick and
role given to the request; on every response that handler returns 0 and, apart from log
lines, makes exactly one call when the response is of type error, the error event with
those arguments, and no call otherwise. -/
theorem room_privilege_errors_name_target (env : Env) (cc : String → Bool) (now : Int)
    (room target privilege : String) (reason : Option String) (stanza : Stanza) :
    (registered_handlers (iq_room_kick_occupant env room target reason) =
        [IdHandler._room_kick_result_handler target] ∧
      ∃ calls, run_id_handler env cc now (IdHandler._room_kick_result_handler target) stanza =
          some (calls, 0) ∧
        events calls =
          if xmpp_stanza_get_type stanza = some "error" then
            [Call.handle_room_kick_result_error
              (xmpp_stanza_get_attribute stanza STANZA_ATTR_FROM) target
              (env.stanza_get_error_message stanza)]
          else []) ∧
    (registered_handlers (iq_room_affiliation_set env room target privilege reason) =
        [IdHandler._room_affiliation_set_result_handler ⟨target, privilege⟩] ∧
      ∃ calls, run_id_handler env cc now
          (IdHandler._room_affiliation_set_result_handler ⟨target, privilege⟩) stanza =
          some (calls, 0) ∧
        events calls =
          if xmpp_stanza_get_type stanza = some "error" then
            [Call.handle_room_affiliation_set_error
              (xmpp_stanza_get_attribute stanza STANZA_ATTR_FROM) target privilege
              (env.stanza_get_error_message stanza)]
          else []) ∧
    (registered_handlers (iq_room_role_set env room target privilege reason) =
        [IdHandler._room_role_set_result_handler ⟨target, privilege⟩] ∧
      ∃ calls, run_id_handler env cc now
          (IdHandler._room_role_set_result_handler ⟨target, privilege⟩) stanza =
          some (calls, 0) ∧
        events calls =
          if xmpp_stanza_get_type stanza = some "error" then
            [Call.handle_room_role_set_error
              (xmpp_stanza_get_attribute stanza STANZA_ATTR_FROM) target privilege
              (env.stanza_get_error_message stanza)]
          else []) := by
  have hlog : ∀ a b : String, ∀ l : List Call,
      events (log_fired a b (xmpp_stanza_get_attribute stanza STANZA_ATTR_ID) ++ l) =
        events l := by
    intro a b l
    have h := (log_fired_quiet a b (xmpp_stanza_get_attribute stanza STANZA_ATTR_ID)).2.2.1
    unfold events at h ⊢
    rw [List.filter_append, h, List.nil_append]
  have hlog' : ∀ a b : String,
      events (log_fired a b (xmpp_stanza_get_attribute stanza STANZA_ATTR_ID)) = [] :=
    fun a b => (log_fired_quiet a b _).2.2.1
  refine ⟨⟨rfl, ?_⟩, ⟨rfl, ?_⟩, ⟨rfl, ?_⟩⟩
  · simp only [run_id_handler, _room_kick_result_handler, g_strcmp0_eq_zero_iff,
      STANZA_TYPE_ERROR]
    split
    · exact ⟨_, rfl, by rw [hlog]; simp [events, is_log]⟩
    · exact ⟨_, rfl, hlog' _ _⟩
  · simp only [run_id_handler, _room_affiliation_set_result_handler, g_strcmp0_eq_zero_iff,
      STANZA_TYPE_ERROR]
    split
    · exact ⟨_, rfl, by rw [hlog]; simp [events, is_log]⟩
    · exact ⟨_, rfl, hlog' _ _⟩
  · simp only [run_id_handler, _room_role_set_result_handler, g_strcmp0_eq_zero_iff,
      STANZA_TYPE_ERROR]
    split
    · exact ⟨_, rfl, by rw [hlog]; simp [events, is_log]⟩
    · exact ⟨_, rfl, hlog' _ _⟩

theorem events_log_fired_append (a b : String) (id : Option String) (l : List Call) :
    events (log_fired a b id ++ l) = events l := by
  have h := (log_fired_quiet a b id).2.2.1
  unfold events at h ⊢
  rw [List.filter_append, h, List.nil_append]

/-- C11: `_room_config_handler` returns 0 and, apart from log lines, makes exactly one
call: `handle_room_configure (from, form)` when the response is not of type error, has a
from attribute and a query child, the query has a child in the jabber:x:data namespace and
that child's type attribute is "form"; and one `handle_room_configuration_form_error` in
every other case. -/
theorem room_config_handler_one_event (env : Env) (stanza : Stanza) :
    (_room_config_handler env stanza).2 = 0 ∧
    (∀ (room : String) (query x : Stanza),
      xmpp_stanza_get_type stanza ≠ some "error" →
      xmpp_stanza_get_attribute stanza STANZA_ATTR_FROM = some room →
      xmpp_stanza_get_child_by_name stanza STANZA_NAME_QUERY = some query →
      xmpp_stanza_get_child_by_ns query env.STANZA_NS_DATA = some x →
      xmpp_stanza_get_attribute x STANZA_ATTR_TYPE = some "form" →
      events (_room_config_handler env stanza).1 =
        [Call.handle_room_configure room (env.form_create x)]) ∧
    (¬ (xmpp_stanza_get_type stanza ≠ some "error" ∧ ∃ (room : String) (query x : Stanza),
        xmpp_stanza_get_attribute stanza STANZA_ATTR_FROM = some room ∧
        xmpp_stanza_get_child_by_name stanza STANZA_NAME_QUERY = some query ∧
        xmpp_stanza_get_child_by_ns query env.STANZA_NS_DATA = some x ∧
        xmpp_stanza_get_attribute x STANZA_ATTR_TYPE = some "form") →
      ∃ message : String, events (_room_config_handler env stanza).1 =
        [Call.handle_room_configuration_form_error
          (xmpp_stanza_get_attribute stanza STANZA_ATTR_FROM) message]) := by
  refine ⟨?_, ?_, ?_⟩
  · unfold _room_config_handler
    simp only
    split
    · rfl
    · split
      · rfl
      · split
        · rfl
        · split
          · rfl
          · split <;> rfl
  · intro room query x herr hfrom hquery hx hform
    unfold _room_config_handler
    simp only [g_strcmp0_eq_zero_iff, STANZA_TYPE_ERROR, herr, if_false, hfrom, hquery, hx,
      hform, ne_eq, not_true_eq_false, events_log_fired_append]
    simp [events, is_log]
  · intro hcond
    unfold _room_config_handler
    simp only [g_strcmp0_eq_zero_iff, STANZA_TYPE_ERROR, ne_eq]
    by_cases herr : xmpp_stanza_get_type stanza = some "error"
    · simp only [herr, if_true, events_log_fired_append]
      exact ⟨_, rfl⟩
    · simp only [herr, if_false]
      cases hfrom : xmpp_stanza_get_attribute stanza STANZA_ATTR_FROM with
      | none =>
        simp only [events_log_fired_append]
        exact ⟨_, rfl⟩
      | some room =>
        simp only
        cases hquery : xmpp_stanza_get_child_by_name stanza STANZA_NAME_QUERY with
        | none =>
          simp only [events_log_fired_append]
          exact ⟨_, rfl⟩
        | some query =>
          simp only
          cases hx : xmpp_stanza_get_child_by_ns query env.STANZA_NS_DATA with
          | none =>
            simp only [events_log_fired_append]
            exact ⟨_, rfl⟩
          | some x =>
            simp only
            by_cases hform : xmpp_stanza_get_attribute x STANZA_ATTR_TYPE = some "form"
            · exact absurd ⟨herr, room, query, x, hfrom, hquery, hx, hform⟩ hcond
            · simp only [hform, not_false_eq_true, if_true, events_log_fired_append]
              exact ⟨_, rfl⟩

/-- C11 witness: a result that carries a form. -/
theorem room_config_handler_one_event_witness :
    events (_room_config_handler (example_env "") room_config_stanza).1 =
      [Call.handle_room_configure "chat@conf.example.org" ⟨some "form", []⟩] :=
  (room_config_handler_one_event (example_env "") room_config_stanza).2.1
    "chat@conf.example.org" room_config_query room_config_x (by decide) (by decide) (by rfl)
    (by rfl) (by decide)

theorem sent_log_fired_append (a b : String) (id : Option String) (l : List Call) :
    sent (log_fired a b id ++ l) = sent l := by
  cases id <;> simp [log_fired, sent]

theorem hash_get_hash_add (attrs : List (String × String)) (key val key' : String) :
    hash_get (hash_add attrs key val) key' =
      if key = key' then some val else hash_get attrs key' := by
  induction attrs with
  | nil => simp [hash_add, hash_get]
  | cons kv rest ih =>
    obtain ⟨k, v⟩ := kv
    simp only [hash_add]
    by_cases hk : k = key
    · subst hk
      simp only [if_true, hash_get]
      by_cases hk' : k = key' <;> simp [hk']
    · simp only [hk, if_false, hash_get, ih]
      by_cases hk' : k = key'
      · subst hk'
        simp [Ne.symm hk]
      · simp [hk']

/-- C12 (amended): a get request that carries a from attribute is answered with exactly one
iq of type result addressed to the requester and carrying the request's id: by
`_ping_get_handler` when the request also has a to attribute, by `_version_get_handler`
always, by `_disco_items_get_handler` when the request has an id, and by
`_disco_info_get_handler` when the request has an id and a query child. Each handler
returns 1. -/
theorem get_handlers_answer (xenv : XmppEnv) (stanza : Stanza) (from_ : String)
    (hfrom : xmpp_stanza_get_attribute stanza STANZA_ATTR_FROM = some from_) :
    (∀ to_, xmpp_stanza_get_attribute stanza STANZA_ATTR_TO = some to_ →
      (_ping_get_handler stanza).2 = 1 ∧
      ∃ response, sent (_ping_get_handler stanza).1 = [response] ∧
        is_result_for response from_ (xmpp_stanza_get_id stanza)) ∧
    ((_version_get_handler xenv stanza).2 = 1 ∧
      ∃ response, sent (_version_get_handler xenv stanza).1 = [response] ∧
        is_result_for response from_ (xmpp_stanza_get_id stanza)) ∧
    (∀ id, xmpp_stanza_get_id stanza = some id →
      ∃ calls response, _disco_items_get_handler stanza = some (calls, 1) ∧
        sent calls = [response] ∧ is_result_for response from_ (some id)) ∧
    (∀ id query, xmpp_stanza_get_id stanza = some id →
      xmpp_stanza_get_child_by_name stanza STANZA_NAME_QUERY = some query →
      ∃ calls response, _disco_info_get_handler xenv stanza = some (calls, 1) ∧
        sent calls = [response] ∧ is_result_for response from_ (some id)) := by
  refine ⟨?_, ?_, ?_, ?_⟩
  · intro to_ hto
    unfold _ping_get_handler
    simp only [hfrom, hto, sent_log_fired_append, sent, true_and]
    refine ⟨_, rfl, ?_⟩
    unfold is_result_for xmpp_stanza_get_id
    cases xmpp_stanza_get_attribute stanza STANZA_ATTR_ID <;>
      simp [xmpp_stanza_new_tag, xmpp_stanza_set_attribute, xmpp_stanza_get_name,
        xmpp_stanza_get_type, xmpp_stanza_get_attribute, hash_add, hash_get, STANZA_NAME_IQ,
        STANZA_ATTR_TO, STANZA_ATTR_FROM, STANZA_ATTR_TYPE, STANZA_ATTR_ID, STANZA_TYPE_RESULT]
  · unfold _version_get_handler
    simp only [hfrom, sent_log_fired_append, sent, true_and]
    refine ⟨_, rfl, ?_⟩
    unfold is_result_for xmpp_stanza_get_id
    cases xmpp_stanza_get_attribute stanza STANZA_ATTR_ID <;>
      simp [xmpp_stanza_new_tag, xmpp_stanza_set_attribute, xmpp_stanza_get_name,
        xmpp_stanza_get_type, xmpp_stanza_get_attribute, hash_add, hash_get, STANZA_NAME_IQ,
        STANZA_ATTR_TO, STANZA_ATTR_FROM, STANZA_ATTR_TYPE, STANZA_ATTR_ID, STANZA_TYPE_RESULT,
        xmpp_stanza_set_id, xmpp_stanza_set_type, xmpp_stanza_add_child, xmpp_stanza_set_ns]
  · intro id hid
    unfold _disco_items_get_handler
    simp only [hfrom, hid]
    apply Exists.intro
    apply Exists.intro
    refine ⟨rfl, ?_⟩
    simp only [sent_log_fired_append, sent]
    refine ⟨rfl, ?_⟩
    unfold is_result_for xmpp_stanza_get_id
    simp [xmpp_stanza_new_tag, xmpp_stanza_set_attribute, xmpp_stanza_get_name,
      xmpp_stanza_get_type, xmpp_stanza_get_attribute, hash_add, hash_get, STANZA_NAME_IQ,
      STANZA_ATTR_TO, STANZA_ATTR_FROM, STANZA_ATTR_TYPE, STANZA_ATTR_ID, STANZA_TYPE_RESULT,
      xmpp_stanza_set_id, xmpp_stanza_set_type, xmpp_stanza_add_child, xmpp_stanza_set_ns]
  · intro id query hid hquery
    unfold _disco_info_get_handler
    simp only [hfrom, hid, hquery]
    apply Exists.intro
    apply Exists.intro
    refine ⟨rfl, ?_⟩
    simp only [sent_log_fired_append, sent]
    refine ⟨rfl, ?_⟩
    unfold is_result_for xmpp_stanza_get_id
    simp [xmpp_stanza_new_tag, xmpp_stanza_set_attribute, xmpp_stanza_get_name,
      xmpp_stanza_get_type, xmpp_stanza_get_attribute, hash_add, hash_get, STANZA_NAME_IQ,
      STANZA_ATTR_TO, STANZA_ATTR_FROM, STANZA_ATTR_TYPE, STANZA_ATTR_ID, STANZA_TYPE_RESULT,
      xmpp_stanza_set_id, xmpp_stanza_set_type, xmpp_stanza_add_child, xmpp_stanza_set_ns]

/-- C12 witness: a disco#info request from a server is answered. -/
theorem get_handlers_answer_witness :
    ∃ calls response,
      _disco_info_get_handler
          (example_xenv jabber_conn_status_t.JABBER_CONNECTED true none)
          disco_info_get_stanza = some (calls, 1) ∧
        sent calls = [response] ∧ is_result_for response "example.org" (some "info1") :=
  (get_handlers_answer (example_xenv jabber_conn_status_t.JABBER_CONNECTED true none)
    disco_info_get_stanza "example.org" (by decide)).2.2.2 "info1"
    (Stanza.tag "query" [("xmlns", "http://jabber.org/protocol/disco#info")] [])
    (by decide) (by rfl)

/-- C12 as stated fails: a ping request with a from attribute and an id but without a to
attribute is not answered. -/
theorem ping_get_handler_without_to :
    xmpp_stanza_get_attribute ping_get_without_to STANZA_ATTR_FROM = some "example.org" ∧
    xmpp_stanza_get_type ping_get_without_to = some "get" ∧
    (sent (_ping_get_handler ping_get_without_to).1).length = 0 := by
  decide

/-- C13 (amended): `message_send_chat` and `message_send_chat_encrypted` send one chat
message whose state is "active" or nothing. When a chat session exists for the contact the
state is attached exactly when the chat-states preference is enabled and the session has
`send_states` set; when no session exists it is attached exactly when the preference is
enabled. -/
theorem message_send_chat_state (xenv : XmppEnv) (barejid msg : String) :
    (∀ session jidp, xenv.chat_session_get barejid = some session →
      xenv.jid_create_from_bare_and_resource session.barejid session.resource = some jidp →
      ∃ recipient,
        message_send_chat xenv barejid msg = some [Call.xmpp_send
          (xenv.stanza_create_message recipient STANZA_TYPE_CHAT msg
            (if xenv.prefs_get_boolean preference_t.PREF_STATES = true ∧
                session.send_states = true then some "active" else none) false)] ∧
        message_send_chat_encrypted xenv barejid msg = some [Call.xmpp_send
          (xenv.stanza_create_message recipient STANZA_TYPE_CHAT msg
            (if xenv.prefs_get_boolean preference_t.PREF_STATES = true ∧
                session.send_states = true then some "active" else none) true)]) ∧
    (xenv.chat_session_get barejid = none →
      ∃ recipient,
        message_send_chat xenv barejid msg = some [Call.xmpp_send
          (xenv.stanza_create_message recipient STANZA_TYPE_CHAT msg
            (if xenv.prefs_get_boolean preference_t.PREF_STATES = true then some "active"
             else none) false)] ∧
        message_send_chat_encrypted xenv barejid msg = some [Call.xmpp_send
          (xenv.stanza_create_message recipient STANZA_TYPE_CHAT msg
            (if xenv.prefs_get_boolean preference_t.PREF_STATES = true then some "active"
             else none) true)]) := by
  constructor
  · intro session jidp hsession hjid
    refine ⟨jidp.fulljid, ?_, ?_⟩
    · simp only [message_send_chat, hsession, hjid, STANZA_NAME_ACTIVE]
    · simp only [message_send_chat_encrypted, hsession, hjid, STANZA_NAME_ACTIVE]
  · intro hsession
    refine ⟨some barejid, ?_, ?_⟩
    · simp only [message_send_chat, hsession, STANZA_NAME_ACTIVE]
    · simp only [message_send_chat_encrypted, hsession, STANZA_NAME_ACTIVE]

/-- C13 witness: chat states enabled, and a session that has `send_states` off. -/
theorem message_send_chat_state_witness :
    ∃ recipient,
      message_send_chat (example_xenv jabber_conn_status_t.JABBER_CONNECTED true
          (some ⟨"bob@example.org", "phone", false⟩)) "bob@example.org" "hi" =
        some [Call.xmpp_send (example_create_message recipient "chat" "hi" none false)] := by
  obtain ⟨recipient, h, _⟩ :=
    (message_send_chat_state (example_xenv jabber_conn_status_t.JABBER_CONNECTED true
      (some ⟨"bob@example.org", "phone", false⟩)) "bob@example.org" "hi").1
      ⟨"bob@example.org", "phone", false⟩
      ⟨"bob@example.org/phone", some "bob", "example.org", some "phone", "bob@example.org",
        some "bob@example.org/phone"⟩ rfl (by decide)
  exact ⟨recipient, h⟩

/-- C13 as stated fails: with the chat-states preference enabled and no chat session for the
contact, the message carries the state "active". -/
theorem message_send_chat_state_without_session :
    (example_xenv jabber_conn_status_t.JABBER_CONNECTED true none).chat_session_get
      "bob@example.org" = none ∧
    message_send_chat (example_xenv jabber_conn_status_t.JABBER_CONNECTED true none)
      "bob@example.org" "hi" =
      some [Call.xmpp_send (example_create_message (some "bob@example.org") "chat" "hi"
        (some "active") false)] ∧
    example_create_message (some "bob@example.org") "chat" "hi" (some "active") false =
      Stanza.tag "message" [("type", "chat"), ("to", "bob@example.org")]
        [Stanza.tag "body" [] [Stanza.text "hi"],
         Stanza.tag "active" [("xmlns", "http://jabber.org/protocol/chatstates")] []] := by
  refine ⟨rfl, rfl, rfl⟩

/-- C14: when a chat session exists for the contact, `message_send_chat` and
`message_send_chat_encrypted` address the one stanza they send to the full JID of the Jid
built from the session's bare JID and resource; when no session exists they address it to
the bare JID passed in. -/
theorem message_send_chat_recipient (xenv : XmppEnv) (barejid msg : String) :
    (∀ session jidp, xenv.chat_session_get barejid = some session →
      xenv.jid_create_from_bare_and_resource session.barejid session.resource = some jidp →
      ∃ state,
        message_send_chat xenv barejid msg = some [Call.xmpp_send
          (xenv.stanza_create_message jidp.fulljid STANZA_TYPE_CHAT msg state false)] ∧
        message_send_chat_encrypted xenv barejid msg = some [Call.xmpp_send
          (xenv.stanza_create_message jidp.fulljid STANZA_TYPE_CHAT msg state true)]) ∧
    (xenv.chat_session_get barejid = none →
      ∃ state,
        message_send_chat xenv barejid msg = some [Call.xmpp_send
          (xenv.stanza_create_message (some barejid) STANZA_TYPE_CHAT msg state false)] ∧
        message_send_chat_encrypted xenv barejid msg = some [Call.xmpp_send
          (xenv.stanza_create_message (some barejid) STANZA_TYPE_CHAT msg state true)]) := by
  constructor
  · intro session jidp hsession hjid
    refine ⟨if xenv.prefs_get_boolean preference_t.PREF_STATES = true ∧
      session.send_states = true then some STANZA_NAME_ACTIVE else none, ?_, ?_⟩
    · simp only [message_send_chat, hsession, hjid]
    · simp only [message_send_chat_encrypted, hsession, hjid]
  · intro hsession
    refine ⟨if xenv.prefs_get_boolean preference_t.PREF_STATES = true then
      some STANZA_NAME_ACTIVE else none, ?_, ?_⟩
    · simp only [message_send_chat, hsession]
    · simp only [message_send_chat_encrypted, hsession]

/-- C14 witness: a session for `bob@example.org` with the resource `phone`. -/
theorem message_send_chat_recipient_witness :
    ∃ state,
      message_send_chat (example_xenv jabber_conn_status_t.JABBER_CONNECTED true
          (some ⟨"bob@example.org", "phone", true⟩)) "bob@example.org" "hi" =
        some [Call.xmpp_send
          (example_create_message (some "bob@example.org/phone") "chat" "hi" state false)] := by
  obtain ⟨state, h, _⟩ :=
    (message_send_chat_recipient (example_xenv jabber_conn_status_t.JABBER_CONNECTED true
      (some ⟨"bob@example.org", "phone", true⟩)) "bob@example.org" "hi").1
      ⟨"bob@example.org", "phone", true⟩
      ⟨"bob@example.org/phone", some "bob", "example.org", some "phone", "bob@example.org",
        some "bob@example.org/phone"⟩ rfl (by decide)
  exact ⟨state, h⟩

/-- C15: in a chat window "/resource off" clears the override, installs a fresh chat-state
tracker and removes the chat session. "/resource set R" sets the override to R, installs a
fresh tracker and records the override in the chat session when no OTR session is secure,
the contact is in the roster and has the resource R; when the contact is not in the roster
or lacks R (or an OTR session is secure) the window is unchanged and the only call shows a
line on the console. In a window that is not a chat window both subcommands leave the
window unchanged and only show a line on the console. -/
theorem cmd_resource_override (cenv : CmdEnv) (help : cmd_help_t) (rest : List String) :
    (∀ chatwin : ProfChatWin,
      cmd_resource cenv ("off" :: rest) help (ProfWin.WIN_CHAT chatwin) =
        (ProfWin.WIN_CHAT { chatwin with resource_override := none, state := chat_state_new },
          [Call.chat_session_remove chatwin.barejid], true)) ∧
    (∀ (chatwin : ProfChatWin) (resource : String) (contact : PContact),
      (∀ otr_is_secure, cenv.otr_is_secure = some otr_is_secure →
        otr_is_secure chatwin.barejid = false) →
      cenv.roster_get_contact chatwin.barejid = some contact →
      cenv.p_contact_get_resource contact resource = true →
      cmd_resource cenv ("set" :: resource :: rest) help (ProfWin.WIN_CHAT chatwin) =
        (ProfWin.WIN_CHAT { chatwin with
            resource_override := some resource, state := chat_state_new },
          [Call.chat_session_resource_override chatwin.barejid resource], true)) ∧
    (∀ (chatwin : ProfChatWin) (resource : String),
      (¬ ∃ contact, cenv.roster_get_contact chatwin.barejid = some contact ∧
          cenv.p_contact_get_resource contact resource = true) ∨
        (∃ otr_is_secure, cenv.otr_is_secure = some otr_is_secure ∧
          otr_is_secure chatwin.barejid = true) →
      ∃ format fargs,
        cmd_resource cenv ("set" :: resource :: rest) help (ProfWin.WIN_CHAT chatwin) =
          (ProfWin.WIN_CHAT chatwin, [Call.cons_show format fargs], true)) ∧
    (∀ (current : ProfWin) (cmd : String), (∀ chatwin, current ≠ ProfWin.WIN_CHAT chatwin) →
      cmd = "set" ∨ cmd = "off" →
      cmd_resource cenv (cmd :: rest) help current =
        (current, [Call.cons_show "Resource can only be changed in chat windows." []],
          true)) := by
  refine ⟨?_, ?_, ?_, ?_⟩
  · intro chatwin
    simp [cmd_resource, g_strcmp0_eq_zero_iff]
  · intro chatwin resource contact hotr hcontact hres
    have ho : (match cenv.otr_is_secure with
        | some otr_is_secure => otr_is_secure chatwin.barejid
        | none => false) = false := by
      cases h : cenv.otr_is_secure with
      | none => rfl
      | some f => exact hotr f h
    simp [cmd_resource, g_strcmp0_eq_zero_iff, ho, hcontact, hres]
  · intro chatwin resource hcase
    cases ho : (match cenv.otr_is_secure with
        | some otr_is_secure => otr_is_secure chatwin.barejid
        | none => false) with
    | true =>
      exact ⟨"Cannot choose resource during an OTR session.", [],
        by simp [cmd_resource, g_strcmp0_eq_zero_iff, ho]⟩
    | false =>
      have hno : ¬ ∃ contact, cenv.roster_get_contact chatwin.barejid = some contact ∧
          cenv.p_contact_get_resource contact resource = true := by
        rcases hcase with h | ⟨f, hf, hsec⟩
        · exact h
        · rw [hf] at ho
          simp only at ho
          rw [hsec] at ho
          exact absurd ho (by decide)
      cases hcontact : cenv.roster_get_contact chatwin.barejid with
      | none =>
        exact ⟨"Cannot choose resource for contact not in roster.", [],
          by simp [cmd_resource, g_strcmp0_eq_zero_iff, ho, hcontact]⟩
      | some contact =>
        have hres : cenv.p_contact_get_resource contact resource = false := by
          cases h : cenv.p_contact_get_resource contact resource with
          | false => rfl
          | true => exact absurd ⟨contact, hcontact, h⟩ hno
        exact ⟨"No such resource %s.", [some resource],
          by simp [cmd_resource, g_strcmp0_eq_zero_iff, ho, hcontact, hres]⟩
  · intro current cmd hwin hcmd
    cases current with
    | WIN_CHAT chatwin => exact absurd rfl (hwin chatwin)
    | _ => rcases hcmd with h | h <;> subst h <;> simp [cmd_resource, g_strcmp0_eq_zero_iff]

/-- C15 witness: "/resource set phone" in the chat window of a contact that has the resource
`phone`. -/
theorem cmd_resource_override_witness :
    cmd_resource (example_cenv jabber_conn_status_t.JABBER_CONNECTED) ["set", "phone"]
        (example_help "/resource set|off|title|message [resource]")
        (ProfWin.WIN_CHAT example_chatwin) =
      (ProfWin.WIN_CHAT { example_chatwin with
          resource_override := some "phone", state := chat_state_new },
        [Call.chat_session_resource_override "bob@example.org" "phone"], true) :=
  (cmd_resource_override (example_cenv jabber_conn_status_t.JABBER_CONNECTED)
    (example_help "/resource set|off|title|message [resource]") []).2.1 example_chatwin "phone"
    ⟨"bob@example.org", ["phone"]⟩
    (fun f hf => by
      have h : f = fun _ => false := by
        have h' : (example_cenv jabber_conn_status_t.JABBER_CONNECTED).otr_is_secure =
          some (fun _ => false) := rfl
        rw [h'] at hf
        exact (Option.some.inj hf).symm
      rw [h])
    (by decide) (by decide)

/-- C16 (amended): whatever the arguments, `cmd_join` sends a join presence and calls
`muc_join` only for a room that is not active. While connected, with a first argument that
is a Jid and option arguments that parse, the room is the argument itself when it has a
localpart and argument + "@" + the account's muc.service otherwise, the nick is the "nick"
option when given and the account's muc.nick otherwise; if that room is active no join
presence is sent and `muc_join` is not called, and otherwise exactly one join presence is
sent and the room is recorded with `muc_join`. -/
theorem cmd_join_active_noop (cenv : CmdEnv) (env : Env) (args : List String)
    (help : cmd_help_t) :
    (∀ calls r, cmd_join cenv env args help = some (calls, r) →
      (∀ e ∈ join_presences calls, env.muc_active e.1 = false) ∧
      (∀ e ∈ muc_joins calls, env.muc_active e.1 = false)) ∧
    (∀ (arg0 : String) (rest : List String) (room_arg : Jid) (account : ProfAccount)
      (options : List (String × String)),
      cenv.jabber_get_connection_status = jabber_conn_status_t.JABBER_CONNECTED →
      args = arg0 :: rest →
      jid_create env (some arg0) = some room_arg →
      cenv.account = some account →
      cenv.parse_options rest ["nick", "password"] = some options →
      ∃ calls, cmd_join cenv env args help = some (calls, true) ∧
        (env.muc_active (join_room arg0 room_arg account) = true →
          join_presences calls = [] ∧ muc_joins calls = []) ∧
        (env.muc_active (join_room arg0 room_arg account) = false →
          calls = [Call.presence_join_room (join_room arg0 room_arg account)
              (join_nick options account) (hash_get options "password"),
            Call.muc_join (join_room arg0 room_arg account) (join_nick options account)
              (hash_get options "password") false])) := by
  constructor
  · intro calls r h
    unfold cmd_join at h
    dsimp only at h
    repeat' split at h
    all_goals
      first
      | (simp only [Option.some.injEq, Prod.mk.injEq] at h
         obtain ⟨rfl, -⟩ := h
         simp_all [join_presences, muc_joins])
      | simp at h
  · intro arg0 rest room_arg account options hconn hargs hjid hacc hopt
    subst hargs
    have hroom : (if room_arg.localpart ≠ none then some arg0
        else Option.map (fun a => arg0 ++ "@" ++ a.muc_service) (some account)) =
        some (join_room arg0 room_arg account) := by
      unfold join_room
      cases room_arg.localpart <;> simp
    have hnick : (match hash_get options "nick" with
        | some nick => some nick
        | none => Option.map (fun a => a.muc_nick) (some account)) =
        some (join_nick options account) := by
      unfold join_nick
      cases hash_get options "nick" <;> simp
    unfold cmd_join
    simp only [hconn, ne_eq, not_true_eq_false, if_false, List.getElem?_cons_zero, hjid, hacc,
      List.drop_succ_cons, List.drop_zero, hopt]
    rw [hroom]
    simp only [hnick]
    cases hact : env.muc_active (join_room arg0 room_arg account) with
    | false =>
      simp only [Bool.false_eq_true, not_false_eq_true, if_true]
      exact ⟨_, rfl, fun h => absurd h (by decide), fun _ => rfl⟩
    | true =>
      simp only [not_true_eq_false, if_false]
      by_cases hcomp : cenv.muc_roster_complete (join_room arg0 room_arg account) = true
      · simp only [hcomp, if_true]
        exact ⟨_, rfl, fun _ => ⟨rfl, rfl⟩, fun h => absurd h (by decide)⟩
      · simp only [hcomp, if_false]
        exact ⟨_, rfl, fun _ => ⟨rfl, rfl⟩, fun h => absurd h (by decide)⟩

/-- C16 witness: "/join jdev nick mynick" while connected as `alice@example.org`. -/
theorem cmd_join_active_noop_witness :
    ∃ calls, cmd_join (example_cenv jabber_conn_status_t.JABBER_CONNECTED) (example_env "")
        ["jdev", "nick", "mynick"] (example_help "/join room") = some (calls, true) ∧
      calls = [Call.presence_join_room "jdev@conference.example.org" "mynick" none,
        Call.muc_join "jdev@conference.example.org" "mynick" none false] := by
  obtain ⟨calls, h1, _, h3⟩ :=
    (cmd_join_active_noop (example_cenv jabber_conn_status_t.JABBER_CONNECTED) (example_env "")
      ["jdev", "nick", "mynick"] (example_help "/join room")).2 "jdev" ["nick", "mynick"]
      ⟨"jdev", none, "jdev", none, "jdev", some "jdev"⟩
      ⟨"conference.example.org", "alice"⟩ [("nick", "mynick")] rfl rfl (by decide) rfl
      (by decide)
  exact ⟨calls, h1, h3 (by decide)⟩

/-- C16 as stated fails: for a room that is not active no join presence is sent when the
client is not connected, and none when the option arguments do not parse. -/
theorem cmd_join_sends_nothing :
    (example_env "").muc_active "jdev@conference.jabber.org" = false ∧
    cmd_join (example_cenv jabber_conn_status_t.JABBER_DISCONNECTED) (example_env "")
        ["jdev@conference.jabber.org"] (example_help "/join room") =
      some ([Call.cons_show "You are not currently connected." []], true) ∧
    cmd_join (example_cenv jabber_conn_status_t.JABBER_CONNECTED) (example_env "")
        ["jdev@conference.jabber.org", "nick"] (example_help "/join room") =
      some ([Call.cons_show "Usage: %s" [some "/join room"], Call.cons_show "" []], true) := by
  refine ⟨by decide, rfl, rfl⟩

/-- C17: each of `iq_send_caps_request`, `iq_send_caps_request_for_jid` and
`iq_send_caps_request_legacy` sends nothing and registers no handler when node or ver is
absent (it only logs); otherwise it registers exactly one response handler under the given
id and sends exactly one disco#info request, created for the target with the node
node + "#" + ver. -/
theorem caps_requests_send_one (env : Env) (to_ id : String) (node ver : Option String) :
    (events (iq_send_caps_request env to_ id node ver) =
      match node, ver with
      | some n, some v =>
        [Call.xmpp_id_handler_add IdHandler._caps_response_handler (some id),
         Call.xmpp_send (env.stanza_create_disco_info_iq id to_ (some (n ++ "#" ++ v)))]
      | _, _ => []) ∧
    (events (iq_send_caps_request_for_jid env to_ id node ver) =
      match node, ver with
      | some n, some v =>
        [Call.xmpp_id_handler_add (IdHandler._caps_response_handler_for_jid to_) (some id),
         Call.xmpp_send (env.stanza_create_disco_info_iq id to_ (some (n ++ "#" ++ v)))]
      | _, _ => []) ∧
    (events (iq_send_caps_request_legacy env to_ id node ver) =
      match node, ver with
      | some n, some v =>
        [Call.xmpp_id_handler_add
          (IdHandler._caps_response_handler_legacy (n ++ "#" ++ v)) (some id),
         Call.xmpp_send (env.stanza_create_disco_info_iq id to_ (some (n ++ "#" ++ v)))]
      | _, _ => []) := by
  cases node <;> cases ver <;>
    simp [iq_send_caps_request, iq_send_caps_request_for_jid, iq_send_caps_request_legacy,
      events, is_log]

/-- C18: `_ping_timed_handler` returns 1; when the connection status is connected it
registers the pong handler under the id of the ping it creates and sends that ping, and
otherwise it makes no call. -/
theorem ping_timed_handler_connected (xenv : XmppEnv) :
    (_ping_timed_handler xenv).2 = 1 ∧
    (_ping_timed_handler xenv).1 =
      if xenv.jabber_get_connection_status = jabber_conn_status_t.JABBER_CONNECTED then
        [Call.xmpp_id_handler_add IdHandler._pong_handler
          (xmpp_stanza_get_id (xenv.stanza_create_ping_iq none)),
         Call.xmpp_send (xenv.stanza_create_ping_iq none)]
      else [] := by
  unfold _ping_timed_handler
  split <;> exact ⟨rfl, rfl⟩

/-- C19 (amended): the handler that an autoping firing registers is `_pong_handler`, which
carries no send time; on a pong that is not of type error it returns 0 and, apart from log
lines, makes no call, whatever the time of arrival: no latency is reported. -/
theorem autoping_pong_reports_nothing (env : Env) (xenv : XmppEnv) (cc : String → Bool)
    (stanza : Stanza) (hresult : xmpp_stanza_get_type stanza ≠ some "error") :
    (∀ handler ∈ registered_handlers (_ping_timed_handler xenv).1,
      handler = IdHandler._pong_handler) ∧
    (∀ now : Int, ∃ calls,
      run_id_handler env cc now IdHandler._pong_handler stanza = some (calls, 0) ∧
      events calls = [] ∧ ping_results calls = []) := by
  constructor
  · intro handler hmem
    unfold _ping_timed_handler at hmem
    split at hmem
    · simpa [registered_handlers] using hmem
    · simp [registered_handlers] at hmem
  · intro now
    refine ⟨_, rfl, ?_⟩
    simp only [strcmp_eq_zero_iff, STANZA_TYPE_ERROR]
    cases hid : xmpp_stanza_get_id stanza with
    | none => simp [log_fired, events, is_log, ping_results]
    | some id =>
      cases htype : xmpp_stanza_get_type stanza with
      | none => simp [log_fired, events, is_log, ping_results]
      | some type =>
        have hne : type ≠ "error" := by
          intro h
          apply hresult
          rw [htype, h]
        simp [log_fired, events, is_log, ping_results, hne]

/-- C19 witness: a result pong. -/
theorem autoping_pong_reports_nothing_witness :
    ∃ calls,
      run_id_handler (example_env "") (caps_contains caps_state_empty) 150000
        IdHandler._pong_handler pong_result_stanza = some (calls, 0) ∧
      events calls = [] ∧ ping_results calls = [] :=
  (autoping_pong_reports_nothing (example_env "")
    (example_xenv jabber_conn_status_t.JABBER_CONNECTED true none)
    (caps_contains caps_state_empty) pong_result_stanza (by decide)).2 150000

/-- C19 as stated fails: the handler registered by an autoping firing reports no latency
for a pong that is not an error. -/
theorem autoping_pong_no_latency :
    registered_handlers (_ping_timed_handler
      (example_xenv jabber_conn_status_t.JABBER_CONNECTED true none)).1 =
      [IdHandler._pong_handler] ∧
    xmpp_stanza_get_type pong_result_stanza = some "result" ∧
    ping_results (calls_of (run_id_handler (example_env "") (caps_contains caps_state_empty)
      150000 IdHandler._pong_handler pong_result_stanza)) = [] := by
  decide

/-- Supporting fact for C20: the handler registered by `iq_send_ping` at time `sent`
returns 0 and makes exactly one call. For an error response it is
`handle_ping_error_result (from, message)`. For any other response arriving at time `now`
it is `handle_ping_result (from, ms)`, where ms is the difference now − sent in
microseconds divided by 1000, rounded towards zero, as long as this quotient fits the
32-bit `int` in which the handler stores it. -/
theorem manual_pong_handler_latency (env : Env) (xenv : XmppEnv) (cc : String → Bool)
    (sent_at now : Int) (target : Option String) (stanza : Stanza) :
    registered_handlers (iq_send_ping xenv sent_at target) =
      [IdHandler._manual_pong_handler sent_at] ∧
    (xmpp_stanza_get_type stanza = some "error" →
      run_id_handler env cc now (IdHandler._manual_pong_handler sent_at) stanza =
        some ([Call.handle_ping_error_result
          (xmpp_stanza_get_attribute stanza STANZA_ATTR_FROM)
          (env.stanza_get_error_message stanza)], 0)) ∧
    (xmpp_stanza_get_type stanza ≠ some "error" →
      -2147483648 ≤ Int.tdiv (now - sent_at) 1000 →
      Int.tdiv (now - sent_at) 1000 < 2147483648 →
      run_id_handler env cc now (IdHandler._manual_pong_handler sent_at) stanza =
        some ([Call.handle_ping_result (xmpp_stanza_get_attribute stanza STANZA_ATTR_FROM)
          (Int.tdiv (now - sent_at) 1000)], 0)) := by
  refine ⟨rfl, ?_, ?_⟩
  · intro herr
    simp [run_id_handler, _manual_pong_handler, g_strcmp0_eq_zero_iff, STANZA_TYPE_ERROR, herr]
  · intro hne hlo hhi
    have hwrap : to_int32 (Int.tdiv (now - sent_at) 1000) = Int.tdiv (now - sent_at) 1000 := by
      unfold to_int32
      omega
    simp [run_id_handler, _manual_pong_handler, g_strcmp0_eq_zero_iff, STANZA_TYPE_ERROR, hne,
      hwrap]

/-- Supporting fact for C20 at a concrete input: a pong that arrives 150 ms after the ping
was sent reports 150. -/
theorem manual_pong_handler_latency_witness :
    run_id_handler (example_env "") (caps_contains caps_state_empty) 150000
        (IdHandler._manual_pong_handler 0) pong_result_stanza =
      some ([Call.handle_ping_result (some "example.org") 150], 0) :=
  (manual_pong_handler_latency (example_env "")
    (example_xenv jabber_conn_status_t.JABBER_CONNECTED true none)
    (caps_contains caps_state_empty) 0 150000 none pong_result_stanza).2.2 (by decide)
    (by decide) (by decide)

/-- C20 (code bug): `_manual_pong_handler` stores the quotient of the 64-bit difference
now − sent by 1000 in an `int` without a check: for a pong that arrives 2147483648 ms
after the time `sent` that the handler holds, the difference divided by 1000 is
2147483648, and the latency reported with `handle_ping_result` is -2147483648. -/
theorem manual_pong_handler_wraps :
    Int.tdiv (2147483648000 - 0) 1000 = 2147483648 ∧
    ping_results (calls_of (run_id_handler (example_env "") (caps_contains caps_state_empty)
      2147483648000 (IdHandler._manual_pong_handler 0) pong_result_stanza)) =
      [(some "example.org", -2147483648)] := by
  decide

/-- C25: two chat message stanzas that differ only in the from attribute of the outer
stanza and contain the same carbons child are handled alike by `_chat_handler`: the result
is that of the carbons branch on the carbons child, for both. -/
theorem chat_handler_carbon_ignores_sender (env : Env) (name : String)
    (attrs attrs' : List (String × String)) (children : List Stanza) (received : Stanza)
    (hsame : ∀ key, key ≠ STANZA_ATTR_FROM → hash_get attrs key = hash_get attrs' key)
    (hreceived : child_by_ns children env.STANZA_NS_CARBONS = some received) :
    _chat_handler env (Stanza.tag name attrs children) =
      _chat_handler env (Stanza.tag name attrs' children) ∧
    (xmpp_stanza_get_type (Stanza.tag name attrs children) = some "chat" ∨
      xmpp_stanza_get_type (Stanza.tag name attrs children) = none →
      _chat_handler env (Stanza.tag name attrs' children) =
        _chat_handler_carbon env received) := by
  have htype : hash_get attrs STANZA_ATTR_TYPE = hash_get attrs' STANZA_ATTR_TYPE :=
    hsame STANZA_ATTR_TYPE (by decide)
  constructor
  · unfold _chat_handler
    simp only [xmpp_stanza_get_type, xmpp_stanza_get_attribute, xmpp_stanza_get_child_by_ns,
      xmpp_stanza_get_children, htype, hreceived]
  · intro ht
    simp only [xmpp_stanza_get_type, xmpp_stanza_get_attribute, htype] at ht
    have ht' : (g_strcmp0 (hash_get attrs' STANZA_ATTR_TYPE) (some "chat") = 0 ∨
        hash_get attrs' STANZA_ATTR_TYPE = none) := by
      rw [g_strcmp0_eq_zero_iff]; exact ht
    unfold _chat_handler
    simp only [xmpp_stanza_get_type, xmpp_stanza_get_attribute, xmpp_stanza_get_child_by_ns,
      xmpp_stanza_get_children, hreceived, ht', not_true_eq_false, if_false]

/-- C25 witness: the carbon of `carbon_stanza`, sent by the account and by someone else. -/
theorem chat_handler_carbon_ignores_sender_witness :
    _chat_handler (example_env "") carbon_stanza =
      _chat_handler (example_env "") carbon_stanza_other_sender :=
  (chat_handler_carbon_ignores_sender (example_env "") "message"
    [("type", "chat"), ("from", "alice@example.org")]
    [("type", "chat"), ("from", "mallory@example.net")] [carbon_received] carbon_received
    (fun key hkey => by
      simp only [hash_get]
      by_cases h1 : "type" = key
      · simp [h1]
      · have h2 : ¬ "from" = key := fun h => hkey (by rw [← h]; rfl)
        simp [h1, h2])
    (by rfl)).1

/-- C26: for a node that contains "#", the hash that `_caps_response_handler` extracts from
the echoed node string of a request made by `iq_send_caps_request` is not the requested
ver. -/
theorem caps_request_hash_disagrees :
    registered_handlers (iq_send_caps_request (example_env "ABC123") "bob@example.org/phone"
      "caps1" (some "http://example.org/client#beta") (some "ABC123")) =
      [IdHandler._caps_response_handler] ∧
    given_sha1 ("http://example.org/client#beta" ++ "#" ++ "ABC123") = some "beta" ∧
    caps_mapped (calls_of (_caps_response_handler (example_env "ABC123")
      (caps_contains caps_state_empty) caps_result_stanza_hash_node)) = [] ∧
    caps_added (calls_of (_caps_response_handler (example_env "ABC123")
      (caps_contains caps_state_empty) caps_result_stanza_hash_node)) = [] := by
  decide

theorem strsplit_chars_single (d : Char) (cs : List Char) (h : d ∉ cs) :
    strsplit_chars d cs = [cs] := by
  induction cs with
  | nil => rfl
  | cons c cs ih =>
    have hc : ¬ c = d := fun e => h (by rw [e]; simp)
    have hcs : d ∉ cs := fun e => h (List.mem_cons_of_mem _ e)
    simp [strsplit_chars, hc, ih hcs]

theorem strsplit_chars_append (d : Char) (a b : List Char) (h : d ∉ a) :
    strsplit_chars d (a ++ d :: b) = a :: strsplit_chars d b := by
  induction a with
  | nil => simp [strsplit_chars]
  | cons c cs ih =>
    have hc : ¬ c = d := fun e => h (by rw [e]; simp)
    have hcs : d ∉ cs := fun e => h (List.mem_cons_of_mem _ e)
    simp [strsplit_chars, hc, ih hcs]

/-- The hash extracted from an echoed node string is the requested ver when neither the
node nor the ver contains "#". -/
theorem given_sha1_echo (node ver : String) (hnode : '#' ∉ node.data) (hver : '#' ∉ ver.data) :
    given_sha1 (node ++ "#" ++ ver) = some ver := by
  have hdata : (node ++ "#" ++ ver).data = node.data ++ '#' :: ver.data := by
    simp [String.data_append]
  have hne : ¬ (node ++ "#" ++ ver).data = [] := by
    rw [hdata]; simp
  unfold given_sha1 g_strsplit
  rw [if_neg hne, hdata, strsplit_chars_append '#' _ _ hnode, strsplit_chars_single '#' _ hver]
  rfl

theorem strcmp_chars_neg (a b : List Char) : strcmp_chars b a = - strcmp_chars a b := by
  induction a generalizing b with
  | nil => cases b <;> simp [strcmp_chars]
  | cons x xs ih =>
    cases b with
    | nil => simp [strcmp_chars]
    | cons y ys =>
      simp only [strcmp_chars]
      by_cases h1 : x.toNat < y.toNat
      · have h2 : ¬ y.toNat < x.toNat := by omega
        simp [h1, h2]
      · by_cases h2 : y.toNat < x.toNat
        · simp [h1, h2]
        · simp [h1, h2, ih ys]

theorem strcmp_chars_le_trans (a b c : List Char) (hab : strcmp_chars a b ≤ 0)
    (hbc : strcmp_chars b c ≤ 0) : strcmp_chars a c ≤ 0 := by
  induction a generalizing b c with
  | nil => cases c <;> simp [strcmp_chars]
  | cons x xs ih =>
    cases b with
    | nil => simp [strcmp_chars] at hab
    | cons y ys =>
      cases c with
      | nil => simp [strcmp_chars] at hbc
      | cons z zs =>
        simp only [strcmp_chars] at hab hbc ⊢
        by_cases hxy : x.toNat < y.toNat
        · by_cases hyz : y.toNat < z.toNat
          · have hxz : x.toNat < z.toNat := by omega
            simp [hxz]
          · by_cases hzy : z.toNat < y.toNat
            · simp [hyz, hzy] at hbc
            · have hxz : x.toNat < z.toNat := by omega
              simp [hxz]
        · by_cases hyx : y.toNat < x.toNat
          · simp [hxy, hyx] at hab
          · simp only [hxy, hyx, if_false] at hab
            by_cases hyz : y.toNat < z.toNat
            · have hxz : x.toNat < z.toNat := by omega
              simp [hxz]
            · by_cases hzy : z.toNat < y.toNat
              · simp [hyz, hzy] at hbc
              · simp only [hyz, hzy, if_false] at hbc
                have h1 : ¬ x.toNat < z.toNat := by omega
                have h2 : ¬ z.toNat < x.toNat := by omega
                simp only [h1, h2, if_false]
                exact ih ys zs hab hbc

theorem g_strcmp0_le_trans (a b c : String) (hab : g_strcmp0_le a b) (hbc : g_strcmp0_le b c) :
    g_strcmp0_le a c :=
  strcmp_chars_le_trans a.data b.data c.data hab hbc

theorem g_strcmp0_le_of_not_gt (a b : String) (h : ¬ g_strcmp0 (some a) (some b) > 0) :
    g_strcmp0_le a b := by
  unfold g_strcmp0_le
  omega

theorem g_strcmp0_le_of_gt (a b : String) (h : g_strcmp0 (some a) (some b) > 0) :
    g_strcmp0_le b a := by
  unfold g_strcmp0_le
  simp only [g_strcmp0] at h ⊢
  rw [strcmp_chars_neg a.data b.data]
  omega

theorem g_slist_insert_sorted_perm (l : List String) (data : String) :
    (g_slist_insert_sorted l data).Perm (data :: l) := by
  induction l with
  | nil => simp [g_slist_insert_sorted]
  | cons e rest ih =>
    simp only [g_slist_insert_sorted]
    split
    · exact (List.Perm.cons e ih).trans (List.Perm.swap data e rest)
    · exact List.Perm.refl _

theorem g_slist_insert_sorted_sorted (l : List String) (data : String)
    (h : l.Pairwise g_strcmp0_le) : (g_slist_insert_sorted l data).Pairwise g_strcmp0_le := by
  induction l with
  | nil => simp [g_slist_insert_sorted]
  | cons e rest ih =>
    have hrest := (List.pairwise_cons.mp h).2
    have he := (List.pairwise_cons.mp h).1
    simp only [g_slist_insert_sorted]
    split
    · rename_i hgt
      refine List.pairwise_cons.mpr ⟨?_, ih hrest⟩
      intro x hx
      rcases List.mem_cons.mp ((g_slist_insert_sorted_perm rest data).subset hx) with hx' | hx'
      · rw [hx']; exact g_strcmp0_le_of_gt data e hgt
      · exact he x hx'
    · rename_i hgt
      have hde : g_strcmp0_le data e := g_strcmp0_le_of_not_gt data e hgt
      refine List.pairwise_cons.mpr ⟨?_, h⟩
      intro x hx
      rcases List.mem_cons.mp hx with hx' | hx'
      · rw [hx']; exact hde
      · exact g_strcmp0_le_trans data e x hde (he x hx')

theorem collect_items_spec (attr : String) (children : List Stanza) (acc : List String)
    (hacc : acc.Pairwise g_strcmp0_le) :
    (collect_items attr children acc).Pairwise g_strcmp0_le ∧
    (collect_items attr children acc).Perm (item_attrs attr children ++ acc) := by
  induction children generalizing acc with
  | nil => exact ⟨hacc, by simp [collect_items, item_attrs]⟩
  | cons child rest ih =>
    simp only [collect_items, item_attrs, g_strcmp0_eq_zero_iff]
    by_cases hname : xmpp_stanza_get_name child = some "item"
    · simp only [hname, if_true]
      cases hattr : xmpp_stanza_get_attribute child attr with
      | none => exact ih acc hacc
      | some v =>
        simp only
        obtain ⟨h1, h2⟩ := ih (g_slist_insert_sorted acc v)
          (g_slist_insert_sorted_sorted acc v hacc)
        refine ⟨h1, h2.trans ?_⟩
        have hp := (g_slist_insert_sorted_perm acc v).append_left (item_attrs attr rest)
        exact hp.trans (List.perm_middle)
    · simp only [hname, if_false]
      exact ih acc hacc

/-- C29: for a response that is not of type error, the one call that
`_room_affiliation_list_result_handler` makes besides log lines is
`handle_room_affiliation_list` with a list that is in ascending `g_strcmp0` order and is a
permutation of the jid attributes of the `item` children of the first child in the
muc#admin namespace (items without jid skipped, the empty list without such a child); the
same holds for `_room_role_list_result_handler` with the nick attributes. -/
theorem room_list_handlers_sorted (env : Env) (userdata : String) (stanza : Stanza)
    (hresult : xmpp_stanza_get_type stanza ≠ some "error") :
    (∃ jids,
      events (_room_affiliation_list_result_handler env userdata stanza).1 =
        [Call.handle_room_affiliation_list (xmpp_stanza_get_attribute stanza STANZA_ATTR_FROM)
          userdata jids] ∧
      jids.Pairwise g_strcmp0_le ∧
      jids.Perm (item_attrs STANZA_ATTR_JID (muc_admin_items env stanza))) ∧
    (∃ nicks,
      events (_room_role_list_result_handler env userdata stanza).1 =
        [Call.handle_room_role_list (xmpp_stanza_get_attribute stanza STANZA_ATTR_FROM)
          userdata nicks] ∧
      nicks.Pairwise g_strcmp0_le ∧
      nicks.Perm (item_attrs STANZA_ATTR_NICK (muc_admin_items env stanza))) := by
  constructor
  · unfold _room_affiliation_list_result_handler muc_admin_items
    simp only [g_strcmp0_eq_zero_iff, STANZA_TYPE_ERROR, hresult, if_false,
      events_log_fired_append]
    cases xmpp_stanza_get_child_by_ns stanza env.STANZA_NS_MUC_ADMIN with
    | none => exact ⟨[], rfl, List.Pairwise.nil, List.Perm.refl _⟩
    | some query =>
      obtain ⟨h1, h2⟩ := collect_items_spec STANZA_ATTR_JID (xmpp_stanza_get_children query) []
        List.Pairwise.nil
      exact ⟨_, rfl, h1, by simpa using h2⟩
  · unfold _room_role_list_result_handler muc_admin_items
    simp only [g_strcmp0_eq_zero_iff, STANZA_TYPE_ERROR, hresult, if_false,
      events_log_fired_append]
    cases xmpp_stanza_get_child_by_ns stanza env.STANZA_NS_MUC_ADMIN with
    | none => exact ⟨[], rfl, List.Pairwise.nil, List.Perm.refl _⟩
    | some query =>
      obtain ⟨h1, h2⟩ := collect_items_spec STANZA_ATTR_NICK (xmpp_stanza_get_children query) []
        List.Pairwise.nil
      exact ⟨_, rfl, h1, by simpa using h2⟩

/-- C29 witness: two members with a jid, received in descending order, and one without. -/
theorem room_list_handlers_sorted_witness :
    events (_room_affiliation_list_result_handler (example_env "") "member"
        affiliation_list_stanza).1 =
      [Call.handle_room_affiliation_list (some "chat@conf.example.org") "member"
        ["bob@example.org", "carol@example.org"]] := by
  obtain ⟨jids, h, _, _⟩ :=
    (room_list_handlers_sorted (example_env "") "member" affiliation_list_stanza
      (by decide)).1
  rw [h]
  have h' : events (_room_affiliation_list_result_handler (example_env "") "member"
      affiliation_list_stanza).1 =
      [Call.handle_room_affiliation_list (some "chat@conf.example.org") "member"
        ["bob@example.org", "carol@example.org"]] := by rfl
  rw [h] at h'
  exact h'

theorem timed_filter_ping (handlers : List (TimedHandler × Int)) :
    handlers.filter (fun h => decide (h.1 ≠ TimedHandler._ping_timed_handler)) = [] := by
  induction handlers with
  | nil => rfl
  | cons h rest ih =>
    obtain ⟨t, m⟩ := h
    cases t
    simp [List.filter, ih]

/-- C21: after `iq_set_autoping (seconds)` the timed handlers of the connection are, while
connected, none when seconds is 0 and exactly one ping handler when seconds is not 0,
whatever was registered before; while not connected they are unchanged. `iq_add_handlers`
adds a timed ping handler exactly when the stored autoping preference is not 0. -/
theorem autoping_zero_switches_off (status : jabber_conn_status_t) (seconds : Int)
    (handlers : List (TimedHandler × Int)) (xenv : XmppEnv) (STANZA_NS_PING : String)
    (prefs_get_autoping : Int) :
    timed_run handlers (iq_set_autoping status seconds) =
      (if status = jabber_conn_status_t.JABBER_CONNECTED then
        (if seconds = 0 then []
         else [(TimedHandler._ping_timed_handler, to_int32 (seconds * 1000))])
       else handlers) ∧
    timed_added (iq_add_handlers xenv STANZA_NS_PING prefs_get_autoping) =
      (if prefs_get_autoping = 0 then []
       else [(TimedHandler._ping_timed_handler, to_int32 (prefs_get_autoping * 1000))]) := by
  constructor
  · unfold iq_set_autoping
    by_cases hs : status = jabber_conn_status_t.JABBER_CONNECTED
    · by_cases h0 : seconds = 0
      · simp [hs, h0, timed_run, timed_apply, timed_filter_ping]
      · simp [hs, h0, timed_run, timed_apply, timed_filter_ping]
    · simp [hs, timed_run]
  · unfold iq_add_handlers
    by_cases h0 : prefs_get_autoping = 0
    · simp [h0, timed_added]
    · simp [h0, timed_added]

/-- C28: "/autoping 2147484" is accepted, and the timed ping handler is registered with
the interval -2147483296 instead of 2147484000 milliseconds; `iq_add_handlers` does the
same with that stored preference. -/
theorem autoping_interval_wraps :
    (_strtoi "2147484" 0 INT_MAX).2 = some 2147484 ∧
    (2147484 : Int) * 1000 = 2147484000 ∧
    timed_added (cmd_calls (cmd_autoping jabber_conn_status_t.JABBER_CONNECTED ["2147484"]
      (example_help "/autoping seconds"))) =
      [(TimedHandler._ping_timed_handler, -2147483296)] ∧
    timed_added (iq_add_handlers (example_xenv jabber_conn_status_t.JABBER_CONNECTED true none)
      "urn:xmpp:ping" 2147484) = [(TimedHandler._ping_timed_handler, -2147483296)] := by
  decide

/-- The value that `_strtoi` stores lies between the bounds. -/
theorem strtoi_in_range (str : String) (min max v : Int) (h : (_strtoi str min max).2 = some v) :
    min ≤ v ∧ v ≤ max := by
  unfold _strtoi at h
  dsimp only at h
  by_cases h1 : (strtol str.data 0).erange = true ∨ str.data = [] ∨
      (strtol str.data 0).endptr ≠ []
  · rw [if_pos h1] at h
    simp at h
  · rw [if_neg h1] at h
    by_cases h2 : to_int32 (strtol str.data 0).value < min ∨
        to_int32 (strtol str.data 0).value > max
    · rw [if_pos h2] at h
      simp at h
    · rw [if_neg h2] at h
      simp only [Option.some.injEq] at h
      subst h
      omega

/-- C22: while connected, "/priority 4294967296" sets the priority to 0: `_strtoi`
returns 0 for the numeral and stores 0, although its value is not between -128 and 127. -/
theorem priority_accepts_out_of_range :
    _strtoi "4294967296" (-128) 127 = ([], some 0) ∧
    (strtol "4294967296".data 0).value = 4294967296 ∧
    priorities_set (cmd_calls (cmd_priority example_senv ["4294967296"]
      (example_help "/priority value"))) = [0] := by
  refine ⟨by rfl, by decide, by decide⟩

/-- C23: from stored preferences in which typing notifications on implies chat states on
and a gone period above 0 implies chat states on, `cmd_states`, `cmd_outtype` and
`cmd_gone` with any argument return and leave both implications true. "/outtype on" turns
chat states on, "/gone" with a period above 0 turns chat states on, and "/states off"
turns chat states and typing notifications off and sets the gone period to 0. -/
theorem chat_state_commands_consistent (s : PrefState) (hs : chat_states_consistent s)
    (arg : String) (rest : List String) (help : cmd_help_t) :
    (∃ calls, cmd_states (arg :: rest) help = some (calls, true) ∧
      chat_states_consistent (prefs_run s calls) ∧
      (arg = "off" →
        (prefs_run s calls).booleans preference_t.PREF_STATES = false ∧
        (prefs_run s calls).booleans preference_t.PREF_OUTTYPE = false ∧
        (prefs_run s calls).gone = 0)) ∧
    (∃ calls, cmd_outtype (arg :: rest) help = some (calls, true) ∧
      chat_states_consistent (prefs_run s calls) ∧
      (arg = "on" →
        (prefs_run s calls).booleans preference_t.PREF_OUTTYPE = true ∧
        (prefs_run s calls).booleans preference_t.PREF_STATES = true)) ∧
    (∃ calls, cmd_gone (arg :: rest) help = some (calls, true) ∧
      chat_states_consistent (prefs_run s calls) ∧
      (prefs_run s calls).gone = atoi arg ∧
      (atoi arg > 0 → (prefs_run s calls).booleans preference_t.PREF_STATES = true)) := by
  obtain ⟨hs1, hs2⟩ := hs
  refine ⟨?_, ?_, ?_⟩
  · by_cases hon : arg = "on"
    · subst hon
      have hrun : cmd_states ("on" :: rest) help =
          some ([Call.cons_show "Sending chat states enabled." [],
            Call.prefs_set_boolean preference_t.PREF_STATES true], true) := by
        simp [cmd_states, _cmd_set_boolean_preference, strcmp_eq_zero_iff]
      refine ⟨_, hrun, ?_, ?_⟩
      · simp [chat_states_consistent, prefs_run, prefs_apply]
      · intro h; exact absurd h (by decide)
    · by_cases hoff : arg = "off"
      · subst hoff
        have hrun : cmd_states ("off" :: rest) help =
            some ([Call.cons_show "Sending chat states disabled." [],
              Call.prefs_set_boolean preference_t.PREF_STATES false,
              Call.prefs_set_boolean preference_t.PREF_OUTTYPE false,
              Call.prefs_set_gone 0], true) := by
          simp [cmd_states, _cmd_set_boolean_preference, strcmp_eq_zero_iff]
        refine ⟨_, hrun, ?_, ?_⟩
        · simp [chat_states_consistent, prefs_run, prefs_apply]
        · intro _
          simp [prefs_run, prefs_apply]
      · have hrun : cmd_states (arg :: rest) help =
            some ([Call.cons_show ("Usage: " ++ help.usage) []], true) := by
          simp [cmd_states, _cmd_set_boolean_preference, strcmp_eq_zero_iff, hon, hoff]
        refine ⟨_, hrun, ?_, ?_⟩
        · simp only [chat_states_consistent, prefs_run, prefs_apply, List.foldl_cons,
            List.foldl_nil]
          exact ⟨hs1, hs2⟩
        · intro h; exact absurd h hoff
  · by_cases hon : arg = "on"
    · subst hon
      have hrun : cmd_outtype ("on" :: rest) help =
          some ([Call.cons_show "Sending typing notifications enabled." [],
            Call.prefs_set_boolean preference_t.PREF_OUTTYPE true,
            Call.prefs_set_boolean preference_t.PREF_STATES true], true) := by
        simp [cmd_outtype, _cmd_set_boolean_preference, strcmp_eq_zero_iff]
      refine ⟨_, hrun, ?_, ?_⟩
      · simp [chat_states_consistent, prefs_run, prefs_apply]
      · intro _
        simp [prefs_run, prefs_apply]
    · by_cases hoff : arg = "off"
      · subst hoff
        have hrun : cmd_outtype ("off" :: rest) help =
            some ([Call.cons_show "Sending typing notifications disabled." [],
              Call.prefs_set_boolean preference_t.PREF_OUTTYPE false], true) := by
          simp [cmd_outtype, _cmd_set_boolean_preference, strcmp_eq_zero_iff]
        refine ⟨_, hrun, ?_, ?_⟩
        · simp only [chat_states_consistent, prefs_run, prefs_apply, List.foldl_cons,
            List.foldl_nil]
          simp
          exact hs2
        · intro h; exact absurd h (by decide)
      · have hrun : cmd_outtype (arg :: rest) help =
            some ([Call.cons_show ("Usage: " ++ help.usage) []], true) := by
          simp [cmd_outtype, _cmd_set_boolean_preference, strcmp_eq_zero_iff, hon, hoff]
        refine ⟨_, hrun, ?_, ?_⟩
        · simp only [chat_states_consistent, prefs_run, prefs_apply, List.foldl_cons,
            List.foldl_nil]
          exact ⟨hs1, hs2⟩
        · intro h; exact absurd h hon
  · have hshown : ∀ t : PrefState, prefs_apply t
        (if atoi arg = 0 then
          Call.cons_show "Automatic leaving conversations after period disabled." []
        else if atoi arg = 1 then
          Call.cons_show "Leaving conversations after 1 minute of inactivity." []
        else
          Call.cons_show_args "Leaving conversations after %d minutes of inactivity."
            [FormatArg.d (atoi arg)]) = t := by
      intro t
      by_cases h0 : atoi arg = 0
      · simp [h0, prefs_apply]
      · by_cases h1 : atoi arg = 1
        · simp [h1, prefs_apply]
        · simp [h0, h1, prefs_apply]
    unfold cmd_gone
    simp only [List.getElem?_cons_zero]
    refine ⟨_, rfl, ?_⟩
    by_cases hpos : atoi arg > 0
    · simp only [prefs_run, hpos, if_true, List.cons_append, List.nil_append, List.foldl_cons,
        List.foldl_nil, hshown]
      simp [chat_states_consistent, prefs_apply]
    · simp only [prefs_run, hpos, if_false, List.append_nil, List.foldl_cons,
        List.foldl_nil, hshown]
      simp only [chat_states_consistent, prefs_apply]
      refine ⟨⟨hs1, ?_⟩, ?_, ?_⟩
      · intro h; exact absurd h hpos
      · trivial
      · intro h; exact h.elim

/-- C23 witness: "/states off" from a state with typing notifications on and a gone period
of ten minutes. -/
theorem chat_state_commands_consistent_witness :
    ∃ calls, cmd_states ["off"] (example_help "/states on|off") = some (calls, true) ∧
      chat_states_consistent (prefs_run example_prefs calls) ∧
      (prefs_run example_prefs calls).booleans preference_t.PREF_OUTTYPE = false ∧
      (prefs_run example_prefs calls).gone = 0 := by
  obtain ⟨calls, h1, h2, h3⟩ :=
    (chat_state_commands_consistent example_prefs
      ⟨fun _ => by decide, fun _ => by decide⟩ "off" [] (example_help "/states on|off")).1
  exact ⟨calls, h1, h2, (h3 rfl).2.1, (h3 rfl).2.2⟩

/-- Supporting fact for C24: whenever a handler registered by namespace and type returns,
it returns 1. -/
theorem run_stanza_handler_returns_one (env : Env) (xenv : XmppEnv) (renv : RosterEnv)
    (handler : StanzaHandler) (stanza : Stanza) (calls : List Call) (result : Int)
    (h : run_stanza_handler env xenv renv handler stanza = some (calls, result)) :
    result = 1 := by
  cases handler <;>
    simp only [run_stanza_handler, _error_handler, _disco_info_get_handler,
      _disco_items_get_handler, _disco_items_result_handler, _version_get_handler,
      _version_result_handler, _ping_get_handler, _message_error_handler,
      _groupchat_handler, _chat_handler, _chat_handler_carbon, _muc_user_handler,
      _conference_handler, _captcha_handler] at h <;>
    (repeat' split at h) <;>
    first
      | (simp only [Option.some.injEq, Prod.mk.injEq] at h; exact h.2.symm)
      | simp at h

/-- C24 (code bug): `_version_result_handler` is registered by namespace and type in
`iq_add_handlers`, and on a software version result whose sender is not a known resource of
a roster contact, or that has no from attribute, it reads a field through a `NULL` pointer
and does not return, so it does not return 1 on every input stanza. -/
theorem version_result_handler_does_not_return :
    StanzaHandler._version_result_handler ∈
      registered_stanza_handlers
        (iq_add_handlers (example_xenv jabber_conn_status_t.JABBER_CONNECTED true none)
          "urn:xmpp:ping" 0) ∧
    run_stanza_handler (example_env "")
      (example_xenv jabber_conn_status_t.JABBER_CONNECTED true none) example_renv
      StanzaHandler._version_result_handler version_result_unknown_sender = none ∧
    run_stanza_handler (example_env "")
      (example_xenv jabber_conn_status_t.JABBER_CONNECTED true none) example_renv
      StanzaHandler._version_result_handler version_result_without_from = none := by
  refine ⟨by decide, by rfl, by rfl⟩

/-- One level of `cmd_process_input` on the input `/a` when the alias `a` stands for
`/a`: the input is logged and `cmd_process_input` is entered again with `/a`. -/
theorem cmd_process_input_self_alias (depth : Nat) :
    cmd_process_input (depth + 1) (example_ienv [("a", "/a")]) "/a" =
      (Call.log .debug "Input received: %s" [some "/a"] ::
        (cmd_process_input depth (example_ienv [("a", "/a")]) "/a").1,
       (cmd_process_input depth (example_ienv [("a", "/a")]) "/a").2) := by
  rfl

/-- C27 (code bug): `cmd_alias` accepts the alias `a` with the value `/a` when `/a` is not
yet a command or alias, and once that alias is stored the input `/a` makes
`cmd_process_input` enter itself again and again with `/a`: at every depth of nesting the
call has logged the input once per level and has not returned. An alias of a command does
return. -/
theorem alias_expansion_does_not_terminate :
    aliases_added (cmd_process_input 1 (example_ienv []) "/alias add a /a").1 = [("a", "/a")] ∧
    (cmd_process_input 1 (example_ienv []) "/alias add a /a").2 = some true ∧
    (∀ depth : Nat,
      (cmd_process_input depth (example_ienv [("a", "/a")]) "/a").2 = none ∧
      inputs_received (cmd_process_input depth (example_ienv [("a", "/a")]) "/a").1 =
        List.replicate depth (some "/a")) ∧
    (cmd_process_input 2 (example_ienv [("l", "/alias list")]) "/l").2 = some true := by
  refine ⟨by rfl, by rfl, ?_, by rfl⟩
  intro depth
  induction depth with
  | zero => exact ⟨rfl, rfl⟩
  | succ n ih =>
    rw [cmd_process_input_self_alias]
    refine ⟨ih.1, ?_⟩
    simp only [inputs_received, List.replicate_succ]
    rw [ih.2]

end Profanity
